import Mathlib

/-!
# Whole-body trajectory synthesis of the `tough` controller interface

A shallow embedding of `arm_control_interface.cpp`, `chest_control_interface.cpp` and
`wholebody_control_interface.cpp`, and theorems about it.

Conventions of the embedding

* `double` and `float` values are finite and are rational numbers. A value stored into a `float`
  variable or passed for a `float` parameter is rounded by `toFloat`; the result of a `double`
  operation is rounded by `toDouble`, that of a `float` operation by `toFloat` (IEEE 754 binary32
  and binary64, round to nearest, ties to even). Infinities and NaN are not represented: a
  statement about a value stored through a `float` names the range of `float` as a hypothesis.
* The static counter `id_` and the `unique_id` fields are integers without wrap-around.
* A C++ reference parameter that the callee mutates is passed in and returned; the static counter
  is threaded the same way.
* A call that does not return normally yields a `Fault`: `outOfRange` for the exception thrown by
  `std::vector::at`, `undefinedBehaviour` for an unchecked index or iterator past the end and for
  control that flows off the end of a function declared to return a value.
-/

set_option linter.unusedVariables false

namespace Tough

/-! ## Data model -/

/-- Ways in which a call fails to return normally. -/
inductive Fault where
  | outOfRange
  | undefinedBehaviour
  deriving DecidableEq, Repr

deriving instance DecidableEq for Except

/-- The number of halvings that take `n` below `2`, at most `fuel` of them: with `fuel = n` the
largest `k` with `2 ^ k ≤ n`, for `n ≥ 1`. -/
def log2Fuel : Nat → Nat → Nat
  | 0, _ => 0
  | fuel + 1, n => if n < 2 then 0 else log2Fuel fuel (n / 2) + 1

/-- The binary exponent of the positive fraction `n / d`: the largest `e` with `2 ^ e ≤ n / d`. -/
def floorLog2 (n d : Nat) : Int :=
  let e : Int := (log2Fuel n n : Int) - (log2Fuel d d : Int)
  if n * 2 ^ (-e).toNat < d * 2 ^ e.toNat then e - 1 else e

/-- The integer nearest to `n / d`, the even one of two that are equally near. -/
def roundHalfEven (n d : Nat) : Nat :=
  let f := n / d
  let r := n % d
  if 2 * r < d then f else if d < 2 * r then f + 1 else if f % 2 = 0 then f else f + 1

/-- IEEE 754 rounding of a rational to the binary format with `p` significant bits and least
normal exponent `emin`, to nearest and ties to even: the value is rounded to a multiple of
`2 ^ (e - (p - 1))`, where `e` is its binary exponent, or `emin` in the subnormal range. The
exponent has no upper bound here: a result beyond the largest finite value of the format stands
for an overflow. -/
def roundBinary (p : Nat) (emin : Int) (q : ℚ) : ℚ :=
  if q = 0 then 0
  else
    let n := q.num.natAbs
    let d := q.den
    let e := if floorLog2 n d < emin then emin else floorLog2 n d
    let s := e - (p - 1)
    let m := roundHalfEven (n * 2 ^ (-s).toNat) (d * 2 ^ s.toNat)
    mkRat (q.num.sign * m * 2 ^ s.toNat) (2 ^ (-s).toNat)

/-- Conversion of a value to `float` (binary32: 24 significant bits, least normal exponent
`-126`). -/
def toFloat (q : ℚ) : ℚ := roundBinary 24 (-126) q

/-- Rounding of an exact result to `double` (binary64: 53 significant bits, least normal exponent
`-1022`). -/
def toDouble (q : ℚ) : ℚ := roundBinary 53 (-1022) q

/-- The values whose conversion to `float` is finite: those below `2 ^ 128 - 2 ^ 103` in
magnitude, the midpoint between the largest `float` and `2 ^ 128`. -/
def inFloatRange (q : ℚ) : Prop := |q| < 2 ^ 128 - 2 ^ 103

instance (q : ℚ) : Decidable (inFloatRange q) := by
  unfold inFloatRange
  infer_instance

/-- Side of the robot, `LEFT = 0`, `RIGHT = 1`. -/
inductive RobotSide where
  | LEFT
  | RIGHT
  deriving DecidableEq, Repr

/-- Execution mode of a trajectory message, `OVERRIDE = 0`, `QUEUE = 1`. -/
inductive ExecutionMode where
  | OVERRIDE
  | QUEUE
  deriving DecidableEq, Repr

/-- Message `ihmc_msgs::TrajectoryPoint1DRosMessage`. -/
structure TrajectoryPoint1DRosMessage where
  time : ℚ := 0
  position : ℚ := 0
  velocity : ℚ := 0
  unique_id : Int := 0
  deriving DecidableEq

/-- Message `ihmc_msgs::OneDoFJointTrajectoryRosMessage`. -/
structure OneDoFJointTrajectoryRosMessage where
  trajectory_points : List TrajectoryPoint1DRosMessage := []
  unique_id : Int := 0
  deriving DecidableEq

/-- Message `ihmc_msgs::ArmTrajectoryRosMessage`; the defaults are those of a value-initialised
message. -/
structure ArmTrajectoryRosMessage where
  robot_side : RobotSide := RobotSide.LEFT
  execution_mode : ExecutionMode := ExecutionMode.OVERRIDE
  joint_trajectory_messages : List OneDoFJointTrajectoryRosMessage := []
  unique_id : Int := 0
  deriving DecidableEq

/-- Message `trajectory_msgs::JointTrajectoryPoint` (the fields the interface reads). -/
structure JointTrajectoryPoint where
  positions : List ℚ := []
  velocities : List ℚ := []
  time_from_start : ℚ := 0
  deriving DecidableEq

/-- Message `trajectory_msgs::JointTrajectory`. -/
structure JointTrajectory where
  joint_names : List String := []
  points : List JointTrajectoryPoint := []
  deriving DecidableEq

/-- Message `geometry_msgs::Quaternion`. -/
structure Quaternion where
  x : ℚ := 0
  y : ℚ := 0
  z : ℚ := 0
  w : ℚ := 0
  deriving DecidableEq

/-- Message `ihmc_msgs::SO3TrajectoryPointRosMessage`. -/
structure SO3TrajectoryPointRosMessage where
  time : ℚ := 0
  orientation : Quaternion := {}
  angular_velocity : ℚ × ℚ × ℚ := (0, 0, 0)
  unique_id : Int := 0
  deriving DecidableEq

/-- Message `ihmc_msgs::ChestTrajectoryRosMessage`. -/
structure ChestTrajectoryRosMessage where
  execution_mode : ExecutionMode := ExecutionMode.OVERRIDE
  taskspace_trajectory_points : List SO3TrajectoryPointRosMessage := []
  unique_id : Int := 0
  deriving DecidableEq

/-- The fields of `ihmc_msgs::FootTrajectoryRosMessage` and `ihmc_msgs::HandTrajectoryRosMessage`
that the whole-body interface writes. -/
structure TaskspaceLimbRosMessage where
  robot_side : RobotSide := RobotSide.LEFT
  execution_mode : ExecutionMode := ExecutionMode.OVERRIDE
  unique_id : Int := 0
  deriving DecidableEq

/-- Message `ihmc_msgs::WholeBodyTrajectoryRosMessage`. -/
structure WholeBodyTrajectoryRosMessage where
  left_hand_trajectory_message : TaskspaceLimbRosMessage := {}
  right_hand_trajectory_message : TaskspaceLimbRosMessage := {}
  left_arm_trajectory_message : ArmTrajectoryRosMessage := {}
  right_arm_trajectory_message : ArmTrajectoryRosMessage := {}
  chest_trajectory_message : ChestTrajectoryRosMessage := {}
  left_foot_trajectory_message : TaskspaceLimbRosMessage := {}
  right_foot_trajectory_message : TaskspaceLimbRosMessage := {}
  unique_id : Int := 0
  deriving DecidableEq

/-- The members of `ArmControlInterface` that the trajectory builders read. `leftArmJointNames` is
what `rd_->getLeftArmJointNames` returns. -/
structure ArmControlInterface where
  joint_limits_left_ : List (ℚ × ℚ)
  joint_limits_right_ : List (ℚ × ℚ)
  NUM_ARM_JOINTS : Nat
  leftArmJointNames : List String

/-- The members of `ChestControlInterface` used by the whole-body composer.
`transformQuaternion q` is the result of `state_informer_->transformQuaternion` from the pelvis
frame to the world frame: its success flag and the quaternion it leaves in the output argument.
`defaultMode` is the default argument of `setupFrameAndMode`, declared in the class header. -/
structure ChestControlInterface where
  transformQuaternion : Quaternion → Bool × Quaternion
  defaultMode : ExecutionMode

/-- The members of `WholebodyControlInterface`. `createChestQuaternion` is the member function of
that name, which is declared in the class header. -/
structure WholebodyControlInterface where
  chest_joint_names_ : List String
  left_arm_joint_names_ : List String
  right_arm_joint_names_ : List String
  chestController_ : ChestControlInterface
  armController_ : ArmControlInterface
  createChestQuaternion : Nat → JointTrajectoryPoint → Quaternion

/-- Message `geometry_msgs::Pose`: position and orientation. -/
structure Pose where
  position : ℚ × ℚ × ℚ := (0, 0, 0)
  orientation : Quaternion := {}
  deriving DecidableEq

/-- Message `ihmc_msgs::SE3TrajectoryPointRosMessage` (the fields the interface writes). -/
structure SE3TrajectoryPointRosMessage where
  time : ℚ := 0
  position : ℚ × ℚ × ℚ := (0, 0, 0)
  orientation : Quaternion := {}
  unique_id : Int := 0
  deriving DecidableEq

/-- Message `ihmc_msgs::HandTrajectoryRosMessage` (the fields the interface writes). -/
structure HandTrajectoryRosMessage where
  robot_side : RobotSide := RobotSide.LEFT
  execution_mode : ExecutionMode := ExecutionMode.OVERRIDE
  taskspace_trajectory_points : List SE3TrajectoryPointRosMessage := []
  unique_id : Int := 0
  deriving DecidableEq

/-- Body part named by a go-home command. -/
inductive BodyPart where
  | ARM
  | CHEST
  | PELVIS
  deriving DecidableEq, Repr

/-- Message `ihmc_msgs::GoHomeRosMessage`. -/
structure GoHomeRosMessage where
  body_part : BodyPart := BodyPart.ARM
  robot_side : RobotSide := RobotSide.LEFT
  trajectory_time : ℚ := 0
  unique_id : Int := 0
  deriving DecidableEq

/-- Observable effects of a command, in order: a message handed to one of the publishers
(`m_wholebodyPub`, `armTrajectoryPublisher`, `chestTrajPublisher_`, the two
`homePositionPublisher`s, `taskSpaceTrajectoryPublisher`) or a blocking `ros::Duration(seconds).sleep()`. -/
inductive Effect where
  | publishWholeBody (msg : WholeBodyTrajectoryRosMessage)
  | sleep (seconds : ℚ)
  | publishArm (msg : ArmTrajectoryRosMessage)
  | publishChest (msg : ChestTrajectoryRosMessage)
  | publishGoHome (msg : GoHomeRosMessage)
  | publishHand (msg : HandTrajectoryRosMessage)
  deriving DecidableEq

/-- The messages published on the whole-body publisher `m_wholebodyPub`, in order. -/
def wholebodyPublished : List Effect → List WholeBodyTrajectoryRosMessage
  | [] => []
  | Effect.publishWholeBody msg :: rest => msg :: wholebodyPublished rest
  | _ :: rest => wholebodyPublished rest

/-- The messages published on the arm publisher `armTrajectoryPublisher`, in order. -/
def armPublished : List Effect → List ArmTrajectoryRosMessage
  | [] => []
  | Effect.publishArm msg :: rest => msg :: armPublished rest
  | _ :: rest => armPublished rest

/-! ## Embedding of `arm_control_interface.cpp` -/

/-- Lines 73-75 of `arm_control_interface.cpp`: the three assignments to the `float` variable
`position`, each of which converts a `double`. -/
def clampWaypoint (limit : ℚ × ℚ) (p : ℚ) : ℚ :=
  let position := toFloat p
  let position := toFloat (if p < limit.1 then limit.1 else p)
  let position := toFloat (if p > limit.2 then limit.2 else p)
  position

/-- Body of the loop of the joint-waypoint overload (lines 70-83) for joint `i`; `id` is the local
copy of the counter taken on entry, the state is the counter and the message. -/
def appendWaypointJoint (joint_limits_ : List (ℚ × ℚ)) (time : ℚ) (pos : List ℚ) (id : Int)
    (st : Int × ArmTrajectoryRosMessage) (i : Nat) : Except Fault (Int × ArmTrajectoryRosMessage) :=
  match pos[i]? with
  | none => Except.error Fault.undefinedBehaviour
  | some x =>
    match joint_limits_[i]? with
    | none => Except.error Fault.outOfRange
    | some limit =>
      let p : TrajectoryPoint1DRosMessage :=
        { time := time, position := clampWaypoint limit x, velocity := 0, unique_id := st.1 }
      match st.2.joint_trajectory_messages[i]? with
      | none => Except.error Fault.undefinedBehaviour
      | some jt =>
        Except.ok (st.1 + 1,
          { st.2 with
            joint_trajectory_messages :=
              st.2.joint_trajectory_messages.set i
                { jt with trajectory_points := jt.trajectory_points ++ [p], unique_id := id } })

/-- Joint-waypoint overload `ArmControlInterface::appendTrajectoryPoint(armMsg, time, pos)`
(lines 55-89). The parameter `time` is a `const float`: the argument is converted on entry. -/
def ArmControlInterface.appendTrajectoryPoint (self : ArmControlInterface) (id_ : Int)
    (armMsg : ArmTrajectoryRosMessage) (time : ℚ) (pos : List ℚ) :
    Except Fault (Int × ArmTrajectoryRosMessage) :=
  let joint_limits_ :=
    if armMsg.robot_side = RobotSide.LEFT then self.joint_limits_left_ else self.joint_limits_right_
  let id := id_
  if pos.length ≠ self.NUM_ARM_JOINTS then
    Except.ok (id_, armMsg)
  else
    (List.range self.NUM_ARM_JOINTS).foldlM
      (appendWaypointJoint joint_limits_ (toFloat time) pos id) (id_, armMsg)

/-- Lines 279-289: the value of the `float` variable `position` of the external-point overload,
which is initialised with the position and assigned a limit in the two branches. -/
def clampExternal (limit : ℚ × ℚ) (p : ℚ) : ℚ :=
  let position := toFloat p
  if p ≤ limit.1 then toFloat limit.1
  else if p ≥ limit.2 then toFloat limit.2
  else position

/-- Body of the loop of the external-point overload (lines 272-294) for joint `i`. -/
def appendExternalJoint (joint_limits_ : List (ℚ × ℚ)) (joint_names : List String)
    (point : JointTrajectoryPoint) (st : Int × ArmTrajectoryRosMessage) (i : Nat) :
    Except Fault (Int × ArmTrajectoryRosMessage) :=
  match joint_names[i]?, point.positions[i]?, joint_limits_[i]? with
  | some _, some x, some limit =>
    match point.velocities[i]? with
    | none => Except.error Fault.undefinedBehaviour
    | some v =>
      let p : TrajectoryPoint1DRosMessage :=
        { time := point.time_from_start, position := clampExternal limit x, velocity := v,
          unique_id := st.1 }
      match st.2.joint_trajectory_messages[i]? with
      | none => Except.error Fault.undefinedBehaviour
      | some jt =>
        Except.ok (st.1 + 1,
          { st.2 with
            joint_trajectory_messages :=
              st.2.joint_trajectory_messages.set i
                { jt with trajectory_points := jt.trajectory_points ++ [p] } })
  | _, _, _ => Except.error Fault.undefinedBehaviour

/-- External-point overload `ArmControlInterface::appendTrajectoryPoint(msg, point)`
(lines 257-298). -/
def ArmControlInterface.appendTrajectoryPointExternal (self : ArmControlInterface) (id_ : Int)
    (msg : ArmTrajectoryRosMessage) (point : JointTrajectoryPoint) :
    Except Fault (Int × ArmTrajectoryRosMessage) :=
  if point.positions.length ≠ self.NUM_ARM_JOINTS then
    Except.ok (id_, msg)
  else
    let joint_limits_ :=
      if msg.robot_side = RobotSide.LEFT then self.joint_limits_left_ else self.joint_limits_right_
    let joint_names := self.leftArmJointNames
    (List.range self.NUM_ARM_JOINTS).foldlM (appendExternalJoint joint_limits_ joint_names point)
      (id_, msg)

/-- Function `ArmControlInterface::setupArmMessage` (lines 146-152). It is declared `bool` and its
body has no `return` statement: after the four assignments control flows off the end of a
function that returns a value, which is undefined behaviour, so no call returns normally. -/
def ArmControlInterface.setupArmMessage (self : ArmControlInterface) (id_ : Int) (side : RobotSide)
    (msg : ArmTrajectoryRosMessage) : Except Fault (Int × ArmTrajectoryRosMessage) :=
  let msg : ArmTrajectoryRosMessage :=
    { msg with
      joint_trajectory_messages := List.replicate self.NUM_ARM_JOINTS {}
      robot_side := side
      unique_id := id_ }
  let id_ := id_ + 1
  Except.error Fault.undefinedBehaviour

/-! ## Embedding of `chest_control_interface.cpp` -/

/-- Function `ChestControlInterface::setupFrameAndMode` (lines 49-59). -/
def ChestControlInterface.setupFrameAndMode (self : ChestControlInterface) (id_ : Int)
    (msg : ChestTrajectoryRosMessage) (mode : ExecutionMode) : Int × ChestTrajectoryRosMessage :=
  (id_ + 1, { msg with unique_id := id_, execution_mode := mode })

/-- Function `ChestControlInterface::appendChestTrajectoryPoint` (lines 61-73); the success flag of
`transformQuaternion` is not read. -/
def ChestControlInterface.appendChestTrajectoryPoint (self : ChestControlInterface)
    (q_in : Quaternion) (msg : ChestTrajectoryRosMessage) (time : ℚ) : ChestTrajectoryRosMessage :=
  let q_in := (self.transformQuaternion q_in).2
  let point : SO3TrajectoryPointRosMessage :=
    { orientation := { x := q_in.x, y := q_in.y, z := q_in.z, w := q_in.w }, time := time }
  { msg with taskspace_trajectory_points := msg.taskspace_trajectory_points ++ [point] }

/-! ## Embedding of `wholebody_control_interface.cpp` -/

/-- Function `WholebodyControlInterface::initializeWholebodyMessage` (lines 42-88); `now` is the
value of `ros::Time::now().toSec()` stored into the integer id. -/
def initializeWholebodyMessage (now : Int) (wholeBodyMsg : WholeBodyTrajectoryRosMessage) :
    WholeBodyTrajectoryRosMessage :=
  { wholeBodyMsg with
    unique_id := now
    left_arm_trajectory_message :=
      { wholeBodyMsg.left_arm_trajectory_message with
        robot_side := RobotSide.LEFT, execution_mode := ExecutionMode.OVERRIDE, unique_id := 0 }
    right_arm_trajectory_message :=
      { wholeBodyMsg.right_arm_trajectory_message with
        robot_side := RobotSide.RIGHT, execution_mode := ExecutionMode.OVERRIDE, unique_id := 0 }
    left_foot_trajectory_message :=
      { wholeBodyMsg.left_foot_trajectory_message with
        robot_side := RobotSide.LEFT, execution_mode := ExecutionMode.OVERRIDE, unique_id := 0 }
    right_foot_trajectory_message :=
      { wholeBodyMsg.right_foot_trajectory_message with
        robot_side := RobotSide.RIGHT, execution_mode := ExecutionMode.OVERRIDE, unique_id := 0 }
    left_hand_trajectory_message :=
      { wholeBodyMsg.left_hand_trajectory_message with
        robot_side := RobotSide.LEFT, execution_mode := ExecutionMode.OVERRIDE, unique_id := 0 }
    right_hand_trajectory_message :=
      { wholeBodyMsg.right_hand_trajectory_message with
        robot_side := RobotSide.RIGHT, execution_mode := ExecutionMode.OVERRIDE, unique_id := 0 }
    chest_trajectory_message :=
      { wholeBodyMsg.chest_trajectory_message with
        execution_mode := ExecutionMode.OVERRIDE, unique_id := 0 } }

/-- Function `WholebodyControlInterface::validateJointSequenceInTrajectory` (lines 174-189): the
loop advances through `joint_names` and `start` together; `traj_joint_names[start]` is an
unchecked index. -/
def validateJointSequenceInTrajectory (traj_joint_names : List String) :
    List String → Nat → Except Fault Bool
  | [], _ => Except.ok true
  | joint_name :: rest, start =>
    match traj_joint_names[start]? with
    | none => Except.error Fault.undefinedBehaviour
    | some name =>
      if name ≠ joint_name then Except.ok false
      else validateJointSequenceInTrajectory traj_joint_names rest (start + 1)

/-- The calls `std::find(names.begin(), names.end(), x)` and `std::distance(names.begin(), it)`:
`none` when the iterator is `names.end()`. -/
def findJoint (names : List String) (x : String) : Option Nat :=
  if names.indexOf x < names.length then some (names.indexOf x) else none

/-- Outcome of looking a limb group up in a trajectory. -/
inductive GroupStart where
  | absent
  | mismatch
  | found (start : Nat)
  deriving DecidableEq

/-- The value of the `long` start index after a group has been looked up: `none` is `-1`. -/
def GroupStart.start : GroupStart → Option Nat
  | GroupStart.found s => some s
  | _ => none

/-- The search and validation that `parseTrajectory` performs for each group (lines 95-107,
111-123 and 127-139): `absent` when the first expected name is not in the trajectory, `mismatch`
when validation fails (the function then returns), `found start` otherwise. -/
def locateGroup (traj_joint_names group_joint_names : List String) : Except Fault GroupStart :=
  match group_joint_names[0]? with
  | none => Except.error Fault.outOfRange
  | some first =>
    match findJoint traj_joint_names first with
    | none => Except.ok GroupStart.absent
    | some start =>
      match validateJointSequenceInTrajectory traj_joint_names group_joint_names start with
      | Except.error f => Except.error f
      | Except.ok false => Except.ok GroupStart.mismatch
      | Except.ok true => Except.ok (GroupStart.found start)

/-- Lines 156-162 and 164-170: when the arm has a start index, copy `groupSize` positions from
that offset and append them as a joint waypoint. The iterators passed to `assign` must lie inside
`positions`. The `double` `traj_point_time` is the argument for the `const float time` parameter
of the append, which converts it. -/
def appendArmSlice (arm : ArmControlInterface) (start : Option Nat) (groupSize : Nat)
    (point : JointTrajectoryPoint) (traj_point_time : ℚ) (id_ : Int)
    (armMsg : ArmTrajectoryRosMessage) : Except Fault (Int × ArmTrajectoryRosMessage) :=
  match start with
  | none => Except.ok (id_, armMsg)
  | some s =>
    if s + groupSize ≤ point.positions.length then
      let positions := (point.positions.drop s).take groupSize
      arm.appendTrajectoryPoint id_ armMsg traj_point_time positions
    else Except.error Fault.undefinedBehaviour

/-- Body of the point loop of `parseTrajectory` (lines 146-170) for one trajectory point. -/
def WholebodyControlInterface.parsePoint (self : WholebodyControlInterface)
    (chest_start l_arm_start r_arm_start : Option Nat)
    (st : Int × WholeBodyTrajectoryRosMessage) (point : JointTrajectoryPoint) :
    Except Fault (Int × WholeBodyTrajectoryRosMessage) :=
  let traj_point_time := point.time_from_start
  let chest : ChestTrajectoryRosMessage :=
    match chest_start with
    | some s =>
      self.chestController_.appendChestTrajectoryPoint (self.createChestQuaternion s point)
        st.2.chest_trajectory_message traj_point_time
    | none => st.2.chest_trajectory_message
  match appendArmSlice self.armController_ l_arm_start self.left_arm_joint_names_.length point
      traj_point_time st.1 st.2.left_arm_trajectory_message with
  | Except.error f => Except.error f
  | Except.ok l =>
    match appendArmSlice self.armController_ r_arm_start self.right_arm_joint_names_.length point
        traj_point_time l.1 st.2.right_arm_trajectory_message with
    | Except.error f => Except.error f
    | Except.ok r =>
      Except.ok (r.1,
        { st.2 with
          chest_trajectory_message := chest
          left_arm_trajectory_message := l.2
          right_arm_trajectory_message := r.2 })

/-- Function `WholebodyControlInterface::parseTrajectory` (lines 90-172). The state is the shared
counter and the message under construction. -/
def WholebodyControlInterface.parseTrajectory (self : WholebodyControlInterface)
    (traj : JointTrajectory) (id_ : Int) (wholeBodyMsg : WholeBodyTrajectoryRosMessage) :
    Except Fault (Int × WholeBodyTrajectoryRosMessage) :=
  match locateGroup traj.joint_names self.chest_joint_names_ with
  | Except.error f => Except.error f
  | Except.ok GroupStart.mismatch => Except.ok (id_, wholeBodyMsg)
  | Except.ok chest =>
    let st1 : Int × WholeBodyTrajectoryRosMessage :=
      match chest with
      | GroupStart.found _ =>
        let c := self.chestController_.setupFrameAndMode id_ wholeBodyMsg.chest_trajectory_message
          self.chestController_.defaultMode
        (c.1, { wholeBodyMsg with chest_trajectory_message := c.2 })
      | _ => (id_, wholeBodyMsg)
    match locateGroup traj.joint_names self.left_arm_joint_names_ with
    | Except.error f => Except.error f
    | Except.ok GroupStart.mismatch => Except.ok st1
    | Except.ok l_arm =>
      let stage2 : Except Fault (Int × WholeBodyTrajectoryRosMessage) :=
        match l_arm with
        | GroupStart.found _ =>
          match self.armController_.setupArmMessage st1.1 RobotSide.LEFT
              st1.2.left_arm_trajectory_message with
          | Except.error f => Except.error f
          | Except.ok a => Except.ok (a.1, { st1.2 with left_arm_trajectory_message := a.2 })
        | _ => Except.ok st1
      match stage2 with
      | Except.error f => Except.error f
      | Except.ok st2 =>
        match locateGroup traj.joint_names self.right_arm_joint_names_ with
        | Except.error f => Except.error f
        | Except.ok GroupStart.mismatch => Except.ok st2
        | Except.ok r_arm =>
          let stage3 : Except Fault (Int × WholeBodyTrajectoryRosMessage) :=
            match r_arm with
            | GroupStart.found _ =>
              match self.armController_.setupArmMessage st2.1 RobotSide.RIGHT
                  st2.2.right_arm_trajectory_message with
              | Except.error f => Except.error f
              | Except.ok a => Except.ok (a.1, { st2.2 with right_arm_trajectory_message := a.2 })
            | _ => Except.ok st2
          match stage3 with
          | Except.error f => Except.error f
          | Except.ok st3 =>
            traj.points.foldlM (self.parsePoint chest.start l_arm.start r_arm.start) st3

/-- The mutable state of the process: the shared counter `id_` and the effects so far. -/
structure Process where
  id_ : Int
  effects : List Effect

/-- Function `WholebodyControlInterface::executeTrajectory` (lines 32-40). -/
def WholebodyControlInterface.executeTrajectory (self : WholebodyControlInterface) (now : Int)
    (traj : JointTrajectory) (proc : Process) : Except Fault Process :=
  let wholeBodyMsg : WholeBodyTrajectoryRosMessage := {}
  let wholeBodyMsg := initializeWholebodyMessage now wholeBodyMsg
  match self.parseTrajectory traj proc.id_ wholeBodyMsg with
  | Except.error f => Except.error f
  | Except.ok r =>
    Except.ok
      { id_ := r.1
        effects := proc.effects ++ [Effect.publishWholeBody r.2, Effect.sleep (1 / 10)] }

/-! ## Commands of `arm_control_interface.cpp` -/

/-- The pair `{first + 0.01, second - 0.01}` of lines 25 and 26: the literal `0.01` is the
`double` nearest to `1/100`, and the sum and the difference are `double` operations. -/
def shrunk (l : ℚ × ℚ) : ℚ × ℚ :=
  (toDouble (l.1 + toDouble (1 / 100)), toDouble (l.2 - toDouble (1 / 100)))

/-- Body of the loop of the `ArmControlInterface` constructor (lines 23-27) for joint `i`; the
state is the pair of limit tables, both indexed without a check. -/
def shrinkJoint (st : List (ℚ × ℚ) × List (ℚ × ℚ)) (i : Nat) :
    Except Fault (List (ℚ × ℚ) × List (ℚ × ℚ)) :=
  match st.1[i]?, st.2[i]? with
  | some l, some r => Except.ok (st.1.set i (shrunk l), st.2.set i (shrunk r))
  | _, _ => Except.error Fault.undefinedBehaviour

/-- Constructor `ArmControlInterface::ArmControlInterface` (lines 7-30). `leftLimits` and
`rightLimits` are what `rd_->getLeftArmJointLimits` and `rd_->getRightArmJointLimits` return,
`leftArmJointNames` what `rd_->getLeftArmJointNames` returns. -/
def ArmControlInterface.construct (id_ : Int) (leftLimits rightLimits : List (ℚ × ℚ))
    (leftArmJointNames : List String) : Except Fault (Int × ArmControlInterface) :=
  match (List.range leftLimits.length).foldlM shrinkJoint (leftLimits, rightLimits) with
  | Except.error f => Except.error f
  | Except.ok limits =>
    Except.ok (id_ + 1,
      { joint_limits_left_ := limits.1, joint_limits_right_ := limits.2,
        NUM_ARM_JOINTS := limits.1.length, leftArmJointNames := leftArmJointNames })

/-- Member `ZERO_POSE`, initialised by the constructor (line 8). -/
def ZERO_POSE : List ℚ := [0, 0, 0, 0, 0, 0, 0]

/-- Function `ArmControlInterface::moveToDefaultPose` (lines 95-105); the parameter `time` is a
`float`. -/
def ArmControlInterface.moveToDefaultPose (self : ArmControlInterface) (side : RobotSide)
    (time : ℚ) (proc : Process) : Process :=
  let time := toFloat time
  let go_home : GoHomeRosMessage :=
    { body_part := BodyPart.ARM, robot_side := side, trajectory_time := time,
      unique_id := proc.id_ }
  { id_ := proc.id_ + 1
    effects := proc.effects ++ [Effect.publishGoHome go_home, Effect.sleep (1 / 2)] }

/-- Function `ArmControlInterface::moveToZeroPose` (lines 111-126); the parameter `time` is a
`const float`, and both branches of the test on `side` make the same call. -/
def ArmControlInterface.moveToZeroPose (self : ArmControlInterface) (side : RobotSide) (time : ℚ)
    (proc : Process) : Except Fault Process :=
  let time := toFloat time
  let arm_traj : ArmTrajectoryRosMessage :=
    { joint_trajectory_messages := List.replicate self.NUM_ARM_JOINTS {}
      robot_side := side
      unique_id := proc.id_ }
  match self.appendTrajectoryPoint (proc.id_ + 1) arm_traj time ZERO_POSE with
  | Except.error f => Except.error f
  | Except.ok r => Except.ok { id_ := r.1, effects := proc.effects ++ [Effect.publishArm r.2] }

/-- The loop of `generateArmMessage` (lines 159-168) from the waypoint at distance `index` from
the start; `count` is `arm_pose.size()` and `time` the `float` parameter. The expression
`time / arm_pose.size() * index_from_start` is evaluated in `float`: both integers are converted,
and the quotient and the product are rounded. The Boolean is `false` when the loop has returned
`false`. -/
def generateArmLoop (self : ArmControlInterface) (time : ℚ) (count : Nat) :
    List (List ℚ) → Nat → Int × ArmTrajectoryRosMessage →
      Except Fault (Bool × (Int × ArmTrajectoryRosMessage))
  | [], _, st => Except.ok (true, st)
  | pose :: rest, index, st =>
    if pose.length ≠ self.NUM_ARM_JOINTS then
      Except.ok (false, st)
    else
      let index_from_start := index + 1
      match self.appendTrajectoryPoint st.1 st.2
          (toFloat (toFloat (time / toFloat count) * toFloat index_from_start)) pose with
      | Except.error f => Except.error f
      | Except.ok st' => generateArmLoop self time count rest (index + 1) st'

/-- Function `ArmControlInterface::generateArmMessage(side, arm_pose, time, msg)`
(lines 154-170); the parameter `time` is a `const float`. -/
def ArmControlInterface.generateArmMessage (self : ArmControlInterface) (id_ : Int)
    (side : RobotSide) (arm_pose : List (List ℚ)) (time : ℚ) (msg : ArmTrajectoryRosMessage) :
    Except Fault (Bool × (Int × ArmTrajectoryRosMessage)) :=
  let time := toFloat time
  match self.setupArmMessage id_ side msg with
  | Except.error f => Except.error f
  | Except.ok st => generateArmLoop self time arm_pose.length arm_pose 0 st

/-- Function `ArmControlInterface::generateArmMessage(side, arm_trajectory, msg)`
(lines 172-180). -/
def ArmControlInterface.generateArmMessageFromTrajectories (self : ArmControlInterface)
    (id_ : Int) (side : RobotSide) (arm_trajectory : List OneDoFJointTrajectoryRosMessage)
    (msg : ArmTrajectoryRosMessage) : Int × ArmTrajectoryRosMessage :=
  (id_ + 1,
    { msg with
      execution_mode := ExecutionMode.OVERRIDE
      joint_trajectory_messages := arm_trajectory
      robot_side := side
      unique_id := id_ })

/-- Function `ArmControlInterface::moveArmJoints(side, arm_pose, time)` (lines 134-144); the
parameter `time` is a `const float`. -/
def ArmControlInterface.moveArmJoints (self : ArmControlInterface) (side : RobotSide)
    (arm_pose : List (List ℚ)) (time : ℚ) (proc : Process) : Except Fault (Bool × Process) :=
  let time := toFloat time
  let arm_traj : ArmTrajectoryRosMessage := {}
  match self.generateArmMessage proc.id_ side arm_pose time arm_traj with
  | Except.error f => Except.error f
  | Except.ok r =>
    if r.1 then
      Except.ok (true, { id_ := r.2.1, effects := proc.effects ++ [Effect.publishArm r.2.2] })
    else
      Except.ok (false, { id_ := r.2.1, effects := proc.effects })

/-- Type `ArmControlInterface::ArmJointData`. -/
structure ArmJointData where
  side : RobotSide
  arm_pose : List ℚ
  time : ℚ
  deriving DecidableEq

/-- Local variables of `moveArmJoints(arm_data)` together with the shared counter. -/
structure PairedArmState where
  id_ : Int
  arm_traj_r : ArmTrajectoryRosMessage
  arm_traj_l : ArmTrajectoryRosMessage
  right : Bool
  left : Bool

/-- The loop of `moveArmJoints(arm_data)` (lines 202-223). The Boolean is `false` when the loop has
returned `false`. -/
def moveArmJointsLoop (self : ArmControlInterface) :
    List ArmJointData → PairedArmState → Except Fault (Bool × PairedArmState)
  | [], st => Except.ok (true, st)
  | d :: rest, st =>
    if d.arm_pose.length ≠ self.NUM_ARM_JOINTS then
      Except.ok (false, st)
    else if d.side = RobotSide.RIGHT then
      match self.appendTrajectoryPoint st.id_ { st.arm_traj_r with robot_side := d.side } d.time
          d.arm_pose with
      | Except.error f => Except.error f
      | Except.ok r =>
        moveArmJointsLoop self rest { st with id_ := r.1, arm_traj_r := r.2, right := true }
    else
      match self.appendTrajectoryPoint st.id_ { st.arm_traj_l with robot_side := d.side } d.time
          d.arm_pose with
      | Except.error f => Except.error f
      | Except.ok r =>
        moveArmJointsLoop self rest { st with id_ := r.1, arm_traj_l := r.2, left := true }

/-- Function `ArmControlInterface::moveArmJoints(arm_data)` (lines 187-232); the delay `0.02` is
`1/50` seconds. -/
def ArmControlInterface.moveArmJointsPaired (self : ArmControlInterface)
    (arm_data : List ArmJointData) (proc : Process) : Except Fault (Bool × Process) :=
  let arm_traj_r : ArmTrajectoryRosMessage :=
    { joint_trajectory_messages := List.replicate self.NUM_ARM_JOINTS {}, unique_id := proc.id_ }
  let arm_traj_l : ArmTrajectoryRosMessage :=
    { joint_trajectory_messages := List.replicate self.NUM_ARM_JOINTS {},
      unique_id := proc.id_ + 1 }
  match moveArmJointsLoop self arm_data
      { id_ := proc.id_ + 2, arm_traj_r := arm_traj_r, arm_traj_l := arm_traj_l, right := false,
        left := false } with
  | Except.error f => Except.error f
  | Except.ok r =>
    if r.1 then
      Except.ok (true,
        { id_ := r.2.id_
          effects := proc.effects ++
            (if r.2.right then [Effect.publishArm r.2.arm_traj_r] else []) ++
            [Effect.sleep (1 / 50)] ++
            (if r.2.left then [Effect.publishArm r.2.arm_traj_l] else []) })
    else
      Except.ok (false, { id_ := r.2.id_, effects := proc.effects })

/-- Function `ArmControlInterface::moveArmTrajectory` (lines 305-321). -/
def ArmControlInterface.moveArmTrajectory (self : ArmControlInterface) (side : RobotSide)
    (traj : JointTrajectory) (proc : Process) : Except Fault Process :=
  let arm_traj : ArmTrajectoryRosMessage :=
    { joint_trajectory_messages := List.replicate traj.points.length {}
      robot_side := side
      unique_id := proc.id_ }
  match traj.points.foldlM (fun st point => self.appendTrajectoryPointExternal st.1 st.2 point)
      (proc.id_ + 1, arm_traj) with
  | Except.error f => Except.error f
  | Except.ok r => Except.ok { id_ := r.1, effects := proc.effects ++ [Effect.publishArm r.2] }

/-- Function `ArmControlInterface::poseToSE3TrajectoryPoint` (lines 389-401). -/
def ArmControlInterface.poseToSE3TrajectoryPoint (self : ArmControlInterface) (id_ : Int)
    (pose : Pose) (point : SE3TrajectoryPointRosMessage) : Int × SE3TrajectoryPointRosMessage :=
  (id_ + 1,
    { point with
      position := (pose.position.1, pose.position.2.1, pose.position.2.2)
      orientation :=
        { x := pose.orientation.x, y := pose.orientation.y, z := pose.orientation.z,
          w := pose.orientation.w }
      unique_id := id_ })

/-! ## Commands of `chest_control_interface.cpp` -/

/-- Function `ChestControlInterface::generateMessage(quat, time, execution_mode, msg)`
(lines 75-80); the parameter `time` is a `const float`. -/
def ChestControlInterface.generateMessage (self : ChestControlInterface) (id_ : Int)
    (quat : Quaternion) (time : ℚ) (execution_mode : ExecutionMode)
    (msg : ChestTrajectoryRosMessage) : Int × ChestTrajectoryRosMessage :=
  let time := toFloat time
  let r := self.setupFrameAndMode id_ msg execution_mode
  (r.1, self.appendChestTrajectoryPoint quat r.2 time)

/-- Function `ChestControlInterface::controlChest(quat, time, execution_mode)` (lines 34-42); the
parameter `time` is a `const float`. -/
def ChestControlInterface.controlChest (self : ChestControlInterface) (quat : Quaternion)
    (time : ℚ) (execution_mode : ExecutionMode) (proc : Process) : Process :=
  let time := toFloat time
  let msg : ChestTrajectoryRosMessage := {}
  let r := self.generateMessage proc.id_ quat time execution_mode msg
  { id_ := r.1, effects := proc.effects ++ [Effect.publishChest r.2] }

/-- Function `ChestControlInterface::resetPose` (lines 111-119); the parameter `time` is a
`float`. -/
def ChestControlInterface.resetPose (self : ChestControlInterface) (time : ℚ) (proc : Process) :
    Process :=
  let time := toFloat time
  let go_home : GoHomeRosMessage :=
    { body_part := BodyPart.CHEST, trajectory_time := time, unique_id := proc.id_ }
  { id_ := proc.id_ + 1
    effects := proc.effects ++ [Effect.publishGoHome go_home, Effect.sleep (1 / 2)] }

/-! ## Task-space pair of `arm_control_interface.cpp` -/

/-- Record `ArmControlInterface::ArmTaskSpaceData`: side, pose and time of one task-space entry. -/
structure ArmTaskSpaceData where
  side : RobotSide
  pose : Pose
  time : ℚ
  deriving DecidableEq

/-- Local state of `moveArmInTaskSpace(arm_data, baseForControl)`: the shared counter and the two
hand messages. -/
structure PairedHandState where
  id_ : Int
  msg_l : HandTrajectoryRosMessage
  msg_r : HandTrajectoryRosMessage

/-- One iteration of the loop of `moveArmInTaskSpace(arm_data, baseForControl)` (lines 563-583). -/
def moveArmInTaskSpaceStep (self : ArmControlInterface) (st : PairedHandState)
    (i : ArmTaskSpaceData) : PairedHandState :=
  if i.side = RobotSide.RIGHT then
    let msg_r := { st.msg_r with robot_side := i.side }
    let r := self.poseToSE3TrajectoryPoint st.id_ i.pose {}
    let point := { r.2 with time := i.time }
    { st with
      id_ := r.1
      msg_r :=
        { msg_r with taskspace_trajectory_points := msg_r.taskspace_trajectory_points ++ [point] } }
  else
    let msg_l := { st.msg_l with robot_side := i.side }
    let r := self.poseToSE3TrajectoryPoint st.id_ i.pose {}
    let point := { r.2 with time := i.time }
    { st with
      id_ := r.1
      msg_l :=
        { msg_l with taskspace_trajectory_points := msg_l.taskspace_trajectory_points ++ [point] } }

/-- Function `ArmControlInterface::moveArmInTaskSpace(arm_data, baseForControl)` (lines 543-588);
`baseForControl` is only used in commented-out lines, and the delay `0.02` is `1/50` seconds. -/
def ArmControlInterface.moveArmInTaskSpace (self : ArmControlInterface)
    (arm_data : List ArmTaskSpaceData) (baseForControl : Int) (proc : Process) : Process :=
  let msg_l : HandTrajectoryRosMessage := {}
  let msg_r : HandTrajectoryRosMessage := {}
  let msg_l := { msg_l with taskspace_trajectory_points := [] }
  let msg_r := { msg_r with taskspace_trajectory_points := [] }
  let msg_l := { msg_l with unique_id := proc.id_, execution_mode := ExecutionMode.OVERRIDE }
  let msg_r := { msg_r with unique_id := proc.id_ + 1, execution_mode := ExecutionMode.OVERRIDE }
  let st := arm_data.foldl (moveArmInTaskSpaceStep self)
    { id_ := proc.id_ + 2, msg_l := msg_l, msg_r := msg_r }
  { id_ := st.id_
    effects := proc.effects ++
      [Effect.publishHand st.msg_r, Effect.sleep (1 / 50), Effect.publishHand st.msg_l] }

/-! ## Sequential runs and the shared counter -/

/-- An operation of the arm, chest or whole-body interface, with its arguments. -/
inductive Command where
  | armConstruct (leftLimits rightLimits : List (ℚ × ℚ)) (leftArmJointNames : List String)
  | setupArmMessage (side : RobotSide) (msg : ArmTrajectoryRosMessage)
  | appendTrajectoryPoint (msg : ArmTrajectoryRosMessage) (time : ℚ) (pos : List ℚ)
  | appendTrajectoryPointExternal (msg : ArmTrajectoryRosMessage) (point : JointTrajectoryPoint)
  | generateArmMessage (side : RobotSide) (arm_pose : List (List ℚ)) (time : ℚ)
      (msg : ArmTrajectoryRosMessage)
  | generateArmMessageFromTrajectories (side : RobotSide)
      (arm_trajectory : List OneDoFJointTrajectoryRosMessage) (msg : ArmTrajectoryRosMessage)
  | moveToDefaultPose (side : RobotSide) (time : ℚ)
  | moveToZeroPose (side : RobotSide) (time : ℚ)
  | moveArmJoints (side : RobotSide) (arm_pose : List (List ℚ)) (time : ℚ)
  | moveArmJointsPaired (arm_data : List ArmJointData)
  | moveArmTrajectory (side : RobotSide) (traj : JointTrajectory)
  | poseToSE3TrajectoryPoint (pose : Pose) (point : SE3TrajectoryPointRosMessage)
  | moveArmInTaskSpace (arm_data : List ArmTaskSpaceData) (baseForControl : Int)
  | setupFrameAndMode (msg : ChestTrajectoryRosMessage) (mode : ExecutionMode)
  | controlChest (quat : Quaternion) (time : ℚ) (execution_mode : ExecutionMode)
  | resetPose (time : ℚ)
  | executeTrajectory (now : Int) (traj : JointTrajectory)

/-- One operation run on the process state; messages and objects the operation hands back to its
caller are dropped, the shared counter and the effects are kept. -/
def WholebodyControlInterface.execCommand (self : WholebodyControlInterface) :
    Command → Process → Except Fault Process
  | Command.armConstruct leftLimits rightLimits names, proc =>
    match ArmControlInterface.construct proc.id_ leftLimits rightLimits names with
    | Except.error f => Except.error f
    | Except.ok r => Except.ok { proc with id_ := r.1 }
  | Command.setupArmMessage side msg, proc =>
    match self.armController_.setupArmMessage proc.id_ side msg with
    | Except.error f => Except.error f
    | Except.ok r => Except.ok { proc with id_ := r.1 }
  | Command.appendTrajectoryPoint msg time pos, proc =>
    match self.armController_.appendTrajectoryPoint proc.id_ msg time pos with
    | Except.error f => Except.error f
    | Except.ok r => Except.ok { proc with id_ := r.1 }
  | Command.appendTrajectoryPointExternal msg point, proc =>
    match self.armController_.appendTrajectoryPointExternal proc.id_ msg point with
    | Except.error f => Except.error f
    | Except.ok r => Except.ok { proc with id_ := r.1 }
  | Command.generateArmMessage side arm_pose time msg, proc =>
    match self.armController_.generateArmMessage proc.id_ side arm_pose time msg with
    | Except.error f => Except.error f
    | Except.ok r => Except.ok { proc with id_ := r.2.1 }
  | Command.generateArmMessageFromTrajectories side arm_trajectory msg, proc =>
    Except.ok
      { proc with
        id_ := (self.armController_.generateArmMessageFromTrajectories proc.id_ side
          arm_trajectory msg).1 }
  | Command.moveToDefaultPose side time, proc =>
    Except.ok (self.armController_.moveToDefaultPose side time proc)
  | Command.moveToZeroPose side time, proc => self.armController_.moveToZeroPose side time proc
  | Command.moveArmJoints side arm_pose time, proc =>
    match self.armController_.moveArmJoints side arm_pose time proc with
    | Except.error f => Except.error f
    | Except.ok r => Except.ok r.2
  | Command.moveArmJointsPaired arm_data, proc =>
    match self.armController_.moveArmJointsPaired arm_data proc with
    | Except.error f => Except.error f
    | Except.ok r => Except.ok r.2
  | Command.moveArmTrajectory side traj, proc =>
    self.armController_.moveArmTrajectory side traj proc
  | Command.poseToSE3TrajectoryPoint pose point, proc =>
    Except.ok
      { proc with id_ := (self.armController_.poseToSE3TrajectoryPoint proc.id_ pose point).1 }
  | Command.moveArmInTaskSpace arm_data baseForControl, proc =>
    Except.ok (self.armController_.moveArmInTaskSpace arm_data baseForControl proc)
  | Command.setupFrameAndMode msg mode, proc =>
    Except.ok { proc with id_ := (self.chestController_.setupFrameAndMode proc.id_ msg mode).1 }
  | Command.controlChest quat time execution_mode, proc =>
    Except.ok (self.chestController_.controlChest quat time execution_mode proc)
  | Command.resetPose time, proc => Except.ok (self.chestController_.resetPose time proc)
  | Command.executeTrajectory now traj, proc => self.executeTrajectory now traj proc

/-- A sequential run of operations. -/
def WholebodyControlInterface.runCommands (self : WholebodyControlInterface)
    (cmds : List Command) (proc : Process) : Except Fault Process :=
  cmds.foldlM (fun p c => self.execCommand c p) proc

/-! ## The shared counter with the ids it has yielded

The operations once more, over a counter that records the value each `id_++` yields. Every
definition of this section is the definition of the same name above with the counter of type
`Minted` in place of the integer; nothing else differs. -/

/-- The static counter `id_` together with the values its post-increments have yielded so far,
the oldest first. -/
structure Minted where
  id_ : Int
  ids : List Int
  deriving DecidableEq

/-- The expression `id_++`: the value it yields, and the counter afterwards with that value
recorded. -/
def Minted.postIncrement (c : Minted) : Int × Minted :=
  (c.id_, { id_ := c.id_ + 1, ids := c.ids ++ [c.id_] })

/-- The mutable state of the process over the recording counter. -/
structure LoggedProcess where
  counter : Minted
  effects : List Effect

/-- Body of the loop of the joint-waypoint overload (lines 70-83) for joint `i`, with
`p.unique_id = id_++` of line 80 recorded. -/
def appendWaypointJointLogged (joint_limits_ : List (ℚ × ℚ)) (time : ℚ) (pos : List ℚ) (id : Int)
    (st : Minted × ArmTrajectoryRosMessage) (i : Nat) :
    Except Fault (Minted × ArmTrajectoryRosMessage) :=
  match pos[i]? with
  | none => Except.error Fault.undefinedBehaviour
  | some x =>
    match joint_limits_[i]? with
    | none => Except.error Fault.outOfRange
    | some limit =>
      let p : TrajectoryPoint1DRosMessage :=
        { time := time, position := clampWaypoint limit x, velocity := 0,
          unique_id := st.1.postIncrement.1 }
      match st.2.joint_trajectory_messages[i]? with
      | none => Except.error Fault.undefinedBehaviour
      | some jt =>
        Except.ok (st.1.postIncrement.2,
          { st.2 with
            joint_trajectory_messages :=
              st.2.joint_trajectory_messages.set i
                { jt with trajectory_points := jt.trajectory_points ++ [p], unique_id := id } })

/-- Joint-waypoint overload `ArmControlInterface::appendTrajectoryPoint(armMsg, time, pos)`
(lines 55-89) over the recording counter. -/
def ArmControlInterface.appendTrajectoryPointLogged (self : ArmControlInterface) (c : Minted)
    (armMsg : ArmTrajectoryRosMessage) (time : ℚ) (pos : List ℚ) :
    Except Fault (Minted × ArmTrajectoryRosMessage) :=
  let joint_limits_ :=
    if armMsg.robot_side = RobotSide.LEFT then self.joint_limits_left_ else self.joint_limits_right_
  let id := c.id_
  if pos.length ≠ self.NUM_ARM_JOINTS then
    Except.ok (c, armMsg)
  else
    (List.range self.NUM_ARM_JOINTS).foldlM
      (appendWaypointJointLogged joint_limits_ (toFloat time) pos id) (c, armMsg)

/-- Body of the loop of the external-point overload (lines 272-294) for joint `i`, with
`p.unique_id = id_++` of line 293 recorded. -/
def appendExternalJointLogged (joint_limits_ : List (ℚ × ℚ)) (joint_names : List String)
    (point : JointTrajectoryPoint) (st : Minted × ArmTrajectoryRosMessage) (i : Nat) :
    Except Fault (Minted × ArmTrajectoryRosMessage) :=
  match joint_names[i]?, point.positions[i]?, joint_limits_[i]? with
  | some _, some x, some limit =>
    match point.velocities[i]? with
    | none => Except.error Fault.undefinedBehaviour
    | some v =>
      let p : TrajectoryPoint1DRosMessage :=
        { time := point.time_from_start, position := clampExternal limit x, velocity := v,
          unique_id := st.1.postIncrement.1 }
      match st.2.joint_trajectory_messages[i]? with
      | none => Except.error Fault.undefinedBehaviour
      | some jt =>
        Except.ok (st.1.postIncrement.2,
          { st.2 with
            joint_trajectory_messages :=
              st.2.joint_trajectory_messages.set i
                { jt with trajectory_points := jt.trajectory_points ++ [p] } })
  | _, _, _ => Except.error Fault.undefinedBehaviour

/-- External-point overload `ArmControlInterface::appendTrajectoryPoint(msg, point)`
(lines 257-298) over the recording counter. -/
def ArmControlInterface.appendTrajectoryPointExternalLogged (self : ArmControlInterface)
    (c : Minted) (msg : ArmTrajectoryRosMessage) (point : JointTrajectoryPoint) :
    Except Fault (Minted × ArmTrajectoryRosMessage) :=
  if point.positions.length ≠ self.NUM_ARM_JOINTS then
    Except.ok (c, msg)
  else
    let joint_limits_ :=
      if msg.robot_side = RobotSide.LEFT then self.joint_limits_left_ else self.joint_limits_right_
    let joint_names := self.leftArmJointNames
    (List.range self.NUM_ARM_JOINTS).foldlM
      (appendExternalJointLogged joint_limits_ joint_names point) (c, msg)

/-- Function `ArmControlInterface::setupArmMessage` (lines 146-152) over the recording counter;
as above, no call returns normally. -/
def ArmControlInterface.setupArmMessageLogged (self : ArmControlInterface) (c : Minted)
    (side : RobotSide) (msg : ArmTrajectoryRosMessage) :
    Except Fault (Minted × ArmTrajectoryRosMessage) :=
  let msg : ArmTrajectoryRosMessage :=
    { msg with
      joint_trajectory_messages := List.replicate self.NUM_ARM_JOINTS {}
      robot_side := side
      unique_id := c.postIncrement.1 }
  let c := c.postIncrement.2
  Except.error Fault.undefinedBehaviour

/-- Constructor `ArmControlInterface::ArmControlInterface` (lines 7-30) over the recording
counter; the `id_++` is that of line 10. -/
def ArmControlInterface.constructLogged (c : Minted) (leftLimits rightLimits : List (ℚ × ℚ))
    (leftArmJointNames : List String) : Except Fault (Minted × ArmControlInterface) :=
  let c := c.postIncrement.2
  match (List.range leftLimits.length).foldlM shrinkJoint (leftLimits, rightLimits) with
  | Except.error f => Except.error f
  | Except.ok limits =>
    Except.ok (c,
      { joint_limits_left_ := limits.1, joint_limits_right_ := limits.2,
        NUM_ARM_JOINTS := limits.1.length, leftArmJointNames := leftArmJointNames })

/-- Function `ArmControlInterface::moveToDefaultPose` (lines 95-105) over the recording
counter. -/
def ArmControlInterface.moveToDefaultPoseLogged (self : ArmControlInterface) (side : RobotSide)
    (time : ℚ) (proc : LoggedProcess) : LoggedProcess :=
  let time := toFloat time
  let go_home : GoHomeRosMessage :=
    { body_part := BodyPart.ARM, robot_side := side, trajectory_time := time,
      unique_id := proc.counter.postIncrement.1 }
  { counter := proc.counter.postIncrement.2
    effects := proc.effects ++ [Effect.publishGoHome go_home, Effect.sleep (1 / 2)] }

/-- Function `ArmControlInterface::moveToZeroPose` (lines 111-126) over the recording counter. -/
def ArmControlInterface.moveToZeroPoseLogged (self : ArmControlInterface) (side : RobotSide)
    (time : ℚ) (proc : LoggedProcess) : Except Fault LoggedProcess :=
  let time := toFloat time
  let arm_traj : ArmTrajectoryRosMessage :=
    { joint_trajectory_messages := List.replicate self.NUM_ARM_JOINTS {}
      robot_side := side
      unique_id := proc.counter.postIncrement.1 }
  match self.appendTrajectoryPointLogged proc.counter.postIncrement.2 arm_traj time
      ZERO_POSE with
  | Except.error f => Except.error f
  | Except.ok r =>
    Except.ok { counter := r.1, effects := proc.effects ++ [Effect.publishArm r.2] }

/-- The loop of `generateArmMessage` (lines 159-168) over the recording counter. -/
def generateArmLoopLogged (self : ArmControlInterface) (time : ℚ) (count : Nat) :
    List (List ℚ) → Nat → Minted × ArmTrajectoryRosMessage →
      Except Fault (Bool × (Minted × ArmTrajectoryRosMessage))
  | [], _, st => Except.ok (true, st)
  | pose :: rest, index, st =>
    if pose.length ≠ self.NUM_ARM_JOINTS then
      Except.ok (false, st)
    else
      let index_from_start := index + 1
      match self.appendTrajectoryPointLogged st.1 st.2
          (toFloat (toFloat (time / toFloat count) * toFloat index_from_start)) pose with
      | Except.error f => Except.error f
      | Except.ok st' => generateArmLoopLogged self time count rest (index + 1) st'

/-- Function `ArmControlInterface::generateArmMessage(side, arm_pose, time, msg)`
(lines 154-170) over the recording counter. -/
def ArmControlInterface.generateArmMessageLogged (self : ArmControlInterface) (c : Minted)
    (side : RobotSide) (arm_pose : List (List ℚ)) (time : ℚ) (msg : ArmTrajectoryRosMessage) :
    Except Fault (Bool × (Minted × ArmTrajectoryRosMessage)) :=
  let time := toFloat time
  match self.setupArmMessageLogged c side msg with
  | Except.error f => Except.error f
  | Except.ok st => generateArmLoopLogged self time arm_pose.length arm_pose 0 st

/-- Function `ArmControlInterface::generateArmMessage(side, arm_trajectory, msg)`
(lines 172-180) over the recording counter. -/
def ArmControlInterface.generateArmMessageFromTrajectoriesLogged (self : ArmControlInterface)
    (c : Minted) (side : RobotSide) (arm_trajectory : List OneDoFJointTrajectoryRosMessage)
    (msg : ArmTrajectoryRosMessage) : Minted × ArmTrajectoryRosMessage :=
  (c.postIncrement.2,
    { msg with
      execution_mode := ExecutionMode.OVERRIDE
      joint_trajectory_messages := arm_trajectory
      robot_side := side
      unique_id := c.postIncrement.1 })

/-- Function `ArmControlInterface::moveArmJoints(side, arm_pose, time)` (lines 134-144) over the
recording counter. -/
def ArmControlInterface.moveArmJointsLogged (self : ArmControlInterface) (side : RobotSide)
    (arm_pose : List (List ℚ)) (time : ℚ) (proc : LoggedProcess) :
    Except Fault (Bool × LoggedProcess) :=
  let time := toFloat time
  let arm_traj : ArmTrajectoryRosMessage := {}
  match self.generateArmMessageLogged proc.counter side arm_pose time arm_traj with
  | Except.error f => Except.error f
  | Except.ok r =>
    if r.1 then
      Except.ok (true,
        { counter := r.2.1, effects := proc.effects ++ [Effect.publishArm r.2.2] })
    else
      Except.ok (false, { counter := r.2.1, effects := proc.effects })

/-- Local variables of `moveArmJoints(arm_data)` together with the recording counter. -/
structure PairedArmStateLogged where
  counter : Minted
  arm_traj_r : ArmTrajectoryRosMessage
  arm_traj_l : ArmTrajectoryRosMessage
  right : Bool
  left : Bool

/-- The loop of `moveArmJoints(arm_data)` (lines 202-223) over the recording counter. -/
def moveArmJointsLoopLogged (self : ArmControlInterface) :
    List ArmJointData → PairedArmStateLogged → Except Fault (Bool × PairedArmStateLogged)
  | [], st => Except.ok (true, st)
  | d :: rest, st =>
    if d.arm_pose.length ≠ self.NUM_ARM_JOINTS then
      Except.ok (false, st)
    else if d.side = RobotSide.RIGHT then
      match self.appendTrajectoryPointLogged st.counter
          { st.arm_traj_r with robot_side := d.side } d.time d.arm_pose with
      | Except.error f => Except.error f
      | Except.ok r =>
        moveArmJointsLoopLogged self rest
          { st with counter := r.1, arm_traj_r := r.2, right := true }
    else
      match self.appendTrajectoryPointLogged st.counter
          { st.arm_traj_l with robot_side := d.side } d.time d.arm_pose with
      | Except.error f => Except.error f
      | Except.ok r =>
        moveArmJointsLoopLogged self rest
          { st with counter := r.1, arm_traj_l := r.2, left := true }

/-- Function `ArmControlInterface::moveArmJoints(arm_data)` (lines 187-232) over the recording
counter; the two `id_++` are those of lines 196 and 200. -/
def ArmControlInterface.moveArmJointsPairedLogged (self : ArmControlInterface)
    (arm_data : List ArmJointData) (proc : LoggedProcess) : Except Fault (Bool × LoggedProcess) :=
  let arm_traj_r : ArmTrajectoryRosMessage :=
    { joint_trajectory_messages := List.replicate self.NUM_ARM_JOINTS {},
      unique_id := proc.counter.postIncrement.1 }
  let arm_traj_l : ArmTrajectoryRosMessage :=
    { joint_trajectory_messages := List.replicate self.NUM_ARM_JOINTS {},
      unique_id := proc.counter.postIncrement.2.postIncrement.1 }
  match moveArmJointsLoopLogged self arm_data
      { counter := proc.counter.postIncrement.2.postIncrement.2, arm_traj_r := arm_traj_r,
        arm_traj_l := arm_traj_l, right := false, left := false } with
  | Except.error f => Except.error f
  | Except.ok r =>
    if r.1 then
      Except.ok (true,
        { counter := r.2.counter
          effects := proc.effects ++
            (if r.2.right then [Effect.publishArm r.2.arm_traj_r] else []) ++
            [Effect.sleep (1 / 50)] ++
            (if r.2.left then [Effect.publishArm r.2.arm_traj_l] else []) })
    else
      Except.ok (false, { counter := r.2.counter, effects := proc.effects })

/-- Function `ArmControlInterface::moveArmTrajectory` (lines 305-321) over the recording
counter. -/
def ArmControlInterface.moveArmTrajectoryLogged (self : ArmControlInterface) (side : RobotSide)
    (traj : JointTrajectory) (proc : LoggedProcess) : Except Fault LoggedProcess :=
  let arm_traj : ArmTrajectoryRosMessage :=
    { joint_trajectory_messages := List.replicate traj.points.length {}
      robot_side := side
      unique_id := proc.counter.postIncrement.1 }
  match traj.points.foldlM
      (fun st point => self.appendTrajectoryPointExternalLogged st.1 st.2 point)
      (proc.counter.postIncrement.2, arm_traj) with
  | Except.error f => Except.error f
  | Except.ok r =>
    Except.ok { counter := r.1, effects := proc.effects ++ [Effect.publishArm r.2] }

/-- Function `ArmControlInterface::poseToSE3TrajectoryPoint` (lines 389-401) over the recording
counter. -/
def ArmControlInterface.poseToSE3TrajectoryPointLogged (self : ArmControlInterface) (c : Minted)
    (pose : Pose) (point : SE3TrajectoryPointRosMessage) : Minted × SE3TrajectoryPointRosMessage :=
  (c.postIncrement.2,
    { point with
      position := (pose.position.1, pose.position.2.1, pose.position.2.2)
      orientation :=
        { x := pose.orientation.x, y := pose.orientation.y, z := pose.orientation.z,
          w := pose.orientation.w }
      unique_id := c.postIncrement.1 })

/-- Local state of `moveArmInTaskSpace(arm_data, baseForControl)` with the recording counter. -/
structure PairedHandStateLogged where
  counter : Minted
  msg_l : HandTrajectoryRosMessage
  msg_r : HandTrajectoryRosMessage

/-- One iteration of the loop of `moveArmInTaskSpace(arm_data, baseForControl)` (lines 563-583)
over the recording counter. -/
def moveArmInTaskSpaceStepLogged (self : ArmControlInterface) (st : PairedHandStateLogged)
    (i : ArmTaskSpaceData) : PairedHandStateLogged :=
  if i.side = RobotSide.RIGHT then
    let msg_r := { st.msg_r with robot_side := i.side }
    let r := self.poseToSE3TrajectoryPointLogged st.counter i.pose {}
    let point := { r.2 with time := i.time }
    { st with
      counter := r.1
      msg_r :=
        { msg_r with taskspace_trajectory_points := msg_r.taskspace_trajectory_points ++ [point] } }
  else
    let msg_l := { st.msg_l with robot_side := i.side }
    let r := self.poseToSE3TrajectoryPointLogged st.counter i.pose {}
    let point := { r.2 with time := i.time }
    { st with
      counter := r.1
      msg_l :=
        { msg_l with taskspace_trajectory_points := msg_l.taskspace_trajectory_points ++ [point] } }

/-- Function `ArmControlInterface::moveArmInTaskSpace(arm_data, baseForControl)` (lines 543-588)
over the recording counter; the two `id_++` are those of lines 556 and 560. -/
def ArmControlInterface.moveArmInTaskSpaceLogged (self : ArmControlInterface)
    (arm_data : List ArmTaskSpaceData) (baseForControl : Int) (proc : LoggedProcess) :
    LoggedProcess :=
  let msg_l : HandTrajectoryRosMessage := {}
  let msg_r : HandTrajectoryRosMessage := {}
  let msg_l := { msg_l with taskspace_trajectory_points := [] }
  let msg_r := { msg_r with taskspace_trajectory_points := [] }
  let msg_l :=
    { msg_l with
      unique_id := proc.counter.postIncrement.1, execution_mode := ExecutionMode.OVERRIDE }
  let msg_r :=
    { msg_r with
      unique_id := proc.counter.postIncrement.2.postIncrement.1
      execution_mode := ExecutionMode.OVERRIDE }
  let st := arm_data.foldl (moveArmInTaskSpaceStepLogged self)
    { counter := proc.counter.postIncrement.2.postIncrement.2, msg_l := msg_l, msg_r := msg_r }
  { counter := st.counter
    effects := proc.effects ++
      [Effect.publishHand st.msg_r, Effect.sleep (1 / 50), Effect.publishHand st.msg_l] }

/-- Function `ChestControlInterface::setupFrameAndMode` (lines 49-59) over the recording
counter. -/
def ChestControlInterface.setupFrameAndModeLogged (self : ChestControlInterface) (c : Minted)
    (msg : ChestTrajectoryRosMessage) (mode : ExecutionMode) :
    Minted × ChestTrajectoryRosMessage :=
  (c.postIncrement.2, { msg with unique_id := c.postIncrement.1, execution_mode := mode })

/-- Function `ChestControlInterface::generateMessage(quat, time, execution_mode, msg)`
(lines 75-80) over the recording counter. -/
def ChestControlInterface.generateMessageLogged (self : ChestControlInterface) (c : Minted)
    (quat : Quaternion) (time : ℚ) (execution_mode : ExecutionMode)
    (msg : ChestTrajectoryRosMessage) : Minted × ChestTrajectoryRosMessage :=
  let time := toFloat time
  let r := self.setupFrameAndModeLogged c msg execution_mode
  (r.1, self.appendChestTrajectoryPoint quat r.2 time)

/-- Function `ChestControlInterface::controlChest(quat, time, execution_mode)` (lines 34-42) over
the recording counter. -/
def ChestControlInterface.controlChestLogged (self : ChestControlInterface) (quat : Quaternion)
    (time : ℚ) (execution_mode : ExecutionMode) (proc : LoggedProcess) : LoggedProcess :=
  let time := toFloat time
  let msg : ChestTrajectoryRosMessage := {}
  let r := self.generateMessageLogged proc.counter quat time execution_mode msg
  { counter := r.1, effects := proc.effects ++ [Effect.publishChest r.2] }

/-- Function `ChestControlInterface::resetPose` (lines 111-119) over the recording counter. -/
def ChestControlInterface.resetPoseLogged (self : ChestControlInterface) (time : ℚ)
    (proc : LoggedProcess) : LoggedProcess :=
  let time := toFloat time
  let go_home : GoHomeRosMessage :=
    { body_part := BodyPart.CHEST, trajectory_time := time,
      unique_id := proc.counter.postIncrement.1 }
  { counter := proc.counter.postIncrement.2
    effects := proc.effects ++ [Effect.publishGoHome go_home, Effect.sleep (1 / 2)] }

/-- Lines 156-162 and 164-170 of `wholebody_control_interface.cpp` over the recording counter. -/
def appendArmSliceLogged (arm : ArmControlInterface) (start : Option Nat) (groupSize : Nat)
    (point : JointTrajectoryPoint) (traj_point_time : ℚ) (c : Minted)
    (armMsg : ArmTrajectoryRosMessage) : Except Fault (Minted × ArmTrajectoryRosMessage) :=
  match start with
  | none => Except.ok (c, armMsg)
  | some s =>
    if s + groupSize ≤ point.positions.length then
      let positions := (point.positions.drop s).take groupSize
      arm.appendTrajectoryPointLogged c armMsg traj_point_time positions
    else Except.error Fault.undefinedBehaviour

/-- Body of the point loop of `parseTrajectory` (lines 146-170) over the recording counter. -/
def WholebodyControlInterface.parsePointLogged (self : WholebodyControlInterface)
    (chest_start l_arm_start r_arm_start : Option Nat)
    (st : Minted × WholeBodyTrajectoryRosMessage) (point : JointTrajectoryPoint) :
    Except Fault (Minted × WholeBodyTrajectoryRosMessage) :=
  let traj_point_time := point.time_from_start
  let chest : ChestTrajectoryRosMessage :=
    match chest_start with
    | some s =>
      self.chestController_.appendChestTrajectoryPoint (self.createChestQuaternion s point)
        st.2.chest_trajectory_message traj_point_time
    | none => st.2.chest_trajectory_message
  match appendArmSliceLogged self.armController_ l_arm_start self.left_arm_joint_names_.length
      point traj_point_time st.1 st.2.left_arm_trajectory_message with
  | Except.error f => Except.error f
  | Except.ok l =>
    match appendArmSliceLogged self.armController_ r_arm_start
        self.right_arm_joint_names_.length point traj_point_time l.1
        st.2.right_arm_trajectory_message with
    | Except.error f => Except.error f
    | Except.ok r =>
      Except.ok (r.1,
        { st.2 with
          chest_trajectory_message := chest
          left_arm_trajectory_message := l.2
          right_arm_trajectory_message := r.2 })

/-- Function `WholebodyControlInterface::parseTrajectory` (lines 90-172) over the recording
counter. -/
def WholebodyControlInterface.parseTrajectoryLogged (self : WholebodyControlInterface)
    (traj : JointTrajectory) (c : Minted) (wholeBodyMsg : WholeBodyTrajectoryRosMessage) :
    Except Fault (Minted × WholeBodyTrajectoryRosMessage) :=
  match locateGroup traj.joint_names self.chest_joint_names_ with
  | Except.error f => Except.error f
  | Except.ok GroupStart.mismatch => Except.ok (c, wholeBodyMsg)
  | Except.ok chest =>
    let st1 : Minted × WholeBodyTrajectoryRosMessage :=
      match chest with
      | GroupStart.found _ =>
        let r := self.chestController_.setupFrameAndModeLogged c
          wholeBodyMsg.chest_trajectory_message self.chestController_.defaultMode
        (r.1, { wholeBodyMsg with chest_trajectory_message := r.2 })
      | _ => (c, wholeBodyMsg)
    match locateGroup traj.joint_names self.left_arm_joint_names_ with
    | Except.error f => Except.error f
    | Except.ok GroupStart.mismatch => Except.ok st1
    | Except.ok l_arm =>
      let stage2 : Except Fault (Minted × WholeBodyTrajectoryRosMessage) :=
        match l_arm with
        | GroupStart.found _ =>
          match self.armController_.setupArmMessageLogged st1.1 RobotSide.LEFT
              st1.2.left_arm_trajectory_message with
          | Except.error f => Except.error f
          | Except.ok a => Except.ok (a.1, { st1.2 with left_arm_trajectory_message := a.2 })
        | _ => Except.ok st1
      match stage2 with
      | Except.error f => Except.error f
      | Except.ok st2 =>
        match locateGroup traj.joint_names self.right_arm_joint_names_ with
        | Except.error f => Except.error f
        | Except.ok GroupStart.mismatch => Except.ok st2
        | Except.ok r_arm =>
          let stage3 : Except Fault (Minted × WholeBodyTrajectoryRosMessage) :=
            match r_arm with
            | GroupStart.found _ =>
              match self.armController_.setupArmMessageLogged st2.1 RobotSide.RIGHT
                  st2.2.right_arm_trajectory_message with
              | Except.error f => Except.error f
              | Except.ok a => Except.ok (a.1, { st2.2 with right_arm_trajectory_message := a.2 })
            | _ => Except.ok st2
          match stage3 with
          | Except.error f => Except.error f
          | Except.ok st3 =>
            traj.points.foldlM (self.parsePointLogged chest.start l_arm.start r_arm.start) st3

/-- Function `WholebodyControlInterface::executeTrajectory` (lines 32-40) over the recording
counter. -/
def WholebodyControlInterface.executeTrajectoryLogged (self : WholebodyControlInterface)
    (now : Int) (traj : JointTrajectory) (proc : LoggedProcess) : Except Fault LoggedProcess :=
  let wholeBodyMsg : WholeBodyTrajectoryRosMessage := {}
  let wholeBodyMsg := initializeWholebodyMessage now wholeBodyMsg
  match self.parseTrajectoryLogged traj proc.counter wholeBodyMsg with
  | Except.error f => Except.error f
  | Except.ok r =>
    Except.ok
      { counter := r.1
        effects := proc.effects ++ [Effect.publishWholeBody r.2, Effect.sleep (1 / 10)] }

/-- One operation run on the process state over the recording counter. -/
def WholebodyControlInterface.execCommandLogged (self : WholebodyControlInterface) :
    Command → LoggedProcess → Except Fault LoggedProcess
  | Command.armConstruct leftLimits rightLimits names, proc =>
    match ArmControlInterface.constructLogged proc.counter leftLimits rightLimits names with
    | Except.error f => Except.error f
    | Except.ok r => Except.ok { proc with counter := r.1 }
  | Command.setupArmMessage side msg, proc =>
    match self.armController_.setupArmMessageLogged proc.counter side msg with
    | Except.error f => Except.error f
    | Except.ok r => Except.ok { proc with counter := r.1 }
  | Command.appendTrajectoryPoint msg time pos, proc =>
    match self.armController_.appendTrajectoryPointLogged proc.counter msg time pos with
    | Except.error f => Except.error f
    | Except.ok r => Except.ok { proc with counter := r.1 }
  | Command.appendTrajectoryPointExternal msg point, proc =>
    match self.armController_.appendTrajectoryPointExternalLogged proc.counter msg point with
    | Except.error f => Except.error f
    | Except.ok r => Except.ok { proc with counter := r.1 }
  | Command.generateArmMessage side arm_pose time msg, proc =>
    match self.armController_.generateArmMessageLogged proc.counter side arm_pose time msg with
    | Except.error f => Except.error f
    | Except.ok r => Except.ok { proc with counter := r.2.1 }
  | Command.generateArmMessageFromTrajectories side arm_trajectory msg, proc =>
    Except.ok
      { proc with
        counter := (self.armController_.generateArmMessageFromTrajectoriesLogged proc.counter
          side arm_trajectory msg).1 }
  | Command.moveToDefaultPose side time, proc =>
    Except.ok (self.armController_.moveToDefaultPoseLogged side time proc)
  | Command.moveToZeroPose side time, proc =>
    self.armController_.moveToZeroPoseLogged side time proc
  | Command.moveArmJoints side arm_pose time, proc =>
    match self.armController_.moveArmJointsLogged side arm_pose time proc with
    | Except.error f => Except.error f
    | Except.ok r => Except.ok r.2
  | Command.moveArmJointsPaired arm_data, proc =>
    match self.armController_.moveArmJointsPairedLogged arm_data proc with
    | Except.error f => Except.error f
    | Except.ok r => Except.ok r.2
  | Command.moveArmTrajectory side traj, proc =>
    self.armController_.moveArmTrajectoryLogged side traj proc
  | Command.poseToSE3TrajectoryPoint pose point, proc =>
    Except.ok
      { proc with
        counter := (self.armController_.poseToSE3TrajectoryPointLogged proc.counter pose
          point).1 }
  | Command.moveArmInTaskSpace arm_data baseForControl, proc =>
    Except.ok (self.armController_.moveArmInTaskSpaceLogged arm_data baseForControl proc)
  | Command.setupFrameAndMode msg mode, proc =>
    Except.ok
      { proc with
        counter := (self.chestController_.setupFrameAndModeLogged proc.counter msg mode).1 }
  | Command.controlChest quat time execution_mode, proc =>
    Except.ok (self.chestController_.controlChestLogged quat time execution_mode proc)
  | Command.resetPose time, proc => Except.ok (self.chestController_.resetPoseLogged time proc)
  | Command.executeTrajectory now traj, proc => self.executeTrajectoryLogged now traj proc

/-- A sequential run of operations over the recording counter. -/
def WholebodyControlInterface.runCommandsLogged (self : WholebodyControlInterface)
    (cmds : List Command) (proc : LoggedProcess) : Except Fault LoggedProcess :=
  cmds.foldlM (fun p c => self.execCommandLogged c p) proc

/-- The process state with the record of the counter dropped. -/
def LoggedProcess.erase (proc : LoggedProcess) : Process :=
  { id_ := proc.counter.id_, effects := proc.effects }

/-- The counter after `c` has yielded `n` further ids: it stands `n` higher, and the ids recorded
since are `c.id_`, `c.id_ + 1`, ... in this order. -/
def Minted.Extends (c c' : Minted) : Prop :=
  ∃ n : Nat, c'.id_ = c.id_ + n ∧
    c'.ids = c.ids ++ (List.range n).map fun (k : Nat) => c.id_ + (k : Int)

/-! ## Joint state of `chest_control_interface.cpp` -/

/-- Operation `std::vector::resize(n)` on a vector of value-initialised elements `zero`: the first
`n` elements are kept and the vector is padded with `zero` up to length `n`. -/
def resize {α : Type} (zero : α) (v : List α) (n : Nat) : List α :=
  v.take n ++ List.replicate (n - v.length) zero

/-- The joint-number table `chestJointNumbers_` built by the constructor
`ChestControlInterface::ChestControlInterface` (lines 11-16) from the chest joint names;
`getJointNumber` is the lookup of the state provider, and the member starts empty. -/
def ChestControlInterface.constructJointNumbers (getJointNumber : String → Int)
    (chestJointNames_ : List String) : List Int :=
  let chestJointNumbers_ : List Int := []
  let chestJointNumbers_ := resize 0 chestJointNumbers_ chestJointNames_.length
  chestJointNames_.foldl (fun numbers joint => numbers ++ [getJointNumber joint])
    chestJointNumbers_

/-- Function `ChestControlInterface::getJointSpaceState` (lines 121-128): the value of the
reference parameter `joints` when the body ends; `getJointPosition` is the state provider and the
parameter `side` is not used. The body has no `return` statement, so only `joints` is modelled. -/
def ChestControlInterface.getJointSpaceState (getJointPosition : Int → ℚ)
    (chestJointNames_ : List String) (chestJointNumbers_ : List Int) (joints : List ℚ) : List ℚ :=
  let joints := resize 0 joints chestJointNames_.length
  chestJointNumbers_.foldl (fun joints jointNumber => joints ++ [getJointPosition jointNumber])
    joints

/-! ## State machine of `val_task1SM.cpp` -/

/-- States of the task-1 machine, in the order of `FSM_STATES` (lines 8-21). -/
inductive State where
  | STATE_INIT
  | STATE_DETECT_PANEL
  | STATE_WALK_TO_CONTROL
  | STATE_DETECT_HANDLE_CENTER
  | STATE_ADJUST_ARMS
  | STATE_CORRECT_PITCH
  | STATE_CORRECT_YAW
  | STATE_DETECT_FINISH
  | STATE_WALK_TO_FINISH
  | STATE_END
  | STATE_ERROR
  deriving DecidableEq, Repr

/-- Start state of the machine, `FSM_START(STATE_INIT)` (line 24). -/
def State.start : State := State.STATE_INIT

/-- The `FSM_TRANSITIONS` blocks of the task-1 machine (lines 29-158): the state that
`FSM_ON_EVENT(event, FSM_NEXT(state))` names for `event`, or `none` when the block of the current
state has no line for the event. -/
def State.onEvent : State → String → Option State
  | State.STATE_INIT, event =>
    if event = "/INIT_RETRY" then some State.STATE_INIT
    else if event = "/INIT_SUCESSFUL" then some State.STATE_DETECT_PANEL
    else if event = "/INIT_FAILED" then some State.STATE_ERROR
    else none
  | State.STATE_DETECT_PANEL, event =>
    if event = "/DETECT_PANEL_RETRY" then some State.STATE_DETECT_PANEL
    else if event = "/DETECTED_PANEL" then some State.STATE_WALK_TO_CONTROL
    else if event = "/DETECT_PANEL_FAILED" then some State.STATE_ERROR
    else none
  | State.STATE_WALK_TO_CONTROL, event =>
    if event = "/WALK_FAILED" then some State.STATE_ERROR
    else if event = "/WALK_RETRY" then some State.STATE_DETECT_PANEL
    else if event = "/REACHED_PANEL" then some State.STATE_DETECT_HANDLE_CENTER
    else none
  | State.STATE_DETECT_HANDLE_CENTER, event =>
    if event = "/DETECT_HANDLE_RETRY" then some State.STATE_DETECT_HANDLE_CENTER
    else if event = "/DETECT_HANDLE_FAILED" then some State.STATE_ERROR
    else if event = "/DETECTED_HANDLE" then some State.STATE_ADJUST_ARMS
    else none
  | State.STATE_ADJUST_ARMS, event =>
    if event = "/ADJUST_ARMS_RETRY" then some State.STATE_ADJUST_ARMS
    else if event = "/ADJUST_ARMS_FAILED" then some State.STATE_DETECT_HANDLE_CENTER
    else if event = "/ADJUST_ARMS_ERROR" then some State.STATE_ERROR
    else if event = "/ADJUST_ARMS_SUCESSFUL" then some State.STATE_CORRECT_PITCH
    else none
  | State.STATE_CORRECT_PITCH, event =>
    if event = "/PITCH_CORRECTION_RETRY" then some State.STATE_CORRECT_PITCH
    else if event = "/PITCH_CORRECTION_FAILED" then some State.STATE_DETECT_HANDLE_CENTER
    else if event = "/PITCH_CORRECTION_SUCESSFUL" then some State.STATE_CORRECT_YAW
    else none
  | State.STATE_CORRECT_YAW, event =>
    if event = "/YAW_CORRECTION_RETRY" then some State.STATE_CORRECT_YAW
    else if event = "/YAW_CORRECTION_FAILED" then some State.STATE_DETECT_HANDLE_CENTER
    else if event = "/YAW_CORRECTION_SUCESSFUL" then some State.STATE_DETECT_FINISH
    else none
  | State.STATE_DETECT_FINISH, event =>
    if event = "/DETECT_FINISH_RETRY" then some State.STATE_DETECT_FINISH
    else if event = "/DETECT_FINISH_FAILED" then some State.STATE_ERROR
    else if event = "/DETECT_FINISH_SUCESSFUL" then some State.STATE_WALK_TO_FINISH
    else none
  | State.STATE_WALK_TO_FINISH, event =>
    if event = "/WALK_TO_FINISH_RETRY" then some State.STATE_DETECT_FINISH
    else if event = "/WALK_TO_FINISH_ERROR" then some State.STATE_ERROR
    else if event = "/WALK_TO_FINISH_SUCESSFUL" then some State.STATE_END
    else none
  | State.STATE_END, event =>
    if event = "/END_SUCESSFUL" then some State.STATE_END
    else none
  | State.STATE_ERROR, event =>
    if event = "/RESTART" then some State.STATE_INIT
    else none

/-- State reached from `s` by the transitions of a sequence of events, each of which must be
listed in the block of the state it arrives in; `none` when one of them is not. -/
def State.run (s : State) (events : List String) : Option State :=
  events.foldlM (fun st event => st.onEvent event) s

/-! ## Auxiliary definitions for the statements -/

/-- The point the joint-waypoint overload builds for joint `i` when entered at counter `c`. -/
def waypointPoint (joint_limits_ : List (ℚ × ℚ)) (time : ℚ) (pos : List ℚ) (c : Int) (i : Nat) :
    TrajectoryPoint1DRosMessage :=
  { time := time, position := clampWaypoint (joint_limits_.getD i (0, 0)) (pos.getD i 0),
    velocity := 0, unique_id := c + i }

/-- The per-joint lists after the first `k` iterations of the joint-waypoint loop. -/
def waypointLists (joint_limits_ : List (ℚ × ℚ)) (time : ℚ) (pos : List ℚ) (id c : Int) (k : Nat)
    (lists : List OneDoFJointTrajectoryRosMessage) : List OneDoFJointTrajectoryRosMessage :=
  lists.mapIdx fun j jt =>
    if j < k then
      { jt with
        trajectory_points := jt.trajectory_points ++ [waypointPoint joint_limits_ time pos c j],
        unique_id := id }
    else jt

/-- The point the external-point overload builds for joint `i` when entered at counter `c`. -/
def externalPoint (joint_limits_ : List (ℚ × ℚ)) (point : JointTrajectoryPoint) (c : Int)
    (i : Nat) : TrajectoryPoint1DRosMessage :=
  { time := point.time_from_start,
    position := clampExternal (joint_limits_.getD i (0, 0)) (point.positions.getD i 0),
    velocity := point.velocities.getD i 0, unique_id := c + i }

/-- The per-joint lists after the first `k` iterations of the external-point loop. -/
def externalLists (joint_limits_ : List (ℚ × ℚ)) (point : JointTrajectoryPoint) (c : Int) (k : Nat)
    (lists : List OneDoFJointTrajectoryRosMessage) : List OneDoFJointTrajectoryRosMessage :=
  lists.mapIdx fun j jt =>
    if j < k then
      { jt with
        trajectory_points := jt.trajectory_points ++ [externalPoint joint_limits_ point c j] }
    else jt

/-- The limit table the append operations select for a message of the given side. -/
def ArmControlInterface.limitsOf (self : ArmControlInterface) (side : RobotSide) : List (ℚ × ℚ) :=
  if side = RobotSide.LEFT then self.joint_limits_left_ else self.joint_limits_right_

/-- The trajectory does not contain the first expected name of the group. -/
def GroupAbsent (traj_joint_names group_joint_names : List String) : Prop :=
  ∃ first, group_joint_names[0]? = some first ∧ first ∉ traj_joint_names

/-- The first expected name of the group first occurs at offset `s` of the trajectory and the
names at `s .. s + groupSize - 1` are the group's names in order. -/
def GroupValidatedAt (traj_joint_names group_joint_names : List String) (s : Nat) : Prop :=
  ∃ first, group_joint_names[0]? = some first ∧ findJoint traj_joint_names first = some s ∧
    ∀ i, i < group_joint_names.length → traj_joint_names[s + i]? = group_joint_names[i]?

/-- The first expected name of the group occurs in the trajectory, first at offset `s`, and the
name at some offset `s + i` differs from the `i`-th name of the group, all earlier names
agreeing. -/
def GroupOutOfOrder (traj_joint_names group_joint_names : List String) : Prop :=
  ∃ first s i a b, group_joint_names[0]? = some first ∧
    findJoint traj_joint_names first = some s ∧
    (∀ k, k < i → traj_joint_names[s + k]? = group_joint_names[k]?) ∧
    traj_joint_names[s + i]? = some a ∧ group_joint_names[i]? = some b ∧ a ≠ b

/-- Time and position of a joint trajectory point. -/
def pointView (p : TrajectoryPoint1DRosMessage) : ℚ × ℚ := (p.time, p.position)

/-- Times and positions of the points of joint `i` of an arm message, in order. -/
def armJointView (m : ArmTrajectoryRosMessage) (i : Nat) : Option (List (ℚ × ℚ)) :=
  (m.joint_trajectory_messages[i]?).map fun jt => jt.trajectory_points.map pointView

/-- Stored time and stored position that the joint-waypoint append gives joint `i` for the slice
of `point` starting at offset `s`. -/
def sliceView (joint_limits_ : List (ℚ × ℚ)) (s i : Nat) (point : JointTrajectoryPoint) : ℚ × ℚ :=
  (toFloat point.time_from_start,
    clampWaypoint (joint_limits_.getD i (0, 0)) (point.positions.getD (s + i) 0))

/-- Relation between an arm sub-message before and after the point loop has run over `pts`. -/
def ArmAfter (arm : ArmControlInterface) (start : Option Nat) (groupSize : Nat)
    (pts : List JointTrajectoryPoint) (m m' : ArmTrajectoryRosMessage) : Prop :=
  (start = none → m' = m) ∧
  ∀ s, start = some s →
    m'.robot_side = m.robot_side ∧ m'.unique_id = m.unique_id ∧
    m'.execution_mode = m.execution_mode ∧
    m'.joint_trajectory_messages.length = m.joint_trajectory_messages.length ∧
    (groupSize = arm.NUM_ARM_JOINTS → ∀ i, i < arm.NUM_ARM_JOINTS →
      armJointView m' i =
        (armJointView m i).map fun v => v ++ pts.map (sliceView (arm.limitsOf m.robot_side) s i))

/-- What the point loop needs of an arm that has a start index: every slice lies inside the
positions of its point and the message has one list per joint. -/
def ArmSliceable (arm : ArmControlInterface) (start : Option Nat) (groupSize : Nat)
    (pts : List JointTrajectoryPoint) (m : ArmTrajectoryRosMessage) : Prop :=
  ∀ s, start = some s →
    (∀ pt ∈ pts, s + groupSize ≤ pt.positions.length) ∧
    m.joint_trajectory_messages.length = arm.NUM_ARM_JOINTS

/-- The chest point that the point loop appends for `point` when the chest starts at `s`. -/
def chestPointOf (self : WholebodyControlInterface) (s : Nat) (point : JointTrajectoryPoint) :
    SO3TrajectoryPointRosMessage :=
  { orientation :=
      { x := (self.chestController_.transformQuaternion (self.createChestQuaternion s point)).2.x,
        y := (self.chestController_.transformQuaternion (self.createChestQuaternion s point)).2.y,
        z := (self.chestController_.transformQuaternion (self.createChestQuaternion s point)).2.z,
        w := (self.chestController_.transformQuaternion (self.createChestQuaternion s point)).2.w },
    time := point.time_from_start }

/-- The chest sub-message after the point loop has run over `pts`. -/
def chestAfter (self : WholebodyControlInterface) (chest_start : Option Nat)
    (pts : List JointTrajectoryPoint) (c : ChestTrajectoryRosMessage) : ChestTrajectoryRosMessage :=
  match chest_start with
  | none => c
  | some s =>
    { c with
      taskspace_trajectory_points := c.taskspace_trajectory_points ++ pts.map (chestPointOf self s) }

/-- The chest sub-message after the chest stage of `parseTrajectory`. -/
def chestSetup (self : WholebodyControlInterface) (g : GroupStart) (id_ : Int)
    (c : ChestTrajectoryRosMessage) : ChestTrajectoryRosMessage :=
  match g with
  | GroupStart.found _ =>
    (self.chestController_.setupFrameAndMode id_ c self.chestController_.defaultMode).2
  | _ => c

/-- The value of the shared counter after a stage that found `g`, entered at `id_`. -/
def idAfter (g : GroupStart) (id_ : Int) : Int :=
  match g with
  | GroupStart.found _ => id_ + 1
  | _ => id_

/-- Counter and message when `parseTrajectory` has passed the chest stage with the outcome
`gc`. -/
def afterChest (self : WholebodyControlInterface) (gc : GroupStart) (id_ : Int)
    (msg : WholeBodyTrajectoryRosMessage) : Int × WholeBodyTrajectoryRosMessage :=
  (idAfter gc id_,
    { msg with
      chest_trajectory_message := chestSetup self gc id_ msg.chest_trajectory_message })

/-- The lookup of the group returns normally: the group is absent, validated, or found out of
order at a name that lies inside the trajectory's name list. -/
def GroupChecked (traj_joint_names group_joint_names : List String) : Prop :=
  GroupAbsent traj_joint_names group_joint_names ∨
  (∃ s, GroupValidatedAt traj_joint_names group_joint_names s) ∨
  GroupOutOfOrder traj_joint_names group_joint_names

/-- An example robot: three chest joints and two joints per arm. -/
def exampleRobot : WholebodyControlInterface :=
  { chest_joint_names_ := ["torsoYaw", "torsoPitch", "torsoRoll"]
    left_arm_joint_names_ := ["leftShoulderPitch", "leftShoulderRoll"]
    right_arm_joint_names_ := ["rightShoulderPitch", "rightShoulderRoll"]
    chestController_ :=
      { transformQuaternion := fun q => (true, q), defaultMode := ExecutionMode.OVERRIDE }
    armController_ :=
      { joint_limits_left_ := [(-1, 1), (-2, 2)], joint_limits_right_ := [(-1, 1), (-2, 2)],
        NUM_ARM_JOINTS := 2, leftArmJointNames := ["leftShoulderPitch", "leftShoulderRoll"] }
    createChestQuaternion := fun s point =>
      { x := point.positions.getD s 0, y := point.positions.getD (s + 1) 0,
        z := point.positions.getD (s + 2) 0, w := 1 } }

/-- The other side of the robot. -/
def RobotSide.other : RobotSide → RobotSide
  | RobotSide.LEFT => RobotSide.RIGHT
  | RobotSide.RIGHT => RobotSide.LEFT

/-- The expected joint names of the arm of the given side. -/
def WholebodyControlInterface.armJointNames (self : WholebodyControlInterface) :
    RobotSide → List String
  | RobotSide.LEFT => self.left_arm_joint_names_
  | RobotSide.RIGHT => self.right_arm_joint_names_

/-- The arm sub-message of the given side. -/
def WholeBodyTrajectoryRosMessage.armMessage (msg : WholeBodyTrajectoryRosMessage) :
    RobotSide → ArmTrajectoryRosMessage
  | RobotSide.LEFT => msg.left_arm_trajectory_message
  | RobotSide.RIGHT => msg.right_arm_trajectory_message

/-- The `float` value of `time / arm_pose.size() * index_from_start` for the waypoint at distance
`k` from the start of a list of `count` waypoints, `time` being the `float` parameter. -/
def waypointTime (time : ℚ) (count k : Nat) : ℚ :=
  toFloat (toFloat (time / toFloat count) * toFloat ((k + 1 : Nat) : ℚ))

/-- Stored time and stored position that the loop of `generateArmMessage` gives joint `i` for the
waypoint `kw.2` at distance `kw.1` from the start of a list of `count` waypoints. -/
def waypointView (joint_limits_ : List (ℚ × ℚ)) (time : ℚ) (count : Nat) (i : Nat)
    (kw : Nat × List ℚ) : ℚ × ℚ :=
  (toFloat (waypointTime time count kw.1),
    clampWaypoint (joint_limits_.getD i (0, 0)) (kw.2.getD i 0))

/-- The waypoints that precede the first one whose length differs from `NUM_ARM_JOINTS`. -/
def ArmControlInterface.wellFormedPrefix (self : ArmControlInterface) (arm_pose : List (List ℚ)) :
    List (List ℚ) :=
  arm_pose.takeWhile fun w => decide (w.length = self.NUM_ARM_JOINTS)

/-- The example robot with a pelvis-to-world transform that fails on every quaternion and leaves
its output argument as the input. -/
def exampleRobotFailingTransform : WholebodyControlInterface :=
  { exampleRobot with
    chestController_ :=
      { transformQuaternion := fun q => (false, q), defaultMode := ExecutionMode.OVERRIDE } }

/-- A trajectory that names exactly the chest joints of the example robot, with one point. -/
def exampleChestTrajectory : JointTrajectory :=
  { joint_names := ["torsoYaw", "torsoPitch", "torsoRoll"],
    points := [{ positions := [0, 0, 0], time_from_start := 1 }] }

/-- A limit table whose first `k` entries are shrunk and whose other entries are as loaded. -/
def shrinkFirst (k : Nat) (limits : List (ℚ × ℚ)) : List (ℚ × ℚ) :=
  limits.mapIdx fun j l => if j < k then shrunk l else l

/-- Time, position and orientation of a task-space point. -/
def SE3TrajectoryPointRosMessage.view (p : SE3TrajectoryPointRosMessage) :
    ℚ × (ℚ × ℚ × ℚ) × Quaternion :=
  (p.time, p.position, p.orientation)

/-- Time, position and orientation of a task-space entry. -/
def ArmTaskSpaceData.view (d : ArmTaskSpaceData) : ℚ × (ℚ × ℚ × ℚ) × Quaternion :=
  (d.time, d.pose.position, d.pose.orientation)

/-! ## The joint loops of the append operations -/

theorem waypointLists_zero (joint_limits_ : List (ℚ × ℚ)) (time : ℚ) (pos : List ℚ) (id c : Int)
    (lists : List OneDoFJointTrajectoryRosMessage) :
    waypointLists joint_limits_ time pos id c 0 lists = lists := by
  apply List.ext_getElem?
  intro j
  simp [waypointLists]

theorem waypoint_loop (joint_limits_ : List (ℚ × ℚ)) (time : ℚ) (pos : List ℚ) (id c : Int)
    (msg : ArmTrajectoryRosMessage) (k : Nat) (hpos : k ≤ pos.length)
    (hlim : k ≤ joint_limits_.length) (hmsg : k ≤ msg.joint_trajectory_messages.length) :
    (List.range k).foldlM (appendWaypointJoint joint_limits_ time pos id) (c, msg) =
      Except.ok (c + k,
        { msg with
          joint_trajectory_messages :=
            waypointLists joint_limits_ time pos id c k msg.joint_trajectory_messages }) := by
  induction k with
  | zero =>
    simp [waypointLists_zero]
    rfl
  | succ k ih =>
    have h1 : k < pos.length := hpos
    have h2 : k < joint_limits_.length := hlim
    have h3 : k < msg.joint_trajectory_messages.length := hmsg
    rw [List.range_succ, List.foldlM_append, ih (Nat.le_of_lt h1) (Nat.le_of_lt h2) (Nat.le_of_lt h3)]
    have h4 : (waypointLists joint_limits_ time pos id c k msg.joint_trajectory_messages)[k]? =
        some (msg.joint_trajectory_messages[k]) := by
      simp [waypointLists, List.getElem?_eq_getElem h3]
    simp only [List.foldlM_cons, List.foldlM_nil, bind, Except.bind, appendWaypointJoint,
      List.getElem?_eq_getElem h1, List.getElem?_eq_getElem h2, h4, pure, Except.pure]
    congr 2
    · push_cast; ring
    · congr 1
      apply List.ext_getElem?
      intro j
      rw [List.getElem?_set]
      by_cases hj : k = j
      · subst hj
        simp [waypointLists, waypointPoint, List.getElem?_eq_getElem h3, h1, h2, h3,
          List.getD_eq_getElem?_getD]
      · have hj2 : j < k + 1 ↔ j < k := by omega
        simp [hj, waypointLists, hj2]

theorem externalLists_zero (joint_limits_ : List (ℚ × ℚ)) (point : JointTrajectoryPoint) (c : Int)
    (lists : List OneDoFJointTrajectoryRosMessage) :
    externalLists joint_limits_ point c 0 lists = lists := by
  apply List.ext_getElem?
  intro j
  simp [externalLists]

theorem external_loop (joint_limits_ : List (ℚ × ℚ)) (joint_names : List String)
    (point : JointTrajectoryPoint) (c : Int) (msg : ArmTrajectoryRosMessage) (k : Nat)
    (hnames : k ≤ joint_names.length) (hpos : k ≤ point.positions.length)
    (hvel : k ≤ point.velocities.length) (hlim : k ≤ joint_limits_.length)
    (hmsg : k ≤ msg.joint_trajectory_messages.length) :
    (List.range k).foldlM (appendExternalJoint joint_limits_ joint_names point) (c, msg) =
      Except.ok (c + k,
        { msg with
          joint_trajectory_messages :=
            externalLists joint_limits_ point c k msg.joint_trajectory_messages }) := by
  induction k with
  | zero =>
    simp [externalLists_zero]
    rfl
  | succ k ih =>
    have h0 : k < joint_names.length := hnames
    have h1 : k < point.positions.length := hpos
    have h2 : k < joint_limits_.length := hlim
    have h3 : k < msg.joint_trajectory_messages.length := hmsg
    have h5 : k < point.velocities.length := hvel
    rw [List.range_succ, List.foldlM_append, ih (Nat.le_of_lt h0) (Nat.le_of_lt h1)
      (Nat.le_of_lt h5) (Nat.le_of_lt h2) (Nat.le_of_lt h3)]
    have h4 : (externalLists joint_limits_ point c k msg.joint_trajectory_messages)[k]? =
        some (msg.joint_trajectory_messages[k]) := by
      simp [externalLists, List.getElem?_eq_getElem h3]
    simp only [List.foldlM_cons, List.foldlM_nil, bind, Except.bind, appendExternalJoint,
      List.getElem?_eq_getElem h0, List.getElem?_eq_getElem h1, List.getElem?_eq_getElem h2,
      List.getElem?_eq_getElem h5, h4, pure, Except.pure]
    congr 2
    · push_cast; ring
    · congr 1
      apply List.ext_getElem?
      intro j
      rw [List.getElem?_set]
      by_cases hj : k = j
      · subst hj
        simp [externalLists, externalPoint, List.getElem?_eq_getElem h3, h1, h2, h3, h5,
          List.getD_eq_getElem?_getD]
      · have hj2 : j < k + 1 ↔ j < k := by omega
        simp [hj, externalLists, hj2]

/-- Closed form of a successful joint-waypoint append. -/
theorem appendTrajectoryPoint_eq (self : ArmControlInterface) (id_ : Int)
    (armMsg : ArmTrajectoryRosMessage) (time : ℚ) (pos : List ℚ)
    (hpos : pos.length = self.NUM_ARM_JOINTS)
    (hlim : self.NUM_ARM_JOINTS ≤ (self.limitsOf armMsg.robot_side).length)
    (hmsg : self.NUM_ARM_JOINTS ≤ armMsg.joint_trajectory_messages.length) :
    self.appendTrajectoryPoint id_ armMsg time pos =
      Except.ok (id_ + self.NUM_ARM_JOINTS,
        { armMsg with
          joint_trajectory_messages :=
            waypointLists (self.limitsOf armMsg.robot_side) (toFloat time) pos id_ id_
              self.NUM_ARM_JOINTS armMsg.joint_trajectory_messages }) := by
  unfold ArmControlInterface.appendTrajectoryPoint
  simp only [hpos, ne_eq, not_true_eq_false, if_false]
  exact waypoint_loop _ (toFloat time) pos id_ id_ armMsg _ (le_of_eq hpos.symm) hlim hmsg

theorem toFloat_one : toFloat 1 = 1 := rfl

theorem inFloatRange_of_abs_le (q : ℚ) (h : |q| ≤ 1000) : inFloatRange q := by
  unfold inFloatRange
  have : (1000 : ℚ) < 2 ^ 128 - 2 ^ 103 := by norm_num
  exact lt_of_le_of_lt h this

theorem inFloatRange_between (a b x : ℚ) (ha : inFloatRange a) (hb : inFloatRange b)
    (h1 : a ≤ x) (h2 : x ≤ b) : inFloatRange x := by
  unfold inFloatRange at *
  rw [abs_lt] at *
  constructor <;> linarith [ha.1, ha.2, hb.1, hb.2]

/-- Closed form of a successful external-point append. -/
theorem appendTrajectoryPointExternal_eq (self : ArmControlInterface) (id_ : Int)
    (msg : ArmTrajectoryRosMessage) (point : JointTrajectoryPoint)
    (hpos : point.positions.length = self.NUM_ARM_JOINTS)
    (hvel : self.NUM_ARM_JOINTS ≤ point.velocities.length)
    (hnames : self.NUM_ARM_JOINTS ≤ self.leftArmJointNames.length)
    (hlim : self.NUM_ARM_JOINTS ≤ (self.limitsOf msg.robot_side).length)
    (hmsg : self.NUM_ARM_JOINTS ≤ msg.joint_trajectory_messages.length) :
    self.appendTrajectoryPointExternal id_ msg point =
      Except.ok (id_ + self.NUM_ARM_JOINTS,
        { msg with
          joint_trajectory_messages :=
            externalLists (self.limitsOf msg.robot_side) point id_ self.NUM_ARM_JOINTS
              msg.joint_trajectory_messages }) := by
  unfold ArmControlInterface.appendTrajectoryPointExternal
  simp only [hpos, ne_eq, not_true_eq_false, if_false]
  exact external_loop _ _ point id_ msg _ hnames (le_of_eq hpos.symm) hvel hlim hmsg

/-! ## Claims about the append operations -/

/-- C1 (joint-waypoint overload, failing input): with the left limit table `[(-1, 1)]` and the
position `-2` the appended point stores `-2`, which lies below the lower limit `-1`: the
lower-bound comparison of line 74 is overwritten by line 75. -/
theorem appendTrajectoryPoint_waypoint_below_lower_unclamped :
    ArmControlInterface.appendTrajectoryPoint
        { joint_limits_left_ := [(-1, 1)], joint_limits_right_ := [(-1, 1)], NUM_ARM_JOINTS := 1,
          leftArmJointNames := ["leftShoulderPitch"] }
        5 { robot_side := RobotSide.LEFT, joint_trajectory_messages := [{}] } 1 [-2] =
      Except.ok (6,
        { robot_side := RobotSide.LEFT,
          joint_trajectory_messages :=
            [{ trajectory_points := [{ time := 1, position := -2, velocity := 0, unique_id := 5 }],
               unique_id := 5 }] }) ∧
    ¬ ((-1 : ℚ) ≤ -2) := by
  constructor
  · rfl
  · norm_num

/-- C2, counterexample: limits `[-1, 3 - 2^-30]`, whose upper limit is a `double` that is not a
`float`, and the input position `4`. The external-point overload stores `3`, the `float` nearest
to the upper limit: not the upper limit, and above it. -/
theorem appendTrajectoryPointExternal_stores_float_of_limit :
    ArmControlInterface.appendTrajectoryPointExternal
        { joint_limits_left_ := [(-1, 3 - 1 / 2 ^ 30)],
          joint_limits_right_ := [(-1, 3 - 1 / 2 ^ 30)],
          NUM_ARM_JOINTS := 1, leftArmJointNames := ["leftShoulderPitch"] }
        5 { robot_side := RobotSide.LEFT, joint_trajectory_messages := [{}] }
        { positions := [4], velocities := [0], time_from_start := 2 } =
      Except.ok (6,
        { robot_side := RobotSide.LEFT,
          joint_trajectory_messages :=
            [{ trajectory_points :=
                [{ time := 2, position := 3, velocity := 0, unique_id := 5 }] }] }) ∧
    (3 : ℚ) ≠ 3 - 1 / 2 ^ 30 ∧ (3 - 1 / 2 ^ 30 : ℚ) < 3 := by
  refine ⟨by decide!, by norm_num, by norm_num⟩

/-- C2, amended: the external-point overload clamps to the boundary and stores the result through
a `float`. With positions, velocities, the selected limit table and the per-joint lists all of
length `NUM_ARM_JOINTS`, `lower < upper` for every limit, and limits and positions in the range
of `float`, the call returns and the point appended for joint `i` stores the `float` nearest to
`lower_i` when `positions[i] < lower_i`, to `upper_i` when `positions[i] > upper_i`, and to
`positions[i]` otherwise. -/
theorem appendTrajectoryPointExternal_clamps (self : ArmControlInterface) (id_ : Int)
    (msg : ArmTrajectoryRosMessage) (point : JointTrajectoryPoint)
    (hpos : point.positions.length = self.NUM_ARM_JOINTS)
    (hvel : point.velocities.length = self.NUM_ARM_JOINTS)
    (hnames : self.NUM_ARM_JOINTS ≤ self.leftArmJointNames.length)
    (hlim : (self.limitsOf msg.robot_side).length = self.NUM_ARM_JOINTS)
    (hmsg : msg.joint_trajectory_messages.length = self.NUM_ARM_JOINTS)
    (hlt : ∀ limit ∈ self.limitsOf msg.robot_side, limit.1 < limit.2)
    (hrange : ∀ limit ∈ self.limitsOf msg.robot_side,
      inFloatRange limit.1 ∧ inFloatRange limit.2)
    (hprange : ∀ x ∈ point.positions, inFloatRange x) :
    ∃ id' msg', self.appendTrajectoryPointExternal id_ msg point = Except.ok (id', msg') ∧
      ∀ i, i < self.NUM_ARM_JOINTS → ∃ jt jt' limit x p,
        msg.joint_trajectory_messages[i]? = some jt ∧
        msg'.joint_trajectory_messages[i]? = some jt' ∧
        (self.limitsOf msg.robot_side)[i]? = some limit ∧
        point.positions[i]? = some x ∧
        jt'.trajectory_points = jt.trajectory_points ++ [p] ∧
        p.position =
          toFloat (if x < limit.1 then limit.1 else if x > limit.2 then limit.2 else x) := by
  refine ⟨_, _, appendTrajectoryPointExternal_eq self id_ msg point hpos (le_of_eq hvel.symm)
    hnames (le_of_eq hlim.symm) (le_of_eq hmsg.symm), ?_⟩
  intro i hi
  have h1 : i < msg.joint_trajectory_messages.length := by omega
  have h2 : i < (self.limitsOf msg.robot_side).length := by omega
  have h3 : i < point.positions.length := by omega
  refine ⟨msg.joint_trajectory_messages[i],
    { msg.joint_trajectory_messages[i] with
      trajectory_points := msg.joint_trajectory_messages[i].trajectory_points ++
        [externalPoint (self.limitsOf msg.robot_side) point id_ i] },
    (self.limitsOf msg.robot_side)[i],
    point.positions[i], externalPoint (self.limitsOf msg.robot_side) point id_ i,
    List.getElem?_eq_getElem h1, ?_, List.getElem?_eq_getElem h2, List.getElem?_eq_getElem h3,
    ?_, ?_⟩
  · simp only [externalLists, List.getElem?_mapIdx, List.getElem?_eq_getElem h1, Option.map_some',
      hi, if_true]
  · rfl
  · have hl := hlt _ (List.getElem_mem h2)
    simp only [externalPoint, clampExternal, List.getD_eq_getElem?_getD,
      List.getElem?_eq_getElem h2, List.getElem?_eq_getElem h3, Option.getD_some]
    generalize point.positions[i] = x
    generalize (self.limitsOf msg.robot_side)[i] = limit at hl
    by_cases ha : x ≤ limit.1
    · rcases lt_or_eq_of_le ha with hlt' | heq
      · simp only [if_pos ha, if_pos hlt']
      · subst heq
        simp [not_lt.mpr hl.le]
    · have n1 : ¬ x < limit.1 := fun h => ha h.le
      by_cases hb : x ≥ limit.2
      · rcases lt_or_eq_of_le hb with hgt | heq
        · have p2 : x > limit.2 := hgt
          simp only [if_neg ha, if_pos hb, if_neg n1, if_pos p2]
        · have n2 : ¬ x > limit.2 := by rw [← heq]; exact lt_irrefl _
          simp only [if_neg ha, if_pos hb, if_neg n1, if_neg n2]
          rw [heq]
      · have n2 : ¬ x > limit.2 := fun h => hb h.le
        simp only [if_neg ha, if_neg hb, if_neg n1, if_neg n2]

/-- Witness for C2, the scenario of the specification: limits `[-1, 1]` and the input position
`3/2` give the appended position `1`. -/
theorem appendTrajectoryPointExternal_clamps_witness :
    ∃ id' msg',
      ArmControlInterface.appendTrajectoryPointExternal
          { joint_limits_left_ := [(-1, 1)], joint_limits_right_ := [(-1, 1)],
            NUM_ARM_JOINTS := 1, leftArmJointNames := ["leftShoulderPitch"] }
          5 { robot_side := RobotSide.LEFT, joint_trajectory_messages := [{}] }
          { positions := [3 / 2], velocities := [0], time_from_start := 2 } =
        Except.ok (id', msg') ∧
      ∃ jt' p, msg'.joint_trajectory_messages[0]? = some jt' ∧
        jt'.trajectory_points = [p] ∧ p.position = 1 := by
  obtain ⟨id', msg', h, hall⟩ := appendTrajectoryPointExternal_clamps
    { joint_limits_left_ := [(-1, 1)], joint_limits_right_ := [(-1, 1)],
      NUM_ARM_JOINTS := 1, leftArmJointNames := ["leftShoulderPitch"] }
    5 { robot_side := RobotSide.LEFT, joint_trajectory_messages := [{}] }
    { positions := [3 / 2], velocities := [0], time_from_start := 2 }
    rfl rfl (by decide) rfl rfl
    (by intro limit hl; simp [ArmControlInterface.limitsOf] at hl; subst hl; norm_num)
    (by
      intro limit hl
      simp [ArmControlInterface.limitsOf] at hl
      subst hl
      exact ⟨inFloatRange_of_abs_le _ (by norm_num [abs_le]),
        inFloatRange_of_abs_le _ (by norm_num [abs_le])⟩)
    (by
      intro x hx
      simp at hx
      subst hx
      exact inFloatRange_of_abs_le _ (by norm_num [abs_le]))
  refine ⟨id', msg', h, ?_⟩
  obtain ⟨jt, jt', limit, x, p, h1, h2, h3, h4, h5, h6⟩ := hall 0 (by decide)
  refine ⟨jt', p, h2, ?_, ?_⟩
  · simp at h1
    subst h1
    simpa using h5
  · simp [ArmControlInterface.limitsOf] at h3 h4
    subst h3 h4
    rw [h6]
    norm_num [toFloat_one]

/-- C3, counterexample: with limits `[-2, 2]` the in-range position `1 + 2^-30`, a `double` that
is not a `float`, is stored as `1` by both overloads. -/
theorem appendTrajectoryPoint_in_range_rounded :
    ArmControlInterface.appendTrajectoryPoint
        { joint_limits_left_ := [(-2, 2)], joint_limits_right_ := [(-2, 2)],
          NUM_ARM_JOINTS := 1, leftArmJointNames := ["leftShoulderPitch"] }
        5 { robot_side := RobotSide.LEFT, joint_trajectory_messages := [{}] } 2
        [1 + 1 / 2 ^ 30] =
      Except.ok (6,
        { robot_side := RobotSide.LEFT,
          joint_trajectory_messages :=
            [{ trajectory_points :=
                [{ time := 2, position := 1, velocity := 0, unique_id := 5 }],
               unique_id := 5 }] }) ∧
    ArmControlInterface.appendTrajectoryPointExternal
        { joint_limits_left_ := [(-2, 2)], joint_limits_right_ := [(-2, 2)],
          NUM_ARM_JOINTS := 1, leftArmJointNames := ["leftShoulderPitch"] }
        5 { robot_side := RobotSide.LEFT, joint_trajectory_messages := [{}] }
        { positions := [1 + 1 / 2 ^ 30], velocities := [0], time_from_start := 2 } =
      Except.ok (6,
        { robot_side := RobotSide.LEFT,
          joint_trajectory_messages :=
            [{ trajectory_points :=
                [{ time := 2, position := 1, velocity := 0, unique_id := 5 }] }] }) ∧
    (-2 : ℚ) ≤ 1 + 1 / 2 ^ 30 ∧ (1 + 1 / 2 ^ 30 : ℚ) ≤ 2 ∧ (1 : ℚ) ≠ 1 + 1 / 2 ^ 30 := by
  refine ⟨by decide!, by decide!, by norm_num, by norm_num, by norm_num⟩

/-- C3, amended: in both overloads an in-range value is changed only by the conversion to
`float`. When the call is well formed (positions, selected limit table and per-joint lists of
length `NUM_ARM_JOINTS`), `lower_i ≤ p ≤ upper_i` for the supplied position `p` of joint `i`, and
the limits of joint `i` are in the range of `float`, the point appended to joint `i` stores the
`float` nearest to `p`, which is `p` itself exactly when `p` is a `float`. -/
theorem appendTrajectoryPoint_in_range_stores_float (self : ArmControlInterface) (id_ : Int)
    (msg : ArmTrajectoryRosMessage) (time : ℚ) (pos : List ℚ) (point : JointTrajectoryPoint)
    (hpos : pos.length = self.NUM_ARM_JOINTS)
    (hppos : point.positions.length = self.NUM_ARM_JOINTS)
    (hvel : point.velocities.length = self.NUM_ARM_JOINTS)
    (hnames : self.NUM_ARM_JOINTS ≤ self.leftArmJointNames.length)
    (hlim : (self.limitsOf msg.robot_side).length = self.NUM_ARM_JOINTS)
    (hmsg : msg.joint_trajectory_messages.length = self.NUM_ARM_JOINTS) :
    (∃ id' msg', self.appendTrajectoryPoint id_ msg time pos = Except.ok (id', msg') ∧
      ∀ (i : Nat) (limit : ℚ × ℚ) (x : ℚ),
        (self.limitsOf msg.robot_side)[i]? = some limit → pos[i]? = some x →
        limit.1 ≤ x → x ≤ limit.2 → inFloatRange limit.1 → inFloatRange limit.2 →
        ∃ jt jt' p, msg.joint_trajectory_messages[i]? = some jt ∧
          msg'.joint_trajectory_messages[i]? = some jt' ∧
          jt'.trajectory_points = jt.trajectory_points ++ [p] ∧
          inFloatRange x ∧ p.position = toFloat x ∧ (p.position = x ↔ toFloat x = x)) ∧
    (∃ id' msg', self.appendTrajectoryPointExternal id_ msg point = Except.ok (id', msg') ∧
      ∀ (i : Nat) (limit : ℚ × ℚ) (x : ℚ),
        (self.limitsOf msg.robot_side)[i]? = some limit →
        point.positions[i]? = some x → limit.1 ≤ x → x ≤ limit.2 →
        inFloatRange limit.1 → inFloatRange limit.2 →
        ∃ jt jt' p, msg.joint_trajectory_messages[i]? = some jt ∧
          msg'.joint_trajectory_messages[i]? = some jt' ∧
          jt'.trajectory_points = jt.trajectory_points ++ [p] ∧
          inFloatRange x ∧ p.position = toFloat x ∧ (p.position = x ↔ toFloat x = x)) := by
  constructor
  · refine ⟨_, _, appendTrajectoryPoint_eq self id_ msg time pos hpos (le_of_eq hlim.symm)
      (le_of_eq hmsg.symm), ?_⟩
    intro i limit x hl hx h1 h2 r1 r2
    have hi : i < self.NUM_ARM_JOINTS := by
      have := (List.getElem?_eq_some.mp hx).1
      omega
    have hm : i < msg.joint_trajectory_messages.length := by omega
    have hp : (waypointPoint (self.limitsOf msg.robot_side) (toFloat time) pos id_ i).position =
        toFloat x := by
      simp only [waypointPoint, clampWaypoint, List.getD_eq_getElem?_getD, hl, hx,
        Option.getD_some]
      rw [if_neg (not_lt.mpr h2)]
    refine ⟨msg.joint_trajectory_messages[i],
      { msg.joint_trajectory_messages[i] with
        trajectory_points := msg.joint_trajectory_messages[i].trajectory_points ++
          [waypointPoint (self.limitsOf msg.robot_side) (toFloat time) pos id_ i],
        unique_id := id_ },
      waypointPoint (self.limitsOf msg.robot_side) (toFloat time) pos id_ i,
      List.getElem?_eq_getElem hm, ?_, rfl, inFloatRange_between _ _ _ r1 r2 h1 h2, hp, ?_⟩
    · simp only [waypointLists, List.getElem?_mapIdx, List.getElem?_eq_getElem hm,
        Option.map_some', hi, if_true]
    · rw [hp]
  · refine ⟨_, _, appendTrajectoryPointExternal_eq self id_ msg point hppos (le_of_eq hvel.symm)
      hnames (le_of_eq hlim.symm) (le_of_eq hmsg.symm), ?_⟩
    intro i limit x hl hx h1 h2 r1 r2
    have hi : i < self.NUM_ARM_JOINTS := by
      have := (List.getElem?_eq_some.mp hx).1
      omega
    have hm : i < msg.joint_trajectory_messages.length := by omega
    have hp : (externalPoint (self.limitsOf msg.robot_side) point id_ i).position =
        toFloat x := by
      simp only [externalPoint, clampExternal, List.getD_eq_getElem?_getD, hl, hx,
        Option.getD_some]
      by_cases ha : x ≤ limit.1
      · rw [if_pos ha, le_antisymm ha h1]
      · rw [if_neg ha]
        by_cases hb : x ≥ limit.2
        · rw [if_pos hb, le_antisymm h2 hb]
        · rw [if_neg hb]
    refine ⟨msg.joint_trajectory_messages[i],
      { msg.joint_trajectory_messages[i] with
        trajectory_points := msg.joint_trajectory_messages[i].trajectory_points ++
          [externalPoint (self.limitsOf msg.robot_side) point id_ i] },
      externalPoint (self.limitsOf msg.robot_side) point id_ i,
      List.getElem?_eq_getElem hm, ?_, rfl, inFloatRange_between _ _ _ r1 r2 h1 h2, hp, ?_⟩
    · simp only [externalLists, List.getElem?_mapIdx, List.getElem?_eq_getElem hm,
        Option.map_some', hi, if_true]
    · rw [hp]

/-- Witness for C3 amended: a one-joint arm with limits `[-1, 1]` and the in-range position `1`,
the upper boundary itself, which is a `float` and is stored as it is. -/
theorem appendTrajectoryPoint_in_range_stores_float_witness :
    (∃ id' msg',
      ArmControlInterface.appendTrajectoryPoint
          { joint_limits_left_ := [(-1, 1)], joint_limits_right_ := [(-1, 1)],
            NUM_ARM_JOINTS := 1, leftArmJointNames := ["leftShoulderPitch"] }
          5 { robot_side := RobotSide.RIGHT, joint_trajectory_messages := [{}] } 2 [1] =
        Except.ok (id', msg') ∧
      ∃ (jt' : OneDoFJointTrajectoryRosMessage) (p : TrajectoryPoint1DRosMessage),
        msg'.joint_trajectory_messages[0]? = some jt' ∧
        jt'.trajectory_points = [p] ∧ p.position = 1) ∧
    (∃ id' msg',
      ArmControlInterface.appendTrajectoryPointExternal
          { joint_limits_left_ := [(-1, 1)], joint_limits_right_ := [(-1, 1)],
            NUM_ARM_JOINTS := 1, leftArmJointNames := ["leftShoulderPitch"] }
          5 { robot_side := RobotSide.RIGHT, joint_trajectory_messages := [{}] }
          { positions := [1], velocities := [0], time_from_start := 2 } =
        Except.ok (id', msg') ∧
      ∃ (jt' : OneDoFJointTrajectoryRosMessage) (p : TrajectoryPoint1DRosMessage),
        msg'.joint_trajectory_messages[0]? = some jt' ∧
        jt'.trajectory_points = [p] ∧ p.position = 1) := by
  have key := appendTrajectoryPoint_in_range_stores_float
    { joint_limits_left_ := [(-1, 1)], joint_limits_right_ := [(-1, 1)],
      NUM_ARM_JOINTS := 1, leftArmJointNames := ["leftShoulderPitch"] }
    5 { robot_side := RobotSide.RIGHT, joint_trajectory_messages := [{}] } 2 [1]
    { positions := [1], velocities := [0], time_from_start := 2 }
    rfl rfl rfl (by decide) rfl rfl
  have r1 : inFloatRange (-1) := inFloatRange_of_abs_le _ (by norm_num [abs_le])
  have r2 : inFloatRange 1 := inFloatRange_of_abs_le _ (by norm_num [abs_le])
  obtain ⟨⟨ida, msga, ha, halla⟩, ⟨idb, msgb, hb, hallb⟩⟩ := key
  constructor
  · obtain ⟨jt, jt', p, h1, h2, h3, _, h4, _⟩ :=
      halla 0 (-1, 1) 1 rfl rfl (by norm_num) (by norm_num) r1 r2
    refine ⟨ida, msga, ha, jt', p, h2, ?_, h4.trans toFloat_one⟩
    simp at h1
    subst h1
    simpa using h3
  · obtain ⟨jt, jt', p, h1, h2, h3, _, h4, _⟩ :=
      hallb 0 (-1, 1) 1 rfl rfl (by norm_num) (by norm_num) r1 r2
    refine ⟨idb, msgb, hb, jt', p, h2, ?_, h4.trans toFloat_one⟩
    simp at h1
    subst h1
    simpa using h3

/-- C4: in both overloads a position count different from `NUM_ARM_JOINTS` makes the call return
with the message and the shared counter unchanged. -/
theorem appendTrajectoryPoint_size_mismatch_unchanged (self : ArmControlInterface) (id_ : Int)
    (msg : ArmTrajectoryRosMessage) (time : ℚ) (pos : List ℚ) (point : JointTrajectoryPoint) :
    (pos.length ≠ self.NUM_ARM_JOINTS →
      self.appendTrajectoryPoint id_ msg time pos = Except.ok (id_, msg)) ∧
    (point.positions.length ≠ self.NUM_ARM_JOINTS →
      self.appendTrajectoryPointExternal id_ msg point = Except.ok (id_, msg)) := by
  constructor
  · intro h
    simp [ArmControlInterface.appendTrajectoryPoint, h]
  · intro h
    simp [ArmControlInterface.appendTrajectoryPointExternal, h]

/-- Witness for C4: six positions for a seven-joint arm. -/
theorem appendTrajectoryPoint_size_mismatch_unchanged_witness :
    ArmControlInterface.appendTrajectoryPoint
        { joint_limits_left_ := List.replicate 7 (-1, 1),
          joint_limits_right_ := List.replicate 7 (-1, 1),
          NUM_ARM_JOINTS := 7, leftArmJointNames := [] }
        5 { joint_trajectory_messages := List.replicate 7 {}, unique_id := 4 } 2
        [0, 0, 0, 0, 0, 0] =
      Except.ok (5, { joint_trajectory_messages := List.replicate 7 {}, unique_id := 4 }) ∧
    ArmControlInterface.appendTrajectoryPointExternal
        { joint_limits_left_ := List.replicate 7 (-1, 1),
          joint_limits_right_ := List.replicate 7 (-1, 1),
          NUM_ARM_JOINTS := 7, leftArmJointNames := [] }
        5 { joint_trajectory_messages := List.replicate 7 {}, unique_id := 4 }
        { positions := [0, 0, 0, 0, 0, 0], velocities := [0, 0, 0, 0, 0, 0] } =
      Except.ok (5, { joint_trajectory_messages := List.replicate 7 {}, unique_id := 4 }) :=
  ⟨(appendTrajectoryPoint_size_mismatch_unchanged _ 5 _ 2 [0, 0, 0, 0, 0, 0]
      { positions := [0, 0, 0, 0, 0, 0], velocities := [0, 0, 0, 0, 0, 0] }).1 (by decide),
   (appendTrajectoryPoint_size_mismatch_unchanged _ 5 _ 2 [0, 0, 0, 0, 0, 0]
      { positions := [0, 0, 0, 0, 0, 0], velocities := [0, 0, 0, 0, 0, 0] }).2 (by decide)⟩

/-- C10 as stated fails: for a one-joint arm, a message set up as `moveToZeroPose` does at counter
`1` (one empty list, message id `1`, counter `2` afterwards) has message id `1`, and after the
joint-waypoint append its per-joint list has id `2`. -/
theorem appendTrajectoryPoint_list_id_ne_message_id :
    ∃ id' msg',
      ArmControlInterface.appendTrajectoryPoint
          { joint_limits_left_ := [(-1, 1)], joint_limits_right_ := [(-1, 1)],
            NUM_ARM_JOINTS := 1, leftArmJointNames := ["leftShoulderPitch"] }
          2
          { joint_trajectory_messages := List.replicate 1 {}, robot_side := RobotSide.LEFT,
            unique_id := 1 }
          1 [0] = Except.ok (id', msg') ∧
      msg'.unique_id = 1 ∧
      ∃ jt, msg'.joint_trajectory_messages = [jt] ∧ jt.unique_id = 2 ∧
        jt.unique_id ≠ msg'.unique_id :=
  ⟨_, _, rfl, rfl, _, rfl, rfl, by decide⟩

/-- C10 amended: a successful joint-waypoint append leaves the message-level id as it was and
sets the unique id of every per-joint list to the value the shared counter had on entry to the
call. -/
theorem appendTrajectoryPoint_list_ids_eq_entry_counter (self : ArmControlInterface) (id_ : Int)
    (msg : ArmTrajectoryRosMessage) (time : ℚ) (pos : List ℚ)
    (hpos : pos.length = self.NUM_ARM_JOINTS)
    (hlim : (self.limitsOf msg.robot_side).length = self.NUM_ARM_JOINTS)
    (hmsg : msg.joint_trajectory_messages.length = self.NUM_ARM_JOINTS) :
    ∃ id' msg', self.appendTrajectoryPoint id_ msg time pos = Except.ok (id', msg') ∧
      msg'.unique_id = msg.unique_id ∧
      msg'.joint_trajectory_messages.length = self.NUM_ARM_JOINTS ∧
      ∀ jt ∈ msg'.joint_trajectory_messages, jt.unique_id = id_ := by
  refine ⟨_, _, appendTrajectoryPoint_eq self id_ msg time pos hpos (le_of_eq hlim.symm)
    (le_of_eq hmsg.symm), rfl, ?_, ?_⟩
  · simp [waypointLists, hmsg]
  · intro jt hjt
    obtain ⟨i, hi, rfl⟩ := List.mem_iff_getElem.mp hjt
    have hi2 : i < self.NUM_ARM_JOINTS := by
      simp [waypointLists] at hi
      omega
    simp [waypointLists, hi2]

/-- Witness for C10 amended: a message set up as `moveToZeroPose` does at counter `1` (message
id `1`, counter then `2`) gets per-joint list ids `2`. -/
theorem appendTrajectoryPoint_list_ids_eq_entry_counter_witness :
    ∃ id' msg',
      ArmControlInterface.appendTrajectoryPoint
          { joint_limits_left_ := [(-1, 1), (-2, 2)], joint_limits_right_ := [(-1, 1), (-2, 2)],
            NUM_ARM_JOINTS := 2, leftArmJointNames := [] }
          2 { robot_side := RobotSide.LEFT, joint_trajectory_messages := [{}, {}], unique_id := 1 }
          1 [0, 3] = Except.ok (id', msg') ∧
      msg'.unique_id = 1 ∧ msg'.joint_trajectory_messages.length = 2 ∧
      ∀ jt ∈ msg'.joint_trajectory_messages, jt.unique_id = 2 :=
  appendTrajectoryPoint_list_ids_eq_entry_counter
    { joint_limits_left_ := [(-1, 1), (-2, 2)], joint_limits_right_ := [(-1, 1), (-2, 2)],
      NUM_ARM_JOINTS := 2, leftArmJointNames := [] }
    2 { robot_side := RobotSide.LEFT, joint_trajectory_messages := [{}, {}], unique_id := 1 }
    1 [0, 3] rfl rfl rfl

/-! ## Lemmas about `parseTrajectory` -/

theorem validate_ok_true (traj_joint_names : List String) :
    ∀ (joint_names : List String) (start : Nat),
      (∀ i, i < joint_names.length → traj_joint_names[start + i]? = joint_names[i]?) →
      validateJointSequenceInTrajectory traj_joint_names joint_names start = Except.ok true := by
  intro joint_names
  induction joint_names with
  | nil => intro start _; rfl
  | cons n rest ih =>
    intro start h
    have h0 : traj_joint_names[start]? = some n := by
      have := h 0 (by simp)
      simpa using this
    have hrest : ∀ i, i < rest.length → traj_joint_names[start + 1 + i]? = rest[i]? := by
      intro i hi
      have := h (i + 1) (by simp; omega)
      have e : start + 1 + i = start + (i + 1) := by omega
      rw [e, this]
      simp
    simp [validateJointSequenceInTrajectory, h0, ih (start + 1) hrest]

theorem validate_ok_false (traj_joint_names : List String) :
    ∀ (joint_names : List String) (start i : Nat) (a b : String),
      (∀ k, k < i → traj_joint_names[start + k]? = joint_names[k]?) →
      traj_joint_names[start + i]? = some a → joint_names[i]? = some b → a ≠ b →
      validateJointSequenceInTrajectory traj_joint_names joint_names start = Except.ok false := by
  intro joint_names
  induction joint_names with
  | nil => intro start i a b _ _ hb _; simp at hb
  | cons n rest ih =>
    intro start i a b hk ha hb hab
    cases i with
    | zero =>
      simp at ha hb
      subst hb
      simp [validateJointSequenceInTrajectory, ha, hab]
    | succ i =>
      have h0 : traj_joint_names[start]? = some n := by
        have := hk 0 (by omega)
        simpa using this
      have hk2 : ∀ k, k < i → traj_joint_names[start + 1 + k]? = rest[k]? := by
        intro k hki
        have := hk (k + 1) (by omega)
        have e : start + 1 + k = start + (k + 1) := by omega
        rw [e, this]
        simp
      have ha2 : traj_joint_names[start + 1 + i]? = some a := by
        have e : start + 1 + i = start + (i + 1) := by omega
        rw [e, ha]
      have hb2 : rest[i]? = some b := by simpa using hb
      simp [validateJointSequenceInTrajectory, h0, ih (start + 1) i a b hk2 ha2 hb2 hab]

theorem findJoint_eq_none (names : List String) (x : String) (h : x ∉ names) :
    findJoint names x = none := by
  have : ¬ names.indexOf x < names.length := by
    rw [List.indexOf_lt_length]
    exact h
  simp [findJoint, this]

theorem locateGroup_absent (traj_joint_names group_joint_names : List String)
    (h : GroupAbsent traj_joint_names group_joint_names) :
    locateGroup traj_joint_names group_joint_names = Except.ok GroupStart.absent := by
  obtain ⟨first, h0, hn⟩ := h
  simp [locateGroup, h0, findJoint_eq_none _ _ hn]

theorem locateGroup_found (traj_joint_names group_joint_names : List String) (s : Nat)
    (h : GroupValidatedAt traj_joint_names group_joint_names s) :
    locateGroup traj_joint_names group_joint_names = Except.ok (GroupStart.found s) := by
  obtain ⟨first, h0, hf, hv⟩ := h
  simp [locateGroup, h0, hf, validate_ok_true _ _ _ hv]

theorem locateGroup_mismatch (traj_joint_names group_joint_names : List String)
    (h : GroupOutOfOrder traj_joint_names group_joint_names) :
    locateGroup traj_joint_names group_joint_names = Except.ok GroupStart.mismatch := by
  obtain ⟨first, s, i, a, b, h0, hf, hk, ha, hb, hab⟩ := h
  simp [locateGroup, h0, hf, validate_ok_false _ _ _ i a b hk ha hb hab]

theorem chestAfter_nil (self : WholebodyControlInterface) (chest_start : Option Nat)
    (c : ChestTrajectoryRosMessage) : chestAfter self chest_start [] c = c := by
  cases chest_start <;> simp [chestAfter]

theorem chestAfter_cons (self : WholebodyControlInterface) (chest_start : Option Nat)
    (pt : JointTrajectoryPoint) (pts : List JointTrajectoryPoint) (c : ChestTrajectoryRosMessage) :
    chestAfter self chest_start (pt :: pts) c =
      chestAfter self chest_start pts (chestAfter self chest_start [pt] c) := by
  cases chest_start <;> simp [chestAfter]

theorem ArmAfter_nil (arm : ArmControlInterface) (start : Option Nat) (groupSize : Nat)
    (m : ArmTrajectoryRosMessage) : ArmAfter arm start groupSize [] m m := by
  refine ⟨fun _ => rfl, fun s _ => ⟨rfl, rfl, rfl, rfl, ?_⟩⟩
  intro _ i _
  cases armJointView m i <;> simp

theorem ArmAfter_cons (arm : ArmControlInterface) (start : Option Nat) (groupSize : Nat)
    (pt : JointTrajectoryPoint) (pts : List JointTrajectoryPoint)
    (m m' m2 : ArmTrajectoryRosMessage)
    (h1 : ArmAfter arm start groupSize [pt] m m') (h2 : ArmAfter arm start groupSize pts m' m2) :
    ArmAfter arm start groupSize (pt :: pts) m m2 := by
  refine ⟨fun h => ?_, fun s hs => ?_⟩
  · rw [h2.1 h, h1.1 h]
  · obtain ⟨a1, a2, a3, a4, a5⟩ := h1.2 s hs
    obtain ⟨b1, b2, b3, b4, b5⟩ := h2.2 s hs
    refine ⟨b1.trans a1, b2.trans a2, b3.trans a3, b4.trans a4, ?_⟩
    intro hsize i hi
    rw [b5 hsize i hi, a5 hsize i hi, a1]
    cases armJointView m i <;> simp

theorem appendArmSlice_spec (arm : ArmControlInterface)
    (hL : arm.joint_limits_left_.length = arm.NUM_ARM_JOINTS)
    (hR : arm.joint_limits_right_.length = arm.NUM_ARM_JOINTS)
    (start : Option Nat) (groupSize : Nat) (pt : JointTrajectoryPoint) (id_ : Int)
    (m : ArmTrajectoryRosMessage) (hdef : ArmSliceable arm start groupSize [pt] m) :
    ∃ r, appendArmSlice arm start groupSize pt pt.time_from_start id_ m = Except.ok r ∧
      ArmAfter arm start groupSize [pt] m r.2 := by
  cases start with
  | none =>
    exact ⟨(id_, m), rfl, fun _ => rfl, fun s hs => by simp at hs⟩
  | some s =>
    obtain ⟨hrange, hlen⟩ := hdef s rfl
    have hr : s + groupSize ≤ pt.positions.length := hrange pt (by simp)
    have hplen : ((pt.positions.drop s).take groupSize).length = groupSize := by
      simp
      omega
    have hlim : (arm.limitsOf m.robot_side).length = arm.NUM_ARM_JOINTS := by
      unfold ArmControlInterface.limitsOf
      split_ifs <;> assumption
    by_cases hsize : groupSize = arm.NUM_ARM_JOINTS
    · have heq := appendTrajectoryPoint_eq arm id_ m pt.time_from_start
        ((pt.positions.drop s).take groupSize) (hplen.trans hsize) (le_of_eq hlim.symm)
        (le_of_eq hlen.symm)
      refine ⟨_, by simp only [appendArmSlice, hr, if_true]; exact heq, ?_⟩
      refine ⟨fun h => by simp at h, fun s' hs' => ?_⟩
      simp only [Option.some.injEq] at hs'
      subst hs'
      refine ⟨rfl, rfl, rfl, by simp [waypointLists], ?_⟩
      intro _ i hi
      have hi2 : i < m.joint_trajectory_messages.length := by omega
      have hget : ((pt.positions.drop s).take groupSize)[i]? = pt.positions[s + i]? := by
        rw [List.getElem?_take]
        simp [hsize, hi]
      simp [armJointView, waypointLists, List.getElem?_eq_getElem hi2, hi, pointView,
        waypointPoint, sliceView, List.getD_eq_getElem?_getD, hget]
    · have hne : ((pt.positions.drop s).take groupSize).length ≠ arm.NUM_ARM_JOINTS := by
        rw [hplen]
        exact hsize
      refine ⟨(id_, m), ?_, ?_⟩
      · simp only [appendArmSlice, hr, if_true]
        simp only [ArmControlInterface.appendTrajectoryPoint, hne, ne_eq, not_false_eq_true,
          if_true]
      · refine ⟨fun _ => rfl, fun s' _ => ⟨rfl, rfl, rfl, rfl, fun h => absurd h hsize⟩⟩

theorem ArmSliceable_head (arm : ArmControlInterface) (start : Option Nat) (groupSize : Nat)
    (pt : JointTrajectoryPoint) (pts : List JointTrajectoryPoint) (m : ArmTrajectoryRosMessage)
    (h : ArmSliceable arm start groupSize (pt :: pts) m) :
    ArmSliceable arm start groupSize [pt] m := by
  intro s hs
  obtain ⟨h1, h2⟩ := h s hs
  refine ⟨?_, h2⟩
  intro q hq
  simp at hq
  subst hq
  exact h1 _ (by simp)

theorem ArmSliceable_tail (arm : ArmControlInterface) (start : Option Nat) (groupSize : Nat)
    (pt : JointTrajectoryPoint) (pts : List JointTrajectoryPoint) (m m' : ArmTrajectoryRosMessage)
    (h : ArmSliceable arm start groupSize (pt :: pts) m)
    (h' : ArmAfter arm start groupSize [pt] m m') :
    ArmSliceable arm start groupSize pts m' := by
  intro s hs
  obtain ⟨h1, h2⟩ := h s hs
  obtain ⟨_, _, _, a4, _⟩ := h'.2 s hs
  exact ⟨fun q hq => h1 q (by simp [hq]), a4.trans h2⟩

/-- One iteration of the point loop, when the arm slices are in range. -/
theorem parsePoint_spec (self : WholebodyControlInterface)
    (hL : self.armController_.joint_limits_left_.length = self.armController_.NUM_ARM_JOINTS)
    (hR : self.armController_.joint_limits_right_.length = self.armController_.NUM_ARM_JOINTS)
    (cs ls rs : Option Nat) (st : Int × WholeBodyTrajectoryRosMessage) (pt : JointTrajectoryPoint)
    (hl : ArmSliceable self.armController_ ls self.left_arm_joint_names_.length [pt]
      st.2.left_arm_trajectory_message)
    (hr : ArmSliceable self.armController_ rs self.right_arm_joint_names_.length [pt]
      st.2.right_arm_trajectory_message) :
    ∃ st', self.parsePoint cs ls rs st pt = Except.ok st' ∧
      st'.2.chest_trajectory_message = chestAfter self cs [pt] st.2.chest_trajectory_message ∧
      ArmAfter self.armController_ ls self.left_arm_joint_names_.length [pt]
        st.2.left_arm_trajectory_message st'.2.left_arm_trajectory_message ∧
      ArmAfter self.armController_ rs self.right_arm_joint_names_.length [pt]
        st.2.right_arm_trajectory_message st'.2.right_arm_trajectory_message := by
  obtain ⟨l, hle, hla⟩ := appendArmSlice_spec self.armController_ hL hR ls
    self.left_arm_joint_names_.length pt st.1 st.2.left_arm_trajectory_message hl
  obtain ⟨r, hre, hra⟩ := appendArmSlice_spec self.armController_ hL hR rs
    self.right_arm_joint_names_.length pt l.1 st.2.right_arm_trajectory_message hr
  refine ⟨_, by simp only [WholebodyControlInterface.parsePoint, hle, hre]; rfl, ?_, hla, hra⟩
  cases cs <;>
    simp [chestAfter, chestPointOf, ChestControlInterface.appendChestTrajectoryPoint]

/-- The whole point loop, when the arm slices are in range. -/
theorem parsePoints_spec (self : WholebodyControlInterface)
    (hL : self.armController_.joint_limits_left_.length = self.armController_.NUM_ARM_JOINTS)
    (hR : self.armController_.joint_limits_right_.length = self.armController_.NUM_ARM_JOINTS)
    (cs ls rs : Option Nat) :
    ∀ (pts : List JointTrajectoryPoint) (st : Int × WholeBodyTrajectoryRosMessage),
      ArmSliceable self.armController_ ls self.left_arm_joint_names_.length pts
        st.2.left_arm_trajectory_message →
      ArmSliceable self.armController_ rs self.right_arm_joint_names_.length pts
        st.2.right_arm_trajectory_message →
      ∃ st', pts.foldlM (self.parsePoint cs ls rs) st = Except.ok st' ∧
        st'.2.chest_trajectory_message = chestAfter self cs pts st.2.chest_trajectory_message ∧
        ArmAfter self.armController_ ls self.left_arm_joint_names_.length pts
          st.2.left_arm_trajectory_message st'.2.left_arm_trajectory_message ∧
        ArmAfter self.armController_ rs self.right_arm_joint_names_.length pts
          st.2.right_arm_trajectory_message st'.2.right_arm_trajectory_message := by
  intro pts
  induction pts with
  | nil =>
    intro st _ _
    exact ⟨st, rfl, (chestAfter_nil _ _ _).symm, ArmAfter_nil _ _ _ _, ArmAfter_nil _ _ _ _⟩
  | cons pt pts ih =>
    intro st hl hr
    obtain ⟨st1, e1, c1, l1, r1⟩ := parsePoint_spec self hL hR cs ls rs st pt
      (ArmSliceable_head _ _ _ _ _ _ hl) (ArmSliceable_head _ _ _ _ _ _ hr)
    obtain ⟨st2, e2, c2, l2, r2⟩ := ih st1 (ArmSliceable_tail _ _ _ _ _ _ _ hl l1)
      (ArmSliceable_tail _ _ _ _ _ _ _ hr r1)
    refine ⟨st2, ?_, ?_, ArmAfter_cons _ _ _ _ _ _ _ _ l1 l2, ArmAfter_cons _ _ _ _ _ _ _ _ r1 r2⟩
    · simp only [List.foldlM_cons, e1, bind, Except.bind]
      exact e2
    · rw [c2, c1, ← chestAfter_cons]

theorem armJointView_points (m : ArmTrajectoryRosMessage) (joint_limits_ : List (ℚ × ℚ))
    (s i : Nat) (pts : List JointTrajectoryPoint)
    (h : armJointView m i = some (pts.map (sliceView joint_limits_ s i))) :
    ∃ jt, m.joint_trajectory_messages[i]? = some jt ∧
      jt.trajectory_points.length = pts.length ∧
      ∀ (j : Nat) (pt : JointTrajectoryPoint) (limit : ℚ × ℚ) (x : ℚ),
        pts[j]? = some pt → joint_limits_[i]? = some limit → pt.positions[s + i]? = some x →
        ∃ p, jt.trajectory_points[j]? = some p ∧ p.time = toFloat pt.time_from_start ∧
          p.position = clampWaypoint limit x ∧
          (limit.1 ≤ x → x ≤ limit.2 → p.position = toFloat x) := by
  unfold armJointView at h
  cases hjt : m.joint_trajectory_messages[i]? with
  | none => simp [hjt] at h
  | some jt =>
    simp only [hjt, Option.map_some', Option.some.injEq] at h
    refine ⟨jt, rfl, ?_, ?_⟩
    · have := congrArg List.length h
      simpa using this
    · intro j pt limit x hpt hlim hx
      have hj := congrArg (fun l => l[j]?) h
      simp only [List.getElem?_map, hpt, Option.map_some'] at hj
      cases hp : jt.trajectory_points[j]? with
      | none => simp [hp] at hj
      | some p =>
        simp only [hp, Option.map_some', Option.some.injEq, pointView, sliceView,
          List.getD_eq_getElem?_getD, hlim, hx, Option.getD_some, Prod.mk.injEq] at hj
        refine ⟨p, rfl, hj.1, hj.2, ?_⟩
        intro _ h2
        rw [hj.2]
        simp only [clampWaypoint]
        rw [if_neg (not_lt.mpr h2)]

/-- The views of an arm sub-message that entered the point loop with `NUM_ARM_JOINTS` empty
per-joint lists. -/
theorem armAfter_fresh_view (arm : ArmControlInterface) (s : Nat) (groupSize : Nat)
    (pts : List JointTrajectoryPoint) (m m' : ArmTrajectoryRosMessage)
    (hsize : groupSize = arm.NUM_ARM_JOINTS)
    (hlists : m.joint_trajectory_messages = List.replicate arm.NUM_ARM_JOINTS {})
    (h : ArmAfter arm (some s) groupSize pts m m') :
    m'.joint_trajectory_messages.length = arm.NUM_ARM_JOINTS ∧
    ∀ i, i < arm.NUM_ARM_JOINTS →
      armJointView m' i = some (pts.map (sliceView (arm.limitsOf m.robot_side) s i)) := by
  obtain ⟨_, _, _, a4, a5⟩ := h.2 s rfl
  refine ⟨?_, ?_⟩
  · rw [a4, hlists]
    simp
  · intro i hi
    rw [a5 hsize i hi]
    simp [armJointView, hlists, hi]

theorem parseTrajectory_chest_mismatch (self : WholebodyControlInterface) (traj : JointTrajectory)
    (id_ : Int) (msg : WholeBodyTrajectoryRosMessage)
    (hc : locateGroup traj.joint_names self.chest_joint_names_ = Except.ok GroupStart.mismatch) :
    self.parseTrajectory traj id_ msg = Except.ok (id_, msg) := by
  simp only [WholebodyControlInterface.parseTrajectory, hc]

theorem parseTrajectory_left_mismatch (self : WholebodyControlInterface) (traj : JointTrajectory)
    (id_ : Int) (msg : WholeBodyTrajectoryRosMessage) (gc : GroupStart)
    (hc : locateGroup traj.joint_names self.chest_joint_names_ = Except.ok gc)
    (hcm : gc ≠ GroupStart.mismatch)
    (hl : locateGroup traj.joint_names self.left_arm_joint_names_ =
      Except.ok GroupStart.mismatch) :
    self.parseTrajectory traj id_ msg = Except.ok (afterChest self gc id_ msg) := by
  cases gc with
  | mismatch => exact absurd rfl hcm
  | absent => simp only [WholebodyControlInterface.parseTrajectory, hc, hl]; rfl
  | found s => simp only [WholebodyControlInterface.parseTrajectory, hc, hl]; rfl

/-- A validated left arm: `parseTrajectory` calls `setupArmMessage` and does not return. -/
theorem parseTrajectory_left_found (self : WholebodyControlInterface) (traj : JointTrajectory)
    (id_ : Int) (msg : WholeBodyTrajectoryRosMessage) (gc : GroupStart) (s : Nat)
    (hc : locateGroup traj.joint_names self.chest_joint_names_ = Except.ok gc)
    (hcm : gc ≠ GroupStart.mismatch)
    (hl : locateGroup traj.joint_names self.left_arm_joint_names_ =
      Except.ok (GroupStart.found s)) :
    self.parseTrajectory traj id_ msg = Except.error Fault.undefinedBehaviour := by
  cases gc with
  | mismatch => exact absurd rfl hcm
  | absent =>
    simp only [WholebodyControlInterface.parseTrajectory, hc, hl,
      ArmControlInterface.setupArmMessage]
  | found s =>
    simp only [WholebodyControlInterface.parseTrajectory, hc, hl,
      ArmControlInterface.setupArmMessage]

theorem parseTrajectory_right_mismatch (self : WholebodyControlInterface) (traj : JointTrajectory)
    (id_ : Int) (msg : WholeBodyTrajectoryRosMessage) (gc : GroupStart)
    (hc : locateGroup traj.joint_names self.chest_joint_names_ = Except.ok gc)
    (hcm : gc ≠ GroupStart.mismatch)
    (hl : locateGroup traj.joint_names self.left_arm_joint_names_ =
      Except.ok GroupStart.absent)
    (hr : locateGroup traj.joint_names self.right_arm_joint_names_ =
      Except.ok GroupStart.mismatch) :
    self.parseTrajectory traj id_ msg = Except.ok (afterChest self gc id_ msg) := by
  cases gc with
  | mismatch => exact absurd rfl hcm
  | absent => simp only [WholebodyControlInterface.parseTrajectory, hc, hl, hr]; rfl
  | found s => simp only [WholebodyControlInterface.parseTrajectory, hc, hl, hr]; rfl

/-- A validated right arm: `parseTrajectory` calls `setupArmMessage` and does not return. -/
theorem parseTrajectory_right_found (self : WholebodyControlInterface) (traj : JointTrajectory)
    (id_ : Int) (msg : WholeBodyTrajectoryRosMessage) (gc : GroupStart) (s : Nat)
    (hc : locateGroup traj.joint_names self.chest_joint_names_ = Except.ok gc)
    (hcm : gc ≠ GroupStart.mismatch)
    (hl : locateGroup traj.joint_names self.left_arm_joint_names_ =
      Except.ok GroupStart.absent)
    (hr : locateGroup traj.joint_names self.right_arm_joint_names_ =
      Except.ok (GroupStart.found s)) :
    self.parseTrajectory traj id_ msg = Except.error Fault.undefinedBehaviour := by
  cases gc with
  | mismatch => exact absurd rfl hcm
  | absent =>
    simp only [WholebodyControlInterface.parseTrajectory, hc, hl, hr,
      ArmControlInterface.setupArmMessage]
  | found s =>
    simp only [WholebodyControlInterface.parseTrajectory, hc, hl, hr,
      ArmControlInterface.setupArmMessage]

theorem parseTrajectory_eq_loop (self : WholebodyControlInterface) (traj : JointTrajectory)
    (id_ : Int) (msg : WholeBodyTrajectoryRosMessage) (gc : GroupStart)
    (hc : locateGroup traj.joint_names self.chest_joint_names_ = Except.ok gc)
    (hcm : gc ≠ GroupStart.mismatch)
    (hl : locateGroup traj.joint_names self.left_arm_joint_names_ =
      Except.ok GroupStart.absent)
    (hr : locateGroup traj.joint_names self.right_arm_joint_names_ =
      Except.ok GroupStart.absent) :
    self.parseTrajectory traj id_ msg =
      traj.points.foldlM (self.parsePoint gc.start none none) (afterChest self gc id_ msg) := by
  cases gc with
  | mismatch => exact absurd rfl hcm
  | absent => simp only [WholebodyControlInterface.parseTrajectory, hc, hl, hr]; rfl
  | found s => simp only [WholebodyControlInterface.parseTrajectory, hc, hl, hr]; rfl

theorem locateGroup_checked (traj_joint_names group_joint_names : List String)
    (h : GroupChecked traj_joint_names group_joint_names) :
    ∃ g, locateGroup traj_joint_names group_joint_names = Except.ok g := by
  rcases h with h | ⟨s, h⟩ | h
  · exact ⟨_, locateGroup_absent _ _ h⟩
  · exact ⟨_, locateGroup_found _ _ s h⟩
  · exact ⟨_, locateGroup_mismatch _ _ h⟩

theorem parseTrajectory_chest_error (self : WholebodyControlInterface) (traj : JointTrajectory)
    (id_ : Int) (msg : WholeBodyTrajectoryRosMessage) (f : Fault)
    (hc : locateGroup traj.joint_names self.chest_joint_names_ = Except.error f) :
    self.parseTrajectory traj id_ msg = Except.error f := by
  simp only [WholebodyControlInterface.parseTrajectory, hc]

theorem parseTrajectory_left_error (self : WholebodyControlInterface) (traj : JointTrajectory)
    (id_ : Int) (msg : WholeBodyTrajectoryRosMessage) (gc : GroupStart) (f : Fault)
    (hc : locateGroup traj.joint_names self.chest_joint_names_ = Except.ok gc)
    (hcm : gc ≠ GroupStart.mismatch)
    (hl : locateGroup traj.joint_names self.left_arm_joint_names_ = Except.error f) :
    self.parseTrajectory traj id_ msg = Except.error f := by
  cases gc with
  | mismatch => exact absurd rfl hcm
  | absent => simp only [WholebodyControlInterface.parseTrajectory, hc, hl]
  | found s => simp only [WholebodyControlInterface.parseTrajectory, hc, hl]

theorem parseTrajectory_right_error (self : WholebodyControlInterface) (traj : JointTrajectory)
    (id_ : Int) (msg : WholeBodyTrajectoryRosMessage) (gc : GroupStart) (f : Fault)
    (hc : locateGroup traj.joint_names self.chest_joint_names_ = Except.ok gc)
    (hcm : gc ≠ GroupStart.mismatch)
    (hl : locateGroup traj.joint_names self.left_arm_joint_names_ =
      Except.ok GroupStart.absent)
    (hr : locateGroup traj.joint_names self.right_arm_joint_names_ = Except.error f) :
    self.parseTrajectory traj id_ msg = Except.error f := by
  cases gc with
  | mismatch => exact absurd rfl hcm
  | absent => simp only [WholebodyControlInterface.parseTrajectory, hc, hl, hr]
  | found s => simp only [WholebodyControlInterface.parseTrajectory, hc, hl, hr]

theorem chestSetup_of_absent (self : WholebodyControlInterface) (traj_joint_names : List String)
    (g : GroupStart) (id_ : Int) (c : ChestTrajectoryRosMessage)
    (hc : locateGroup traj_joint_names self.chest_joint_names_ = Except.ok g)
    (h : GroupAbsent traj_joint_names self.chest_joint_names_) :
    g.start = none ∧ chestSetup self g id_ c = c := by
  have := locateGroup_absent _ _ h
  rw [hc] at this
  simp only [Except.ok.injEq] at this
  subst this
  exact ⟨rfl, rfl⟩

theorem wholebodyPublished_append (a b : List Effect) :
    wholebodyPublished (a ++ b) = wholebodyPublished a ++ wholebodyPublished b := by
  induction a with
  | nil => rfl
  | cons e rest ih =>
    cases e <;> simp [wholebodyPublished, ih]

/-- The point loop when neither arm has a start index. -/
theorem parsePoints_no_arms (self : WholebodyControlInterface) (cs : Option Nat) :
    ∀ (pts : List JointTrajectoryPoint) (st : Int × WholeBodyTrajectoryRosMessage),
      pts.foldlM (self.parsePoint cs none none) st =
        Except.ok (st.1,
          { st.2 with
            chest_trajectory_message := chestAfter self cs pts st.2.chest_trajectory_message }) := by
  intro pts
  induction pts with
  | nil =>
    intro st
    simp only [List.foldlM_nil, chestAfter_nil]
    rfl
  | cons pt pts ih =>
    intro st
    have h1 : self.parsePoint cs none none st pt =
        Except.ok (st.1,
          { st.2 with
            chest_trajectory_message :=
              chestAfter self cs [pt] st.2.chest_trajectory_message }) := by
      cases cs <;>
        simp [WholebodyControlInterface.parsePoint, appendArmSlice, chestAfter, chestPointOf,
          ChestControlInterface.appendChestTrajectoryPoint]
    simp only [List.foldlM_cons, h1, bind, Except.bind, ih]
    rw [chestAfter_cons self cs pt pts]

/-- The chest sub-message when the chest stage and the point loop have run. -/
theorem chestAfter_chestSetup_of_absent (self : WholebodyControlInterface)
    (traj : JointTrajectory) (gc : GroupStart) (id_ : Int) (c : ChestTrajectoryRosMessage)
    (hc : locateGroup traj.joint_names self.chest_joint_names_ = Except.ok gc)
    (h : GroupAbsent traj.joint_names self.chest_joint_names_) :
    chestAfter self gc.start traj.points (chestSetup self gc id_ c) = c := by
  obtain ⟨h1, h2⟩ := chestSetup_of_absent self _ gc id_ c hc h
  rw [h1, h2]
  rfl

/-- The normal returns of `parseTrajectory`: after a chest mismatch with nothing changed, after
an arm mismatch with the chest stage done, or after the point loop, which then has run without an
arm. The arm sub-messages are those passed in. -/
theorem parseTrajectory_ok (self : WholebodyControlInterface) (traj : JointTrajectory)
    (id_ : Int) (msg : WholeBodyTrajectoryRosMessage) (r : Int × WholeBodyTrajectoryRosMessage)
    (h : self.parseTrajectory traj id_ msg = Except.ok r) :
    ∃ gc, locateGroup traj.joint_names self.chest_joint_names_ = Except.ok gc ∧
      ((gc = GroupStart.mismatch ∧ r = (id_, msg)) ∨
        (gc ≠ GroupStart.mismatch ∧ r = afterChest self gc id_ msg) ∨
        (gc ≠ GroupStart.mismatch ∧
          r = ((afterChest self gc id_ msg).1,
            { (afterChest self gc id_ msg).2 with
              chest_trajectory_message :=
                chestAfter self gc.start traj.points
                  (afterChest self gc id_ msg).2.chest_trajectory_message }))) := by
  cases hc : locateGroup traj.joint_names self.chest_joint_names_ with
  | error f =>
    rw [parseTrajectory_chest_error self traj id_ msg f hc] at h
    cases h
  | ok gc =>
    refine ⟨gc, rfl, ?_⟩
    by_cases hcm : gc = GroupStart.mismatch
    · subst hcm
      rw [parseTrajectory_chest_mismatch self traj id_ msg hc] at h
      cases h
      exact Or.inl ⟨rfl, rfl⟩
    · cases hl : locateGroup traj.joint_names self.left_arm_joint_names_ with
      | error f =>
        rw [parseTrajectory_left_error self traj id_ msg gc f hc hcm hl] at h
        cases h
      | ok gl =>
        cases gl with
        | mismatch =>
          rw [parseTrajectory_left_mismatch self traj id_ msg gc hc hcm hl] at h
          cases h
          exact Or.inr (Or.inl ⟨hcm, rfl⟩)
        | found s =>
          rw [parseTrajectory_left_found self traj id_ msg gc s hc hcm hl] at h
          cases h
        | absent =>
          cases hr : locateGroup traj.joint_names self.right_arm_joint_names_ with
          | error f =>
            rw [parseTrajectory_right_error self traj id_ msg gc f hc hcm hl hr] at h
            cases h
          | ok gr =>
            cases gr with
            | mismatch =>
              rw [parseTrajectory_right_mismatch self traj id_ msg gc hc hcm hl hr] at h
              cases h
              exact Or.inr (Or.inl ⟨hcm, rfl⟩)
            | found s =>
              rw [parseTrajectory_right_found self traj id_ msg gc s hc hcm hl hr] at h
              cases h
            | absent =>
              rw [parseTrajectory_eq_loop self traj id_ msg gc hc hcm hl hr,
                parsePoints_no_arms] at h
              cases h
              exact Or.inr (Or.inr ⟨hcm, rfl⟩)

/-- Frame property of `parseTrajectory`: when it returns, the chest sub-message is the one passed
in if the first chest name is not in the trajectory, and both arm sub-messages are the ones passed
in. -/
theorem parseTrajectory_frame (self : WholebodyControlInterface) (traj : JointTrajectory)
    (id_ : Int) (msg : WholeBodyTrajectoryRosMessage) (r : Int × WholeBodyTrajectoryRosMessage)
    (h : self.parseTrajectory traj id_ msg = Except.ok r) :
    (GroupAbsent traj.joint_names self.chest_joint_names_ →
      r.2.chest_trajectory_message = msg.chest_trajectory_message) ∧
    r.2.left_arm_trajectory_message = msg.left_arm_trajectory_message ∧
    r.2.right_arm_trajectory_message = msg.right_arm_trajectory_message := by
  obtain ⟨gc, hc, h1 | h1 | h1⟩ := parseTrajectory_ok self traj id_ msg r h
  · rw [h1.2]
    exact ⟨fun _ => rfl, rfl, rfl⟩
  · rw [h1.2]
    exact ⟨fun ha => (chestSetup_of_absent self _ gc id_ _ hc ha).2, rfl, rfl⟩
  · rw [h1.2]
    exact ⟨fun ha => chestAfter_chestSetup_of_absent self traj gc id_ _ hc ha, rfl, rfl⟩

/-! ## Claims about the whole-body composer -/

/-- C5, failing input: the trajectory names the left arm's first joint followed by a name that is
not the second left-arm joint. `parseTrajectory` returns at the failed validation, and
`executeTrajectory` still publishes one whole-body message on a publisher whose log was empty. -/
theorem executeTrajectory_publishes_despite_mismatch :
    GroupOutOfOrder ["leftShoulderPitch", "leftElbowPitch"] exampleRobot.left_arm_joint_names_ ∧
    wholebodyPublished [] = [] ∧
    Except.map (fun proc => (wholebodyPublished proc.effects).length)
        (exampleRobot.executeTrajectory 7
          { joint_names := ["leftShoulderPitch", "leftElbowPitch"],
            points := [{ positions := [0, 0], time_from_start := 1 }] }
          { id_ := 2, effects := [] }) =
      Except.ok 1 :=
  ⟨⟨"leftShoulderPitch", 0, 1, "leftElbowPitch", "leftShoulderRoll", rfl, by decide, by decide,
    rfl, rfl, by decide⟩, rfl, rfl⟩

/-- C7 (failing inputs): on a freshly initialised message with the counter at `2`, a trajectory
that names the chest joints and has an empty point list gives the chest sub-message the nonzero
id `2` although no trajectory point is appended to it; and so does a trajectory with one point
that names the chest joints in order and the left arm out of order, because `parseTrajectory`
returns before its point loop. -/
theorem parseTrajectory_nonzero_id_without_points :
    Except.map
        (fun r => (r.2.chest_trajectory_message.unique_id,
          r.2.chest_trajectory_message.taskspace_trajectory_points))
        (exampleRobot.parseTrajectory
          { joint_names := ["torsoYaw", "torsoPitch", "torsoRoll"], points := [] } 2
          (initializeWholebodyMessage 7 {})) =
      Except.ok (2, []) ∧
    Except.map
        (fun r => (r.2.chest_trajectory_message.unique_id,
          r.2.chest_trajectory_message.taskspace_trajectory_points))
        (exampleRobot.parseTrajectory
          { joint_names := ["torsoYaw", "torsoPitch", "torsoRoll", "leftShoulderPitch",
              "leftElbowPitch"],
            points := [{ positions := [0, 0, 0, 0, 0], time_from_start := 1 }] } 2
          (initializeWholebodyMessage 7 {})) =
      Except.ok (2, []) :=
  ⟨rfl, rfl⟩

theorem findJoint_head (first : String) (rest : List String) :
    findJoint (first :: rest) first = some 0 := by
  simp [findJoint]

/-- C8: a limb whose first expected name is not in the trajectory keeps the sub-message that
`initializeWholebodyMessage` gave it (id `0`, mode `OVERRIDE`, no points) whenever
`parseTrajectory` returns. And a trajectory whose names are exactly the chest joints, with the
counter nonzero, is parsed into a message with both arm sub-messages in that state and a chest
sub-message with a nonzero id and one point per trajectory point, carrying that point's time. -/
theorem parseTrajectory_absent_limb_untouched (self : WholebodyControlInterface)
    (traj : JointTrajectory) (id_ now : Int) :
    (∀ r, self.parseTrajectory traj id_ (initializeWholebodyMessage now {}) = Except.ok r →
      (GroupAbsent traj.joint_names self.chest_joint_names_ →
        r.2.chest_trajectory_message =
          { execution_mode := ExecutionMode.OVERRIDE, taskspace_trajectory_points := [],
            unique_id := 0 }) ∧
      (GroupAbsent traj.joint_names self.left_arm_joint_names_ →
        r.2.left_arm_trajectory_message =
          { robot_side := RobotSide.LEFT, execution_mode := ExecutionMode.OVERRIDE,
            joint_trajectory_messages := [], unique_id := 0 }) ∧
      (GroupAbsent traj.joint_names self.right_arm_joint_names_ →
        r.2.right_arm_trajectory_message =
          { robot_side := RobotSide.RIGHT, execution_mode := ExecutionMode.OVERRIDE,
            joint_trajectory_messages := [], unique_id := 0 })) ∧
    (traj.joint_names = self.chest_joint_names_ → self.chest_joint_names_ ≠ [] →
      GroupAbsent traj.joint_names self.left_arm_joint_names_ →
      GroupAbsent traj.joint_names self.right_arm_joint_names_ → id_ ≠ 0 →
      ∃ id' msg',
        self.parseTrajectory traj id_ (initializeWholebodyMessage now {}) =
          Except.ok (id', msg') ∧
        msg'.left_arm_trajectory_message =
          { robot_side := RobotSide.LEFT, execution_mode := ExecutionMode.OVERRIDE,
            joint_trajectory_messages := [], unique_id := 0 } ∧
        msg'.right_arm_trajectory_message =
          { robot_side := RobotSide.RIGHT, execution_mode := ExecutionMode.OVERRIDE,
            joint_trajectory_messages := [], unique_id := 0 } ∧
        msg'.chest_trajectory_message.unique_id ≠ 0 ∧
        msg'.chest_trajectory_message.taskspace_trajectory_points.length = traj.points.length ∧
        msg'.chest_trajectory_message.taskspace_trajectory_points.map (fun p => p.time) =
          traj.points.map (fun pt => pt.time_from_start)) := by
  constructor
  · intro r h
    obtain ⟨a, b, c⟩ := parseTrajectory_frame self traj id_ _ r h
    exact ⟨fun ha => a ha, fun _ => b, fun _ => c⟩
  · intro hnames hne hl hr hid
    have hv : GroupValidatedAt traj.joint_names self.chest_joint_names_ 0 := by
      rw [hnames]
      cases hcn : self.chest_joint_names_ with
      | nil => exact absurd hcn hne
      | cons first rest =>
        exact ⟨first, by simp, findJoint_head first rest, fun i _ => by simp⟩
    have e := parseTrajectory_eq_loop self traj id_ (initializeWholebodyMessage now {})
      (GroupStart.found 0) (locateGroup_found _ _ 0 hv) (by simp) (locateGroup_absent _ _ hl)
      (locateGroup_absent _ _ hr)
    simp only [GroupStart.start] at e
    rw [parsePoints_no_arms] at e
    refine ⟨_, _, e, rfl, rfl, ?_, ?_, ?_⟩
    · exact hid
    · simp [chestAfter, afterChest, chestSetup, ChestControlInterface.setupFrameAndMode,
        initializeWholebodyMessage]
    · simp [chestAfter, afterChest, chestSetup, ChestControlInterface.setupFrameAndMode,
        initializeWholebodyMessage, chestPointOf, Function.comp_def]

/-- Witness for C8: the example robot and a trajectory naming only its chest joints, with two
points. -/
theorem parseTrajectory_absent_limb_untouched_witness :
    ∃ id' msg',
      exampleRobot.parseTrajectory
          { joint_names := ["torsoYaw", "torsoPitch", "torsoRoll"],
            points := [{ positions := [0, 0, 0], time_from_start := 1 },
                       { positions := [1, 0, 0], time_from_start := 2 }] }
          2 (initializeWholebodyMessage 7 {}) = Except.ok (id', msg') ∧
      msg'.chest_trajectory_message.unique_id ≠ 0 ∧
      msg'.chest_trajectory_message.taskspace_trajectory_points.length = 2 ∧
      msg'.left_arm_trajectory_message =
        { robot_side := RobotSide.LEFT, execution_mode := ExecutionMode.OVERRIDE,
          joint_trajectory_messages := [], unique_id := 0 } ∧
      msg'.right_arm_trajectory_message =
        { robot_side := RobotSide.RIGHT, execution_mode := ExecutionMode.OVERRIDE,
          joint_trajectory_messages := [], unique_id := 0 } := by
  have hl : GroupAbsent ["torsoYaw", "torsoPitch", "torsoRoll"]
      exampleRobot.left_arm_joint_names_ := ⟨"leftShoulderPitch", rfl, by decide⟩
  have hr : GroupAbsent ["torsoYaw", "torsoPitch", "torsoRoll"]
      exampleRobot.right_arm_joint_names_ := ⟨"rightShoulderPitch", rfl, by decide⟩
  have key := parseTrajectory_absent_limb_untouched exampleRobot
    { joint_names := ["torsoYaw", "torsoPitch", "torsoRoll"],
      points := [{ positions := [0, 0, 0], time_from_start := 1 },
                 { positions := [1, 0, 0], time_from_start := 2 }] } 2 7
  obtain ⟨id', msg', h, h1, h2, h3, h4, _⟩ := key.2 rfl (by decide) hl hr (by decide)
  obtain ⟨_, f2, f3⟩ := key.1 (id', msg') h
  exact ⟨id', msg', h, h3, h4, f2 hl, f3 hr⟩

/-- C9: when the trajectory contains the left arm's first name followed by names that do not match
the left-arm group, and the chest lookup before it returns normally, `parseTrajectory` returns
with the left-arm sub-message as it was (its id still `0` if it was `0`) and without a point
appended to the chest or to either arm. -/
theorem parseTrajectory_left_out_of_order (self : WholebodyControlInterface)
    (traj : JointTrajectory) (id_ : Int) (msg : WholeBodyTrajectoryRosMessage)
    (hleft : GroupOutOfOrder traj.joint_names self.left_arm_joint_names_)
    (hchest : GroupChecked traj.joint_names self.chest_joint_names_) :
    ∃ id' msg', self.parseTrajectory traj id_ msg = Except.ok (id', msg') ∧
      (msg.left_arm_trajectory_message.unique_id = 0 →
        msg'.left_arm_trajectory_message.unique_id = 0) ∧
      msg'.left_arm_trajectory_message = msg.left_arm_trajectory_message ∧
      msg'.right_arm_trajectory_message = msg.right_arm_trajectory_message ∧
      msg'.chest_trajectory_message.taskspace_trajectory_points =
        msg.chest_trajectory_message.taskspace_trajectory_points := by
  obtain ⟨gc, hc⟩ := locateGroup_checked _ _ hchest
  by_cases hcm : gc = GroupStart.mismatch
  · subst hcm
    exact ⟨_, _, parseTrajectory_chest_mismatch self traj id_ msg hc, fun h => h, rfl, rfl, rfl⟩
  · refine ⟨_, _, parseTrajectory_left_mismatch self traj id_ msg gc hc hcm
      (locateGroup_mismatch _ _ hleft), fun h => h, rfl, rfl, ?_⟩
    cases gc <;> rfl

/-- Witness for C9: the example robot, a freshly initialised message, the chest joints in order
and the left arm out of order. -/
theorem parseTrajectory_left_out_of_order_witness :
    ∃ id' msg',
      exampleRobot.parseTrajectory
          { joint_names := ["torsoYaw", "torsoPitch", "torsoRoll", "leftShoulderPitch",
              "leftElbowPitch"],
            points := [{ positions := [0, 0, 0, 0, 0], time_from_start := 1 }] }
          2 (initializeWholebodyMessage 7 {}) = Except.ok (id', msg') ∧
      msg'.left_arm_trajectory_message.unique_id = 0 ∧
      msg'.left_arm_trajectory_message.joint_trajectory_messages = [] ∧
      msg'.right_arm_trajectory_message.joint_trajectory_messages = [] ∧
      msg'.chest_trajectory_message.taskspace_trajectory_points = [] := by
  obtain ⟨id', msg', h, h0, h1, h2, h3⟩ := parseTrajectory_left_out_of_order exampleRobot
    { joint_names := ["torsoYaw", "torsoPitch", "torsoRoll", "leftShoulderPitch",
        "leftElbowPitch"],
      points := [{ positions := [0, 0, 0, 0, 0], time_from_start := 1 }] }
    2 (initializeWholebodyMessage 7 {})
    ⟨"leftShoulderPitch", 3, 1, "leftElbowPitch", "leftShoulderRoll", rfl, by decide,
      by decide, rfl, rfl, by decide⟩
    (Or.inr (Or.inl ⟨0, "torsoYaw", rfl, by decide, by decide⟩))
  exact ⟨id', msg', h, h0 rfl, by rw [h1]; rfl, by rw [h2]; rfl, by rw [h3]; rfl⟩

/-- C6 as stated fails: on the example robot a trajectory that names the left-arm joints in
order, with one point inside the limits at elapsed time `1 + 2^-30`. `parseTrajectory` validates
the arm and calls `setupArmMessage`, which has no `return` statement, so the call does not return
normally. And the append that the point loop makes for a validated arm takes the elapsed time
through its `const float time` parameter: on a message with one empty list per joint it stores the
time `1`, not the elapsed time of the point. -/
theorem parseTrajectory_validated_arm_undefined :
    GroupValidatedAt ["leftShoulderPitch", "leftShoulderRoll"]
        exampleRobot.left_arm_joint_names_ 0 ∧
    exampleRobot.parseTrajectory
        { joint_names := ["leftShoulderPitch", "leftShoulderRoll"],
          points := [{ positions := [0, 0], time_from_start := 1 + 1 / 2 ^ 30 }] }
        2 (initializeWholebodyMessage 7 {}) =
      Except.error Fault.undefinedBehaviour ∧
    Except.map
        (fun r => r.2.joint_trajectory_messages.map
          (fun jt => jt.trajectory_points.map (fun p => (p.time, p.position))))
        (appendArmSlice exampleRobot.armController_ (some 0) 2
          { positions := [0, 0], time_from_start := 1 + 1 / 2 ^ 30 } (1 + 1 / 2 ^ 30) 3
          { robot_side := RobotSide.LEFT, joint_trajectory_messages := [{}, {}],
            unique_id := 2 }) =
      Except.ok [[(1, 0)], [(1, 0)]] ∧
    (1 : ℚ) ≠ 1 + 1 / 2 ^ 30 := by
  refine ⟨⟨"leftShoulderPitch", rfl, by decide, by decide⟩, by decide!, by decide!, by norm_num⟩

/-- C6 amended: the point loop of `parseTrajectory` (lines 146-171) for an arm that has the start
offset `s`. Let that arm have `NUM_ARM_JOINTS` names, its sub-message hold `NUM_ARM_JOINTS` empty
per-joint lists and carry the arm's side, every point have at least `s + NUM_ARM_JOINTS`
positions, both limit tables have `NUM_ARM_JOINTS` entries, and the other arm either have no
start offset or have its slice inside the positions of every point and `NUM_ARM_JOINTS` per-joint
lists. Then the loop completes, the arm's sub-message has `NUM_ARM_JOINTS` per-joint lists, each
with as many points as the trajectory, and for values in the range of `float` the `j`-th point of
joint `i` carries the `float` nearest to the elapsed time of the `j`-th trajectory point and the
position `clampWaypoint limit_i (points[j].positions[s + i])`, which is the `float` nearest to
that value when it lies within the limits of joint `i`. -/
theorem parsePoints_arm_slices (self : WholebodyControlInterface)
    (pts : List JointTrajectoryPoint) (st : Int × WholeBodyTrajectoryRosMessage)
    (cs ls rs : Option Nat) (side : RobotSide) (s : Nat)
    (hL : self.armController_.joint_limits_left_.length = self.armController_.NUM_ARM_JOINTS)
    (hR : self.armController_.joint_limits_right_.length = self.armController_.NUM_ARM_JOINTS)
    (hnum : (self.armJointNames side).length = self.armController_.NUM_ARM_JOINTS)
    (hstart : (if side = RobotSide.LEFT then ls else rs) = some s)
    (hrange : ∀ pt ∈ pts, s + self.armController_.NUM_ARM_JOINTS ≤ pt.positions.length)
    (hlists : (st.2.armMessage side).joint_trajectory_messages =
      List.replicate self.armController_.NUM_ARM_JOINTS {})
    (hside : (st.2.armMessage side).robot_side = side)
    (hother : ArmSliceable self.armController_ (if side = RobotSide.LEFT then rs else ls)
      (self.armJointNames side.other).length pts (st.2.armMessage side.other)) :
    ∃ st', pts.foldlM (self.parsePoint cs ls rs) st = Except.ok st' ∧
      (st'.2.armMessage side).joint_trajectory_messages.length =
        self.armController_.NUM_ARM_JOINTS ∧
      ∀ i, i < self.armController_.NUM_ARM_JOINTS →
        ∃ jt, (st'.2.armMessage side).joint_trajectory_messages[i]? = some jt ∧
          jt.trajectory_points.length = pts.length ∧
          ∀ (j : Nat) (pt : JointTrajectoryPoint) (limit : ℚ × ℚ) (x : ℚ),
            pts[j]? = some pt → (self.armController_.limitsOf side)[i]? = some limit →
            pt.positions[s + i]? = some x →
            inFloatRange pt.time_from_start → inFloatRange limit.1 → inFloatRange limit.2 →
            inFloatRange x →
            ∃ p, jt.trajectory_points[j]? = some p ∧ p.time = toFloat pt.time_from_start ∧
              p.position = clampWaypoint limit x ∧
              (limit.1 ≤ x → x ≤ limit.2 → p.position = toFloat x) := by
  have hthis : ∀ (start : Option Nat), start = some s →
      ArmSliceable self.armController_ start (self.armJointNames side).length pts
        (st.2.armMessage side) := by
    intro start hs s' hs'
    rw [hs] at hs'
    simp only [Option.some.injEq] at hs'
    subst hs'
    refine ⟨?_, by rw [hlists]; simp⟩
    rw [hnum]
    exact hrange
  cases side with
  | LEFT =>
    simp only [if_true] at hstart hother
    obtain ⟨st', e, _, l, _⟩ := parsePoints_spec self hL hR cs ls rs pts st (hthis ls hstart)
      hother
    rw [hstart] at l
    obtain ⟨v1, v2⟩ := armAfter_fresh_view self.armController_ s _ pts _ _ hnum hlists l
    refine ⟨st', e, v1, fun i hi => ?_⟩
    have hv := v2 i hi
    rw [hside] at hv
    obtain ⟨jt, h1, h2, h3⟩ := armJointView_points _ _ s i _ hv
    exact ⟨jt, h1, h2, fun j pt limit x a b c _ _ _ _ => h3 j pt limit x a b c⟩
  | RIGHT =>
    simp only [reduceCtorEq, if_false] at hstart hother
    obtain ⟨st', e, _, _, r⟩ := parsePoints_spec self hL hR cs ls rs pts st hother
      (hthis rs hstart)
    rw [hstart] at r
    obtain ⟨v1, v2⟩ := armAfter_fresh_view self.armController_ s _ pts _ _ hnum hlists r
    refine ⟨st', e, v1, fun i hi => ?_⟩
    have hv := v2 i hi
    rw [hside] at hv
    obtain ⟨jt, h1, h2, h3⟩ := armJointView_points _ _ s i _ hv
    exact ⟨jt, h1, h2, fun j pt limit x a b c _ _ _ _ => h3 j pt limit x a b c⟩

/-- Witness for C6 amended: the example robot with the chest at offset `0`, the left arm at offset
`3` and the right arm at offset `5`, both arm sub-messages with two empty per-joint lists, and two
trajectory points; the second point of the first left-arm joint carries time `2` and the in-range
position `1/2` found at offset `3`. -/
theorem parsePoints_arm_slices_witness :
    ∃ st',
      [({ positions := [0, 0, 0, 0, 0, 0, 0], time_from_start := 1 } : JointTrajectoryPoint),
        { positions := [0, 0, 0, 1 / 2, 5, 0, 0], time_from_start := 2 }].foldlM
          (exampleRobot.parsePoint (some 0) (some 3) (some 5))
          (5, { left_arm_trajectory_message :=
                  { robot_side := RobotSide.LEFT, joint_trajectory_messages := [{}, {}],
                    unique_id := 3 },
                right_arm_trajectory_message :=
                  { robot_side := RobotSide.RIGHT, joint_trajectory_messages := [{}, {}],
                    unique_id := 4 } }) = Except.ok st' ∧
      ∃ jt p, st'.2.left_arm_trajectory_message.joint_trajectory_messages[0]? = some jt ∧
        jt.trajectory_points.length = 2 ∧ jt.trajectory_points[1]? = some p ∧
        p.time = 2 ∧ p.position = 1 / 2 := by
  obtain ⟨st', h, _, hall⟩ := parsePoints_arm_slices exampleRobot
    [{ positions := [0, 0, 0, 0, 0, 0, 0], time_from_start := 1 },
      { positions := [0, 0, 0, 1 / 2, 5, 0, 0], time_from_start := 2 }]
    (5, { left_arm_trajectory_message :=
            { robot_side := RobotSide.LEFT, joint_trajectory_messages := [{}, {}],
              unique_id := 3 },
          right_arm_trajectory_message :=
            { robot_side := RobotSide.RIGHT, joint_trajectory_messages := [{}, {}],
              unique_id := 4 } })
    (some 0) (some 3) (some 5) RobotSide.LEFT 3 rfl rfl rfl rfl
    (by simp [exampleRobot]) rfl rfl
    (fun s' hs' => by
      simp only [if_true, Option.some.injEq] at hs'
      subst hs'
      exact ⟨by simp [exampleRobot, RobotSide.other, WholebodyControlInterface.armJointNames],
        rfl⟩)
  obtain ⟨jt, h1, h2, h3⟩ := hall 0 (by decide)
  obtain ⟨p, h4, h5, _, h7⟩ := h3 1 { positions := [0, 0, 0, 1 / 2, 5, 0, 0], time_from_start := 2 }
    (-1, 1) (1 / 2) rfl rfl rfl (inFloatRange_of_abs_le _ (by norm_num))
    (inFloatRange_of_abs_le _ (by norm_num)) (inFloatRange_of_abs_le _ (by norm_num))
    (inFloatRange_of_abs_le _ (by norm_num [abs_le]))
  refine ⟨st', h, jt, p, h1, h2, h4, ?_, ?_⟩
  · rw [h5]
    decide!
  · rw [h7 (by norm_num) (by norm_num)]
    decide!

/-! ## Lemmas about `generateArmMessage` and `moveArmJoints` -/

theorem limitsOf_length (self : ArmControlInterface) (side : RobotSide)
    (hL : self.joint_limits_left_.length = self.NUM_ARM_JOINTS)
    (hR : self.joint_limits_right_.length = self.NUM_ARM_JOINTS) :
    (self.limitsOf side).length = self.NUM_ARM_JOINTS := by
  unfold ArmControlInterface.limitsOf
  split_ifs <;> assumption

/-- One joint-waypoint append, seen through the times and positions of each joint. -/
theorem appendTrajectoryPoint_view (self : ArmControlInterface) (id_ : Int)
    (m : ArmTrajectoryRosMessage) (time : ℚ) (pos : List ℚ)
    (hpos : pos.length = self.NUM_ARM_JOINTS)
    (hlim : (self.limitsOf m.robot_side).length = self.NUM_ARM_JOINTS)
    (hmsg : m.joint_trajectory_messages.length = self.NUM_ARM_JOINTS) :
    ∃ r, self.appendTrajectoryPoint id_ m time pos = Except.ok r ∧
      r.1 = id_ + self.NUM_ARM_JOINTS ∧
      r.2.robot_side = m.robot_side ∧ r.2.unique_id = m.unique_id ∧
      r.2.execution_mode = m.execution_mode ∧
      r.2.joint_trajectory_messages.length = self.NUM_ARM_JOINTS ∧
      ∀ i, i < self.NUM_ARM_JOINTS →
        armJointView r.2 i =
          (armJointView m i).map fun v =>
            v ++ [(toFloat time, clampWaypoint ((self.limitsOf m.robot_side).getD i (0, 0))
              (pos.getD i 0))] := by
  refine ⟨_, appendTrajectoryPoint_eq self id_ m time pos hpos (le_of_eq hlim.symm)
    (le_of_eq hmsg.symm), rfl, rfl, rfl, rfl, by simp [waypointLists, hmsg], ?_⟩
  intro i hi
  have hi2 : i < m.joint_trajectory_messages.length := by omega
  simp [armJointView, waypointLists, List.getElem?_eq_getElem hi2, hi, pointView, waypointPoint]

/-- The loop of `generateArmMessage`: its result, and the points it has appended. -/
theorem generateArmLoop_spec (self : ArmControlInterface) (time : ℚ) (count : Nat) :
    ∀ (poses : List (List ℚ)) (index : Nat) (st : Int × ArmTrajectoryRosMessage),
      (self.limitsOf st.2.robot_side).length = self.NUM_ARM_JOINTS →
      st.2.joint_trajectory_messages.length = self.NUM_ARM_JOINTS →
      ∃ st', generateArmLoop self time count poses index st =
          Except.ok (poses.all (fun w => decide (w.length = self.NUM_ARM_JOINTS)), st') ∧
        st'.2.robot_side = st.2.robot_side ∧ st'.2.unique_id = st.2.unique_id ∧
        st'.2.joint_trajectory_messages.length = self.NUM_ARM_JOINTS ∧
        st.1 ≤ st'.1 ∧
        ∀ i, i < self.NUM_ARM_JOINTS →
          armJointView st'.2 i =
            (armJointView st.2 i).map fun v =>
              v ++ ((self.wellFormedPrefix poses).enumFrom index).map
                (waypointView (self.limitsOf st.2.robot_side) time count i) := by
  intro poses
  induction poses with
  | nil =>
    intro index st _ hmsg
    refine ⟨st, rfl, rfl, rfl, hmsg, le_refl _, ?_⟩
    intro i _
    cases armJointView st.2 i <;> simp [ArmControlInterface.wellFormedPrefix]
  | cons pose rest ih =>
    intro index st hlim hmsg
    by_cases hp : pose.length = self.NUM_ARM_JOINTS
    · obtain ⟨r, e, r1, r2, r3, _, r5, r6⟩ := appendTrajectoryPoint_view self st.1 st.2
        (waypointTime time count index) pose hp hlim hmsg
      obtain ⟨st', e', a1, a2, a3, a4, a5⟩ := ih (index + 1) r (by rw [r2]; exact hlim) r5
      refine ⟨st', ?_, a1.trans r2, a2.trans r3, a3, ?_, ?_⟩
      · unfold waypointTime at e
        simp only [generateArmLoop, hp, ne_eq, not_true_eq_false, if_false, e, List.all_cons,
          decide_True, Bool.true_and]
        exact e'
      · rw [r1] at a4
        omega
      · intro i hi
        rw [a5 i hi, r6 i hi, r2]
        cases armJointView st.2 i with
        | none => rfl
        | some v =>
          simp [ArmControlInterface.wellFormedPrefix, hp, waypointView]
    · refine ⟨st, ?_, rfl, rfl, hmsg, le_refl _, ?_⟩
      · simp [generateArmLoop, hp]
      · intro i _
        cases armJointView st.2 i <;> simp [ArmControlInterface.wellFormedPrefix, hp]

theorem wellFormedPrefix_of_all (self : ArmControlInterface) (arm_pose : List (List ℚ))
    (hall : ∀ w ∈ arm_pose, w.length = self.NUM_ARM_JOINTS) :
    self.wellFormedPrefix arm_pose = arm_pose ∧
    arm_pose.all (fun w => decide (w.length = self.NUM_ARM_JOINTS)) = true := by
  induction arm_pose with
  | nil => exact ⟨rfl, rfl⟩
  | cons w rest ih =>
    have hw : w.length = self.NUM_ARM_JOINTS := hall w (by simp)
    obtain ⟨h1, h2⟩ := ih (fun v hv => hall v (by simp [hv]))
    constructor
    · unfold ArmControlInterface.wellFormedPrefix at h1 ⊢
      simp [hw, h1]
    · simp [hw, h2]

theorem all_false_of_malformed (self : ArmControlInterface) (arm_pose : List (List ℚ))
    (hbad : ∃ w ∈ arm_pose, w.length ≠ self.NUM_ARM_JOINTS) :
    arm_pose.all (fun w => decide (w.length = self.NUM_ARM_JOINTS)) = false := by
  obtain ⟨w, hw, hne⟩ := hbad
  rw [Bool.eq_false_iff]
  intro h
  rw [List.all_eq_true] at h
  have := h w hw
  simp [hne] at this

theorem armJointView_some (m : ArmTrajectoryRosMessage) (i : Nat) (views : List (ℚ × ℚ))
    (h : armJointView m i = some views) :
    ∃ jt, m.joint_trajectory_messages[i]? = some jt ∧
      jt.trajectory_points.map pointView = views := by
  unfold armJointView at h
  cases hjt : m.joint_trajectory_messages[i]? with
  | none => simp [hjt] at h
  | some jt =>
    simp only [hjt, Option.map_some', Option.some.injEq] at h
    exact ⟨jt, rfl, h⟩

/-! ## Claims about `generateArmMessage` and `moveArmJoints` -/

/-- The loop of `generateArmMessage` entered on a message that holds `NUM_ARM_JOINTS` empty
per-joint lists. -/
theorem generateArmLoop_fresh (self : ArmControlInterface) (c : Int) (side : RobotSide)
    (arm_pose : List (List ℚ)) (time : ℚ) (count : Nat) (msg : ArmTrajectoryRosMessage)
    (hlim : (self.limitsOf side).length = self.NUM_ARM_JOINTS) :
    ∃ st', generateArmLoop self time count arm_pose 0
        (c, { msg with
          joint_trajectory_messages := List.replicate self.NUM_ARM_JOINTS {}
          robot_side := side }) =
        Except.ok (arm_pose.all (fun w => decide (w.length = self.NUM_ARM_JOINTS)), st') ∧
      st'.2.joint_trajectory_messages.length = self.NUM_ARM_JOINTS ∧
      ∀ i, i < self.NUM_ARM_JOINTS →
        armJointView st'.2 i =
          some (((self.wellFormedPrefix arm_pose).enumFrom 0).map
            (waypointView (self.limitsOf side) time count i)) := by
  obtain ⟨st', e, _, _, a3, _, a5⟩ := generateArmLoop_spec self time count arm_pose 0
    (c, { msg with
      joint_trajectory_messages := List.replicate self.NUM_ARM_JOINTS {}
      robot_side := side }) hlim (by simp)
  refine ⟨st', e, a3, ?_⟩
  intro i hi
  rw [a5 i hi]
  simp [armJointView, hi]

/-- C14, divergence: `generateArmMessage` opens with the call to `setupArmMessage`, whose body has
no `return` statement, so the call returns `true` for no input. The loop that follows the call
does what the claim says of it: entered on a message of the side that holds `NUM_ARM_JOINTS` empty
per-joint lists, with waypoints that all have `NUM_ARM_JOINTS` values (and a limit table of that
length for the side), it reports `true`, every per-joint list has one point per waypoint, and for
values in the range of `float` the point at index `k` (counted from `0`, the `k+1`-th) of joint
`i` has the time `time / n * (k + 1)` as the code computes it in `float` and the position the
joint-waypoint append derives from the `i`-th value of the waypoint at index `k`. -/
theorem generateArmMessage_setup_does_not_return (self : ArmControlInterface) (id_ c : Int)
    (side : RobotSide) (arm_pose : List (List ℚ)) (time : ℚ) (msg : ArmTrajectoryRosMessage)
    (hlim : (self.limitsOf side).length = self.NUM_ARM_JOINTS)
    (hall : ∀ w ∈ arm_pose, w.length = self.NUM_ARM_JOINTS) :
    self.generateArmMessage id_ side arm_pose time msg = Except.error Fault.undefinedBehaviour ∧
    ∃ id' msg', generateArmLoop self (toFloat time) arm_pose.length arm_pose 0
        (c, { msg with
          joint_trajectory_messages := List.replicate self.NUM_ARM_JOINTS {}
          robot_side := side }) =
        Except.ok (true, (id', msg')) ∧
      msg'.joint_trajectory_messages.length = self.NUM_ARM_JOINTS ∧
      ∀ i, i < self.NUM_ARM_JOINTS →
        ∃ jt, msg'.joint_trajectory_messages[i]? = some jt ∧
          jt.trajectory_points.length = arm_pose.length ∧
          ∀ (k : Nat) (w : List ℚ) (limit : ℚ × ℚ) (x : ℚ),
            arm_pose[k]? = some w → (self.limitsOf side)[i]? = some limit → w[i]? = some x →
            inFloatRange time → inFloatRange limit.1 → inFloatRange limit.2 → inFloatRange x →
            ∃ p, jt.trajectory_points[k]? = some p ∧
              p.time =
                toFloat (toFloat (toFloat (toFloat time / toFloat (arm_pose.length : ℚ)) *
                  toFloat ((k + 1 : Nat) : ℚ))) ∧
              p.position = clampWaypoint limit x := by
  refine ⟨rfl, ?_⟩
  obtain ⟨st', e, a3, a5⟩ := generateArmLoop_fresh self c side arm_pose (toFloat time)
    arm_pose.length msg hlim
  obtain ⟨hp, ha⟩ := wellFormedPrefix_of_all self arm_pose hall
  rw [ha] at e
  refine ⟨st'.1, st'.2, e, a3, ?_⟩
  intro i hi
  have hv := a5 i hi
  rw [hp] at hv
  obtain ⟨jt, hjt, hmap⟩ := armJointView_some _ _ _ hv
  refine ⟨jt, hjt, ?_, ?_⟩
  · have := congrArg List.length hmap
    simpa using this
  · intro k w limit x hw hl hx _ _ _ _
    have hk := congrArg (fun l => l[k]?) hmap
    simp only [List.getElem?_map, List.getElem?_enumFrom, hw, Option.map_some'] at hk
    cases hpt : jt.trajectory_points[k]? with
    | none => simp [hpt] at hk
    | some p =>
      simp only [hpt, Option.map_some', Option.some.injEq, pointView, waypointView,
        waypointTime, List.getD_eq_getElem?_getD, hl, hx, Option.getD_some, Prod.mk.injEq,
        zero_add] at hk
      exact ⟨p, rfl, hk.1, hk.2⟩

/-- Witness for C14: three waypoints for the two-joint left arm over `6` seconds; the call does not
return, and in the loop the points of the first joint have times `2`, `4`, `6`. -/
theorem generateArmMessage_setup_does_not_return_witness :
    ArmControlInterface.generateArmMessage
        { joint_limits_left_ := [(-1, 1), (-2, 2)], joint_limits_right_ := [(-1, 1), (-2, 2)],
          NUM_ARM_JOINTS := 2, leftArmJointNames := [] }
        5 RobotSide.LEFT [[0, 0], [1 / 2, 1], [1, 2]] 6 {} =
      Except.error Fault.undefinedBehaviour ∧
    ∃ id' msg',
      generateArmLoop
          { joint_limits_left_ := [(-1, 1), (-2, 2)], joint_limits_right_ := [(-1, 1), (-2, 2)],
            NUM_ARM_JOINTS := 2, leftArmJointNames := [] }
          (toFloat 6) 3 [[0, 0], [1 / 2, 1], [1, 2]] 0
          (6, { joint_trajectory_messages := [{}, {}], robot_side := RobotSide.LEFT,
                unique_id := 5 }) = Except.ok (true, (id', msg')) ∧
      ∃ jt p1 p2 p3, msg'.joint_trajectory_messages[0]? = some jt ∧
        jt.trajectory_points = [p1, p2, p3] ∧ p1.time = 2 ∧ p2.time = 4 ∧ p3.time = 6 ∧
        p2.position = 1 / 2 := by
  obtain ⟨hf, id', msg', h, _, hall⟩ := generateArmMessage_setup_does_not_return
    { joint_limits_left_ := [(-1, 1), (-2, 2)], joint_limits_right_ := [(-1, 1), (-2, 2)],
      NUM_ARM_JOINTS := 2, leftArmJointNames := [] }
    5 6 RobotSide.LEFT [[0, 0], [1 / 2, 1], [1, 2]] 6 { unique_id := 5 } rfl (by simp)
  obtain ⟨jt, hjt, hlen, hk⟩ := hall 0 (by decide)
  have r6 : inFloatRange 6 := inFloatRange_of_abs_le _ (by norm_num)
  have rl : inFloatRange (-1) := inFloatRange_of_abs_le _ (by norm_num)
  have ru : inFloatRange 1 := inFloatRange_of_abs_le _ (by norm_num)
  obtain ⟨p1, e1, t1, _⟩ := hk 0 [0, 0] (-1, 1) 0 rfl rfl rfl r6 rl ru
    (inFloatRange_of_abs_le _ (by norm_num))
  obtain ⟨p2, e2, t2, x2⟩ := hk 1 [1 / 2, 1] (-1, 1) (1 / 2) rfl rfl rfl r6 rl ru
    (inFloatRange_of_abs_le _ (by norm_num [abs_le]))
  obtain ⟨p3, e3, t3, _⟩ := hk 2 [1, 2] (-1, 1) 1 rfl rfl rfl r6 rl ru ru
  refine ⟨hf, id', msg', h, jt, p1, p2, p3, hjt, ?_, ?_, ?_, ?_, ?_⟩
  · apply List.ext_getElem?
    intro n
    match n with
    | 0 => simpa using e1
    | 1 => simpa using e2
    | 2 => simpa using e3
    | n + 3 =>
      have : jt.trajectory_points.length ≤ n + 3 := by
        rw [hlen]
        simp
      simp [List.getElem?_eq_none this]
  · rw [t1]; decide!
  · rw [t2]; decide!
  · rw [t3]; decide!
  · rw [x2]; decide!

/-- The loop of `moveArmJoints(arm_data)`: its result, the flags and the sides it leaves. -/
theorem moveArmJointsLoop_spec (self : ArmControlInterface)
    (hL : self.joint_limits_left_.length = self.NUM_ARM_JOINTS)
    (hR : self.joint_limits_right_.length = self.NUM_ARM_JOINTS) :
    ∀ (arm_data : List ArmJointData) (st : PairedArmState),
      st.arm_traj_r.joint_trajectory_messages.length = self.NUM_ARM_JOINTS →
      st.arm_traj_l.joint_trajectory_messages.length = self.NUM_ARM_JOINTS →
      ∃ st', moveArmJointsLoop self arm_data st =
          Except.ok (arm_data.all (fun d => decide (d.arm_pose.length = self.NUM_ARM_JOINTS)),
            st') ∧
        st'.arm_traj_r.joint_trajectory_messages.length = self.NUM_ARM_JOINTS ∧
        st'.arm_traj_l.joint_trajectory_messages.length = self.NUM_ARM_JOINTS ∧
        st.id_ ≤ st'.id_ ∧
        ((∀ d ∈ arm_data, d.arm_pose.length = self.NUM_ARM_JOINTS) →
          st'.right = (st.right || arm_data.any (fun d => decide (d.side = RobotSide.RIGHT))) ∧
          st'.left = (st.left || arm_data.any (fun d => decide (d.side ≠ RobotSide.RIGHT))) ∧
          ((∃ d ∈ arm_data, d.side = RobotSide.RIGHT) →
            st'.arm_traj_r.robot_side = RobotSide.RIGHT) ∧
          ((∃ d ∈ arm_data, d.side ≠ RobotSide.RIGHT) →
            st'.arm_traj_l.robot_side = RobotSide.LEFT) ∧
          ((¬ ∃ d ∈ arm_data, d.side = RobotSide.RIGHT) → st'.arm_traj_r = st.arm_traj_r) ∧
          ((¬ ∃ d ∈ arm_data, d.side ≠ RobotSide.RIGHT) → st'.arm_traj_l = st.arm_traj_l)) := by
  intro arm_data
  induction arm_data with
  | nil =>
    intro st hr hl
    exact ⟨st, rfl, hr, hl, le_refl _, fun _ => by simp⟩
  | cons d rest ih =>
    intro st hr hl
    by_cases hp : d.arm_pose.length = self.NUM_ARM_JOINTS
    · by_cases hs : d.side = RobotSide.RIGHT
      · obtain ⟨r, e, r1, r2, _, _, r5, _⟩ := appendTrajectoryPoint_view self st.id_
          { st.arm_traj_r with robot_side := d.side } d.time d.arm_pose hp
          (limitsOf_length self _ hL hR) hr
        obtain ⟨st', e', a1, a2, a3, a4⟩ := ih
          { st with id_ := r.1, arm_traj_r := r.2, right := true } r5 hl
        refine ⟨st', ?_, a1, a2, ?_, ?_⟩
        · simp only [moveArmJointsLoop, hp, ne_eq, not_true_eq_false, if_false, hs, if_true,
            List.all_cons, decide_True, Bool.true_and]
          rw [hs] at e
          simp only [e]
          exact e'
        · have : st.id_ ≤ r.1 := by rw [r1]; omega
          exact le_trans this a3
        · intro hall
          obtain ⟨b1, b2, b3, b4, b5, b6⟩ := a4 (fun x hx => hall x (by simp [hx]))
          refine ⟨?_, ?_, ?_, ?_, ?_, ?_⟩
          · simp [b1, hs]
          · simp [b2, hs]
          · intro _
            by_cases hrest : ∃ x ∈ rest, x.side = RobotSide.RIGHT
            · exact b3 hrest
            · rw [b5 hrest]
              simp only [r2]
              exact hs
          · rintro ⟨x, hx, hxs⟩
            simp only [List.mem_cons] at hx
            rcases hx with rfl | hx
            · exact absurd hs hxs
            · exact b4 ⟨x, hx, hxs⟩
          · intro hno
            exact absurd ⟨d, by simp, hs⟩ hno
          · intro hno
            exact b6 (fun ⟨x, hx, hxs⟩ => hno ⟨x, by simp [hx], hxs⟩)
      · have hsl : d.side = RobotSide.LEFT := by
          cases hd : d.side with
          | LEFT => rfl
          | RIGHT => exact absurd hd hs
        obtain ⟨r, e, r1, r2, _, _, r5, _⟩ := appendTrajectoryPoint_view self st.id_
          { st.arm_traj_l with robot_side := d.side } d.time d.arm_pose hp
          (limitsOf_length self _ hL hR) hl
        obtain ⟨st', e', a1, a2, a3, a4⟩ := ih
          { st with id_ := r.1, arm_traj_l := r.2, left := true } hr r5
        refine ⟨st', ?_, a1, a2, ?_, ?_⟩
        · simp only [moveArmJointsLoop, hp, ne_eq, not_true_eq_false, if_false, hs,
            List.all_cons, decide_True, Bool.true_and]
          simp only [e]
          exact e'
        · have : st.id_ ≤ r.1 := by rw [r1]; omega
          exact le_trans this a3
        · intro hall
          obtain ⟨b1, b2, b3, b4, b5, b6⟩ := a4 (fun x hx => hall x (by simp [hx]))
          refine ⟨?_, ?_, ?_, ?_, ?_, ?_⟩
          · simp [b1, hs]
          · simp [b2, hs]
          · rintro ⟨x, hx, hxs⟩
            simp only [List.mem_cons] at hx
            rcases hx with rfl | hx
            · exact absurd hxs hs
            · exact b3 ⟨x, hx, hxs⟩
          · intro _
            by_cases hrest : ∃ x ∈ rest, x.side ≠ RobotSide.RIGHT
            · exact b4 hrest
            · rw [b6 hrest]
              simp only [r2]
              exact hsl
          · intro hno
            exact b5 (fun ⟨x, hx, hxs⟩ => hno ⟨x, by simp [hx], hxs⟩)
          · intro hno
            exact absurd ⟨d, by simp, hs⟩ hno
    · refine ⟨st, ?_, hr, hl, le_refl _, ?_⟩
      · simp [moveArmJointsLoop, hp]
      · intro hall
        exact absurd (hall d (by simp)) hp

/-- C15, divergence: the single-side `moveArmJoints(side, arm_pose, time)` calls
`generateArmMessage`, which opens with the call to `setupArmMessage`, a `bool` function without a
`return` statement: for no waypoint list, malformed or not, does the call return `false` or
`true`. The paired overload does not make that call and behaves as claimed: with limit tables of
`NUM_ARM_JOINTS` entries, an entry whose number of joint values differs from `NUM_ARM_JOINTS`
anywhere in the list makes `moveArmJoints(arm_data)` return `false` with the effects unchanged, so
nothing is published. -/
theorem moveArmJoints_single_side_does_not_return (self : ArmControlInterface)
    (side : RobotSide) (arm_pose : List (List ℚ)) (time : ℚ) (arm_data : List ArmJointData)
    (proc : Process)
    (hL : self.joint_limits_left_.length = self.NUM_ARM_JOINTS)
    (hR : self.joint_limits_right_.length = self.NUM_ARM_JOINTS)
    (hbad : ∃ d ∈ arm_data, d.arm_pose.length ≠ self.NUM_ARM_JOINTS) :
    self.moveArmJoints side arm_pose time proc = Except.error Fault.undefinedBehaviour ∧
    ∃ proc', self.moveArmJointsPaired arm_data proc = Except.ok (false, proc') ∧
      proc'.effects = proc.effects := by
  refine ⟨rfl, ?_⟩
  obtain ⟨st', e, _⟩ := moveArmJointsLoop_spec self hL hR arm_data
    { id_ := proc.id_ + 2,
      arm_traj_r :=
        { joint_trajectory_messages := List.replicate self.NUM_ARM_JOINTS {},
          unique_id := proc.id_ },
      arm_traj_l :=
        { joint_trajectory_messages := List.replicate self.NUM_ARM_JOINTS {},
          unique_id := proc.id_ + 1 },
      right := false, left := false } (by simp) (by simp)
  have hf : arm_data.all (fun d => decide (d.arm_pose.length = self.NUM_ARM_JOINTS)) =
      false := by
    obtain ⟨d, hd, hne⟩ := hbad
    rw [Bool.eq_false_iff]
    intro h
    rw [List.all_eq_true] at h
    have := h d hd
    simp [hne] at this
  rw [hf] at e
  exact ⟨{ id_ := st'.id_, effects := proc.effects },
    by simp [ArmControlInterface.moveArmJointsPaired, e], rfl⟩

/-- Witness for C15: on the two-joint arm of the example robot the single-side call with two
well-formed waypoints does not return, and a one-value entry in second place of the paired list
stops the paired call without a publish. -/
theorem moveArmJoints_single_side_does_not_return_witness :
    exampleRobot.armController_.moveArmJoints RobotSide.LEFT [[0, 0], [1, 1]] 2
        { id_ := 2, effects := [] } = Except.error Fault.undefinedBehaviour ∧
    ∃ proc',
      exampleRobot.armController_.moveArmJointsPaired
        [{ side := RobotSide.RIGHT, arm_pose := [0, 0], time := 1 },
         { side := RobotSide.LEFT, arm_pose := [0], time := 1 }]
        { id_ := 2, effects := [] } = Except.ok (false, proc') ∧ proc'.effects = [] :=
  moveArmJoints_single_side_does_not_return exampleRobot.armController_ RobotSide.LEFT
    [[0, 0], [1, 1]] 2
    [{ side := RobotSide.RIGHT, arm_pose := [0, 0], time := 1 },
     { side := RobotSide.LEFT, arm_pose := [0], time := 1 }]
    { id_ := 2, effects := [] } rfl rfl
    ⟨{ side := RobotSide.LEFT, arm_pose := [0], time := 1 }, by simp, by decide⟩

/-- C16 as stated fails: on the example robot `moveArmJoints` with an empty waypoint list does not
return `false`. The call reaches `setupArmMessage`, which has no `return` statement; and the loop
of `generateArmMessage`, the only place that reports a malformed input, makes no iteration over
the empty list and reports `true` on the message with its two empty per-joint lists. -/
theorem moveArmJoints_empty_list_not_rejected :
    exampleRobot.armController_.moveArmJoints RobotSide.LEFT [] 2 { id_ := 2, effects := [] } =
      Except.error Fault.undefinedBehaviour ∧
    generateArmLoop exampleRobot.armController_ (toFloat 2) 0 [] 0
        (3, { robot_side := RobotSide.LEFT, joint_trajectory_messages := [{}, {}],
              unique_id := 2 }) =
      Except.ok (true,
        (3, { robot_side := RobotSide.LEFT, joint_trajectory_messages := [{}, {}],
              unique_id := 2 })) :=
  ⟨rfl, rfl⟩

/-- C16 amended: the loop of `generateArmMessage` does not treat an empty waypoint list as
malformed. Entered with an empty list it reports `true` and leaves counter and message as they
are; and for every waypoint list, whenever it reports `false` some waypoint of the list has a
number of joint values different from `NUM_ARM_JOINTS`. -/
theorem generateArmLoop_accepts_empty_list (self : ArmControlInterface) (time : ℚ) (count : Nat)
    (index : Nat) (st : Int × ArmTrajectoryRosMessage) :
    generateArmLoop self time count [] index st = Except.ok (true, st) ∧
    ∀ (arm_pose : List (List ℚ)) (st' : Int × ArmTrajectoryRosMessage),
      generateArmLoop self time count arm_pose index st = Except.ok (false, st') →
      ∃ w ∈ arm_pose, w.length ≠ self.NUM_ARM_JOINTS := by
  refine ⟨rfl, ?_⟩
  intro arm_pose
  induction arm_pose generalizing index st with
  | nil =>
    intro st' h
    simp [generateArmLoop] at h
  | cons pose rest ih =>
    intro st' h
    by_cases hp : pose.length = self.NUM_ARM_JOINTS
    · simp only [generateArmLoop, hp, ne_eq, not_true_eq_false, if_false] at h
      cases happ : self.appendTrajectoryPoint st.1 st.2
          (toFloat (toFloat (time / toFloat (count : ℚ)) * toFloat ((index + 1 : Nat) : ℚ)))
          pose with
      | error f =>
        rw [happ] at h
        cases h
      | ok r =>
        rw [happ] at h
        obtain ⟨w, hw, hne⟩ := ih (index + 1) r st' h
        exact ⟨w, by simp [hw], hne⟩
    · exact ⟨pose, by simp, hp⟩

/-- C17 as stated fails: on the two-joint arm of the example robot the loop of `generateArmMessage`,
entered on the left-arm message with its two empty per-joint lists, reports `false` for the
waypoints `[0, 0]` and `[0]` with one point already appended to each per-joint list. -/
theorem generateArmLoop_partial_append :
    Except.map
        (fun r => (r.1, r.2.2.joint_trajectory_messages.map
          (fun jt => jt.trajectory_points.length)))
        (generateArmLoop exampleRobot.armController_ (toFloat 2) 2 [[0, 0], [0]] 0
          (3, { robot_side := RobotSide.LEFT, joint_trajectory_messages := [{}, {}],
                unique_id := 2 })) =
      Except.ok (false, [1, 1]) := by
  decide!

/-- C17 amended: when some waypoint's length differs from `NUM_ARM_JOINTS` (and the side's limit
table has `NUM_ARM_JOINTS` entries), the loop of `generateArmMessage`, entered on a message of the
side that holds `NUM_ARM_JOINTS` empty per-joint lists, reports `false`, and every per-joint list
of the message then holds exactly one point for each well-formed waypoint that precedes the first
malformed one. -/
theorem generateArmLoop_failure_keeps_prefix (self : ArmControlInterface) (c : Int)
    (side : RobotSide) (arm_pose : List (List ℚ)) (time : ℚ) (msg : ArmTrajectoryRosMessage)
    (hlim : (self.limitsOf side).length = self.NUM_ARM_JOINTS)
    (hbad : ∃ w ∈ arm_pose, w.length ≠ self.NUM_ARM_JOINTS) :
    ∃ id' msg', generateArmLoop self (toFloat time) arm_pose.length arm_pose 0
        (c, { msg with
          joint_trajectory_messages := List.replicate self.NUM_ARM_JOINTS {}
          robot_side := side }) =
        Except.ok (false, (id', msg')) ∧
      msg'.joint_trajectory_messages.length = self.NUM_ARM_JOINTS ∧
      ∀ i, i < self.NUM_ARM_JOINTS →
        ∃ jt, msg'.joint_trajectory_messages[i]? = some jt ∧
          jt.trajectory_points.length = (self.wellFormedPrefix arm_pose).length := by
  obtain ⟨st', e, a3, a5⟩ := generateArmLoop_fresh self c side arm_pose (toFloat time)
    arm_pose.length msg hlim
  rw [all_false_of_malformed self arm_pose hbad] at e
  refine ⟨st'.1, st'.2, e, a3, ?_⟩
  intro i hi
  obtain ⟨jt, hjt, hmap⟩ := armJointView_some _ _ _ (a5 i hi)
  refine ⟨jt, hjt, ?_⟩
  have := congrArg List.length hmap
  simpa using this

/-- Witness for C17 amended: two well-formed waypoints before a malformed one leave two points in
each per-joint list. -/
theorem generateArmLoop_failure_keeps_prefix_witness :
    ∃ id' msg',
      generateArmLoop exampleRobot.armController_ (toFloat 4) 4
        [[0, 0], [1, 1], [0, 0, 0], [1, 1]] 0
        (3, { robot_side := RobotSide.RIGHT, joint_trajectory_messages := [{}, {}],
              unique_id := 2 }) = Except.ok (false, (id', msg')) ∧
      msg'.joint_trajectory_messages.length = 2 ∧
      ∀ i, i < 2 →
        ∃ jt, msg'.joint_trajectory_messages[i]? = some jt ∧ jt.trajectory_points.length = 2 :=
  generateArmLoop_failure_keeps_prefix exampleRobot.armController_ 3 RobotSide.RIGHT
    [[0, 0], [1, 1], [0, 0, 0], [1, 1]] 4 { unique_id := 2 } rfl ⟨[0, 0, 0], by simp, by decide⟩

/-- C18: with limit tables of `NUM_ARM_JOINTS` entries and every entry of `arm_data` well formed,
`moveArmJoints(arm_data)` returns `true` and its effects are, in this order, the right-arm message
if `arm_data` has an entry for the right side, the delay of `1/50` s, and the left-arm message if
`arm_data` has an entry for the left side; with entries for both sides the trace is exactly
right-arm message, delay, left-arm message. -/
theorem moveArmJointsPaired_right_then_left (self : ArmControlInterface)
    (arm_data : List ArmJointData) (proc : Process)
    (hL : self.joint_limits_left_.length = self.NUM_ARM_JOINTS)
    (hR : self.joint_limits_right_.length = self.NUM_ARM_JOINTS)
    (hall : ∀ d ∈ arm_data, d.arm_pose.length = self.NUM_ARM_JOINTS) :
    ∃ proc' r l, self.moveArmJointsPaired arm_data proc = Except.ok (true, proc') ∧
      proc'.effects = proc.effects ++
        (if arm_data.any (fun d => decide (d.side = RobotSide.RIGHT)) then [Effect.publishArm r]
          else []) ++
        [Effect.sleep (1 / 50)] ++
        (if arm_data.any (fun d => decide (d.side ≠ RobotSide.RIGHT)) then [Effect.publishArm l]
          else []) ∧
      ((∃ d ∈ arm_data, d.side = RobotSide.RIGHT) → r.robot_side = RobotSide.RIGHT) ∧
      ((∃ d ∈ arm_data, d.side ≠ RobotSide.RIGHT) → l.robot_side = RobotSide.LEFT) ∧
      ((∃ d ∈ arm_data, d.side = RobotSide.RIGHT) → (∃ d ∈ arm_data, d.side = RobotSide.LEFT) →
        proc'.effects = proc.effects ++
          [Effect.publishArm r, Effect.sleep (1 / 50), Effect.publishArm l]) := by
  obtain ⟨st', e, _, _, _, a4⟩ := moveArmJointsLoop_spec self hL hR arm_data
    { id_ := proc.id_ + 2,
      arm_traj_r :=
        { joint_trajectory_messages := List.replicate self.NUM_ARM_JOINTS {},
          unique_id := proc.id_ },
      arm_traj_l :=
        { joint_trajectory_messages := List.replicate self.NUM_ARM_JOINTS {},
          unique_id := proc.id_ + 1 },
      right := false, left := false } (by simp) (by simp)
  obtain ⟨b1, b2, b3, b4, _, _⟩ := a4 hall
  have ht : arm_data.all (fun d => decide (d.arm_pose.length = self.NUM_ARM_JOINTS)) = true := by
    rw [List.all_eq_true]
    intro d hd
    simp [hall d hd]
  rw [ht] at e
  simp only [Bool.false_or] at b1 b2
  have heff : ∃ proc', self.moveArmJointsPaired arm_data proc = Except.ok (true, proc') ∧
      proc'.effects = proc.effects ++
        (if arm_data.any (fun d => decide (d.side = RobotSide.RIGHT)) then
          [Effect.publishArm st'.arm_traj_r] else []) ++
        [Effect.sleep (1 / 50)] ++
        (if arm_data.any (fun d => decide (d.side ≠ RobotSide.RIGHT)) then
          [Effect.publishArm st'.arm_traj_l] else []) := by
    refine ⟨_, by simp only [ArmControlInterface.moveArmJointsPaired, e]; rfl, ?_⟩
    simp only [b1, b2]
  obtain ⟨proc', hp, he⟩ := heff
  refine ⟨proc', st'.arm_traj_r, st'.arm_traj_l, hp, he, b3, b4, ?_⟩
  rintro ⟨d1, hd1, hs1⟩ ⟨d2, hd2, hs2⟩
  have h1 : arm_data.any (fun d => decide (d.side = RobotSide.RIGHT)) = true := by
    rw [List.any_eq_true]
    exact ⟨d1, hd1, by simp [hs1]⟩
  have h2 : arm_data.any (fun d => decide (d.side ≠ RobotSide.RIGHT)) = true := by
    rw [List.any_eq_true]
    exact ⟨d2, hd2, by simp [hs2]⟩
  rw [he, h1, h2]
  simp

/-- Witness for C18: a left entry listed before a right entry on the example robot; the right-arm
message is still published first. -/
theorem moveArmJointsPaired_right_then_left_witness :
    ∃ proc' r l,
      exampleRobot.armController_.moveArmJointsPaired
        [{ side := RobotSide.LEFT, arm_pose := [0, 0], time := 1 },
         { side := RobotSide.RIGHT, arm_pose := [1, 1], time := 1 }]
        { id_ := 2, effects := [] } = Except.ok (true, proc') ∧
      r.robot_side = RobotSide.RIGHT ∧ l.robot_side = RobotSide.LEFT ∧
      proc'.effects = [] ++ [Effect.publishArm r, Effect.sleep (1 / 50), Effect.publishArm l] := by
  obtain ⟨proc', r, l, h, _, hr, hl, hboth⟩ := moveArmJointsPaired_right_then_left
    exampleRobot.armController_
    [{ side := RobotSide.LEFT, arm_pose := [0, 0], time := 1 },
     { side := RobotSide.RIGHT, arm_pose := [1, 1], time := 1 }]
    { id_ := 2, effects := [] } rfl rfl (by simp [exampleRobot])
  have hR : ∃ d ∈ [({ side := RobotSide.LEFT, arm_pose := [0, 0], time := 1 } : ArmJointData),
      { side := RobotSide.RIGHT, arm_pose := [1, 1], time := 1 }], d.side = RobotSide.RIGHT :=
    ⟨{ side := RobotSide.RIGHT, arm_pose := [1, 1], time := 1 }, by simp, rfl⟩
  have hLne : ∃ d ∈ [({ side := RobotSide.LEFT, arm_pose := [0, 0], time := 1 } : ArmJointData),
      { side := RobotSide.RIGHT, arm_pose := [1, 1], time := 1 }], d.side ≠ RobotSide.RIGHT :=
    ⟨{ side := RobotSide.LEFT, arm_pose := [0, 0], time := 1 }, by simp, by decide⟩
  have hLe : ∃ d ∈ [({ side := RobotSide.LEFT, arm_pose := [0, 0], time := 1 } : ArmJointData),
      { side := RobotSide.RIGHT, arm_pose := [1, 1], time := 1 }], d.side = RobotSide.LEFT :=
    ⟨{ side := RobotSide.LEFT, arm_pose := [0, 0], time := 1 }, by simp, rfl⟩
  exact ⟨proc', r, l, h, hr hR, hl hLne, hboth hR hLe⟩

/-! ## Lemmas about the shared counter -/

/-- A relation that every step of a loop respects is respected by the whole loop. -/
theorem foldlM_invariant {σ α : Type} (f : σ → α → Except Fault σ) (R : σ → σ → Prop)
    (hrefl : ∀ s, R s s) (htrans : ∀ a b c, R a b → R b c → R a c)
    (hstep : ∀ s a s', f s a = Except.ok s' → R s s') :
    ∀ (l : List α) (s s' : σ), l.foldlM f s = Except.ok s' → R s s' := by
  intro l
  induction l with
  | nil =>
    intro s s' h
    simp only [List.foldlM_nil, pure, Except.pure, Except.ok.injEq] at h
    subst h
    exact hrefl s
  | cons a l ih =>
    intro s s' h
    simp only [List.foldlM_cons, bind, Except.bind] at h
    cases h1 : f s a with
    | error e => simp [h1] at h
    | ok s1 =>
      simp only [h1] at h
      exact htrans _ _ _ (hstep s a s1 h1) (ih s1 s' h)

theorem idAfter_le (g : GroupStart) (id_ : Int) : id_ ≤ idAfter g id_ := by
  cases g <;> simp [idAfter]

/-- A normal return of `parseTrajectory` never lowers the counter and keeps the top-level id of
the message. -/
theorem parseTrajectory_counter (self : WholebodyControlInterface) (traj : JointTrajectory)
    (id_ : Int) (msg : WholeBodyTrajectoryRosMessage) (r : Int × WholeBodyTrajectoryRosMessage)
    (h : self.parseTrajectory traj id_ msg = Except.ok r) :
    id_ ≤ r.1 ∧ r.2.unique_id = msg.unique_id := by
  obtain ⟨gc, _, h1 | h1 | h1⟩ := parseTrajectory_ok self traj id_ msg r h
  · rw [h1.2]
    exact ⟨le_refl _, rfl⟩
  · rw [h1.2]
    exact ⟨idAfter_le gc id_, rfl⟩
  · rw [h1.2]
    exact ⟨idAfter_le gc id_, rfl⟩

/-- A normal return of `executeTrajectory` comes from a normal return of `parseTrajectory` on the
freshly initialised message, whose result is published. -/
theorem executeTrajectory_ok (self : WholebodyControlInterface) (now : Int)
    (traj : JointTrajectory) (proc proc' : Process)
    (h : self.executeTrajectory now traj proc = Except.ok proc') :
    ∃ r, self.parseTrajectory traj proc.id_ (initializeWholebodyMessage now {}) = Except.ok r ∧
      proc' =
        { id_ := r.1
          effects := proc.effects ++ [Effect.publishWholeBody r.2, Effect.sleep (1 / 10)] } := by
  cases hp : self.parseTrajectory traj proc.id_ (initializeWholebodyMessage now {}) with
  | error f => simp [WholebodyControlInterface.executeTrajectory, hp] at h
  | ok r =>
    simp only [WholebodyControlInterface.executeTrajectory, hp, Except.ok.injEq] at h
    exact ⟨r, rfl, h.symm⟩

theorem except_map_ok {α β : Type} (f : α → β) (x : Except Fault α) (b : β)
    (h : Except.map f x = Except.ok b) : ∃ a, x = Except.ok a ∧ f a = b := by
  cases x with
  | error e => simp [Except.map] at h
  | ok a =>
    simp only [Except.map, Except.ok.injEq] at h
    exact ⟨a, rfl, h⟩

/-! ## Lemmas about the recording counter -/

theorem Minted.extends_refl (c : Minted) : c.Extends c :=
  ⟨0, by simp, by simp⟩

theorem Minted.extends_trans (a b c : Minted) (h1 : a.Extends b) (h2 : b.Extends c) :
    a.Extends c := by
  obtain ⟨n1, e1, l1⟩ := h1
  obtain ⟨n2, e2, l2⟩ := h2
  refine ⟨n1 + n2, ?_, ?_⟩
  · rw [e2, e1]
    push_cast
    ring
  · rw [l2, l1, e1, List.range_add, List.map_append, List.map_map, List.append_assoc]
    congr 2
    apply List.map_congr_left
    intro k _
    simp only [Function.comp_apply]
    push_cast
    ring

theorem Minted.extends_postIncrement (c : Minted) : c.Extends c.postIncrement.2 :=
  ⟨1, by simp [Minted.postIncrement], by simp [Minted.postIncrement, List.range_succ]⟩

theorem Minted.extends_postIncrement_twice (c : Minted) :
    c.Extends c.postIncrement.2.postIncrement.2 :=
  Minted.extends_trans _ _ _ (Minted.extends_postIncrement c)
    (Minted.extends_postIncrement c.postIncrement.2)

/-- A loop over steps that agree with their plain versions agrees with the plain loop. -/
theorem foldlM_erase {σ τ α : Type} (f : σ → α → Except Fault σ) (g : τ → α → Except Fault τ)
    (e : τ → σ) (h : ∀ t a, Except.map e (g t a) = f (e t) a) :
    ∀ (l : List α) (t : τ), Except.map e (l.foldlM g t) = l.foldlM f (e t) := by
  intro l
  induction l with
  | nil =>
    intro t
    rfl
  | cons a l ih =>
    intro t
    simp only [List.foldlM_cons, bind, Except.bind]
    rw [← h t a]
    cases g t a with
    | error f => rfl
    | ok t' =>
      simp only [Except.map]
      exact ih t'

theorem appendWaypointJointLogged_extends (joint_limits_ : List (ℚ × ℚ)) (time : ℚ)
    (pos : List ℚ) (id : Int) (st st' : Minted × ArmTrajectoryRosMessage) (i : Nat)
    (h : appendWaypointJointLogged joint_limits_ time pos id st i = Except.ok st') :
    st.1.Extends st'.1 := by
  dsimp only [appendWaypointJointLogged] at h
  split at h
  · cases h
  · split at h
    · cases h
    · split at h
      · cases h
      · cases h
        exact Minted.extends_postIncrement _

theorem appendWaypointJointLogged_erase (joint_limits_ : List (ℚ × ℚ)) (time : ℚ)
    (pos : List ℚ) (id : Int) (st : Minted × ArmTrajectoryRosMessage) (i : Nat) :
    Except.map (fun r : Minted × ArmTrajectoryRosMessage => (r.1.id_, r.2))
        (appendWaypointJointLogged joint_limits_ time pos id st i) =
      appendWaypointJoint joint_limits_ time pos id (st.1.id_, st.2) i := by
  dsimp only [appendWaypointJointLogged, appendWaypointJoint]
  cases pos[i]? with
  | none => rfl
  | some x =>
    cases joint_limits_[i]? with
    | none => rfl
    | some limit =>
      cases st.2.joint_trajectory_messages[i]? with
      | none => rfl
      | some jt => rfl

theorem appendTrajectoryPointLogged_extends (self : ArmControlInterface) (c : Minted)
    (armMsg : ArmTrajectoryRosMessage) (time : ℚ) (pos : List ℚ)
    (r : Minted × ArmTrajectoryRosMessage)
    (h : self.appendTrajectoryPointLogged c armMsg time pos = Except.ok r) : c.Extends r.1 := by
  dsimp only [ArmControlInterface.appendTrajectoryPointLogged] at h
  by_cases hlen : pos.length ≠ self.NUM_ARM_JOINTS
  · rw [if_pos hlen] at h
    cases h
    exact Minted.extends_refl _
  · rw [if_neg hlen] at h
    exact foldlM_invariant _ (fun a b : Minted × ArmTrajectoryRosMessage => a.1.Extends b.1)
      (fun _ => Minted.extends_refl _) (fun _ _ _ hab hbc => Minted.extends_trans _ _ _ hab hbc)
      (fun s a s' hs => appendWaypointJointLogged_extends _ _ _ _ s s' a hs) _ _ _ h

theorem appendTrajectoryPointLogged_erase (self : ArmControlInterface) (c : Minted)
    (armMsg : ArmTrajectoryRosMessage) (time : ℚ) (pos : List ℚ) :
    Except.map (fun r : Minted × ArmTrajectoryRosMessage => (r.1.id_, r.2))
        (self.appendTrajectoryPointLogged c armMsg time pos) =
      self.appendTrajectoryPoint c.id_ armMsg time pos := by
  dsimp only [ArmControlInterface.appendTrajectoryPointLogged,
    ArmControlInterface.appendTrajectoryPoint]
  by_cases hlen : pos.length ≠ self.NUM_ARM_JOINTS
  · rw [if_pos hlen, if_pos hlen]
    rfl
  · rw [if_neg hlen, if_neg hlen]
    exact foldlM_erase _ _ (fun r : Minted × ArmTrajectoryRosMessage => (r.1.id_, r.2))
      (fun t a => appendWaypointJointLogged_erase _ _ _ _ t a) _ _

theorem appendExternalJointLogged_extends (joint_limits_ : List (ℚ × ℚ))
    (joint_names : List String) (point : JointTrajectoryPoint)
    (st st' : Minted × ArmTrajectoryRosMessage) (i : Nat)
    (h : appendExternalJointLogged joint_limits_ joint_names point st i = Except.ok st') :
    st.1.Extends st'.1 := by
  dsimp only [appendExternalJointLogged] at h
  split at h
  · split at h
    · cases h
    · split at h
      · cases h
      · cases h
        exact Minted.extends_postIncrement _
  · cases h

theorem appendExternalJointLogged_erase (joint_limits_ : List (ℚ × ℚ))
    (joint_names : List String) (point : JointTrajectoryPoint)
    (st : Minted × ArmTrajectoryRosMessage) (i : Nat) :
    Except.map (fun r : Minted × ArmTrajectoryRosMessage => (r.1.id_, r.2))
        (appendExternalJointLogged joint_limits_ joint_names point st i) =
      appendExternalJoint joint_limits_ joint_names point (st.1.id_, st.2) i := by
  dsimp only [appendExternalJointLogged, appendExternalJoint]
  cases joint_names[i]? with
  | none => rfl
  | some n =>
    cases point.positions[i]? with
    | none => rfl
    | some x =>
      cases joint_limits_[i]? with
      | none => rfl
      | some limit =>
        cases point.velocities[i]? with
        | none => rfl
        | some v =>
          cases st.2.joint_trajectory_messages[i]? with
          | none => rfl
          | some jt => rfl

theorem appendTrajectoryPointExternalLogged_extends (self : ArmControlInterface) (c : Minted)
    (msg : ArmTrajectoryRosMessage) (point : JointTrajectoryPoint)
    (r : Minted × ArmTrajectoryRosMessage)
    (h : self.appendTrajectoryPointExternalLogged c msg point = Except.ok r) :
    c.Extends r.1 := by
  dsimp only [ArmControlInterface.appendTrajectoryPointExternalLogged] at h
  by_cases hlen : point.positions.length ≠ self.NUM_ARM_JOINTS
  · rw [if_pos hlen] at h
    cases h
    exact Minted.extends_refl _
  · rw [if_neg hlen] at h
    exact foldlM_invariant _ (fun a b : Minted × ArmTrajectoryRosMessage => a.1.Extends b.1)
      (fun _ => Minted.extends_refl _) (fun _ _ _ hab hbc => Minted.extends_trans _ _ _ hab hbc)
      (fun s a s' hs => appendExternalJointLogged_extends _ _ _ s s' a hs) _ _ _ h

theorem appendTrajectoryPointExternalLogged_erase (self : ArmControlInterface) (c : Minted)
    (msg : ArmTrajectoryRosMessage) (point : JointTrajectoryPoint) :
    Except.map (fun r : Minted × ArmTrajectoryRosMessage => (r.1.id_, r.2))
        (self.appendTrajectoryPointExternalLogged c msg point) =
      self.appendTrajectoryPointExternal c.id_ msg point := by
  dsimp only [ArmControlInterface.appendTrajectoryPointExternalLogged,
    ArmControlInterface.appendTrajectoryPointExternal]
  by_cases hlen : point.positions.length ≠ self.NUM_ARM_JOINTS
  · rw [if_pos hlen, if_pos hlen]
    rfl
  · rw [if_neg hlen, if_neg hlen]
    exact foldlM_erase _ _ (fun r : Minted × ArmTrajectoryRosMessage => (r.1.id_, r.2))
      (fun t a => appendExternalJointLogged_erase _ _ _ t a) _ _

theorem constructLogged_extends (c : Minted) (leftLimits rightLimits : List (ℚ × ℚ))
    (names : List String) (r : Minted × ArmControlInterface)
    (h : ArmControlInterface.constructLogged c leftLimits rightLimits names = Except.ok r) :
    c.Extends r.1 := by
  dsimp only [ArmControlInterface.constructLogged] at h
  split at h
  · cases h
  · cases h
    exact Minted.extends_postIncrement _

theorem constructLogged_erase (c : Minted) (leftLimits rightLimits : List (ℚ × ℚ))
    (names : List String) :
    Except.map (fun r : Minted × ArmControlInterface => (r.1.id_, r.2))
        (ArmControlInterface.constructLogged c leftLimits rightLimits names) =
      ArmControlInterface.construct c.id_ leftLimits rightLimits names := by
  dsimp only [ArmControlInterface.constructLogged, ArmControlInterface.construct]
  cases (List.range leftLimits.length).foldlM shrinkJoint (leftLimits, rightLimits) with
  | error f => rfl
  | ok limits => rfl

theorem moveToZeroPoseLogged_extends (self : ArmControlInterface) (side : RobotSide) (time : ℚ)
    (proc proc' : LoggedProcess)
    (h : self.moveToZeroPoseLogged side time proc = Except.ok proc') :
    proc.counter.Extends proc'.counter := by
  dsimp only [ArmControlInterface.moveToZeroPoseLogged] at h
  split at h
  · cases h
  · rename_i r hr
    cases h
    exact Minted.extends_trans _ _ _ (Minted.extends_postIncrement _)
      (appendTrajectoryPointLogged_extends _ _ _ _ _ _ hr)

theorem moveToZeroPoseLogged_erase (self : ArmControlInterface) (side : RobotSide) (time : ℚ)
    (proc : LoggedProcess) :
    Except.map LoggedProcess.erase (self.moveToZeroPoseLogged side time proc) =
      self.moveToZeroPose side time proc.erase := by
  dsimp only [ArmControlInterface.moveToZeroPoseLogged, ArmControlInterface.moveToZeroPose]
  have key := appendTrajectoryPointLogged_erase self proc.counter.postIncrement.2
    { joint_trajectory_messages := List.replicate self.NUM_ARM_JOINTS {}, robot_side := side,
      unique_id := proc.counter.postIncrement.1 } (toFloat time) ZERO_POSE
  simp only [LoggedProcess.erase, Minted.postIncrement] at key ⊢
  rw [← key]
  cases self.appendTrajectoryPointLogged
      { id_ := proc.counter.id_ + 1, ids := proc.counter.ids ++ [proc.counter.id_] }
      { joint_trajectory_messages := List.replicate self.NUM_ARM_JOINTS {}, robot_side := side,
        unique_id := proc.counter.id_ } (toFloat time) ZERO_POSE with
  | error f => rfl
  | ok r => rfl

theorem moveArmJointsLoopLogged_extends (self : ArmControlInterface) :
    ∀ (arm_data : List ArmJointData) (st : PairedArmStateLogged)
      (r : Bool × PairedArmStateLogged),
      moveArmJointsLoopLogged self arm_data st = Except.ok r →
      st.counter.Extends r.2.counter := by
  intro arm_data
  induction arm_data with
  | nil =>
    intro st r h
    simp only [moveArmJointsLoopLogged, Except.ok.injEq] at h
    subst h
    exact Minted.extends_refl _
  | cons d rest ih =>
    intro st r h
    unfold moveArmJointsLoopLogged at h
    split_ifs at h
    · cases h
      exact Minted.extends_refl _
    · split at h
      · cases h
      · rename_i a ha
        exact Minted.extends_trans _ _ _ (appendTrajectoryPointLogged_extends _ _ _ _ _ _ ha)
          (ih _ _ h)
    · split at h
      · cases h
      · rename_i a ha
        exact Minted.extends_trans _ _ _ (appendTrajectoryPointLogged_extends _ _ _ _ _ _ ha)
          (ih _ _ h)

/-- The loop state of the paired overload with the record of the counter dropped. -/
theorem moveArmJointsLoopLogged_erase (self : ArmControlInterface) :
    ∀ (arm_data : List ArmJointData) (st : PairedArmStateLogged),
      Except.map
          (fun r : Bool × PairedArmStateLogged =>
            (r.1, ({ id_ := r.2.counter.id_, arm_traj_r := r.2.arm_traj_r,
                     arm_traj_l := r.2.arm_traj_l, right := r.2.right, left := r.2.left } :
              PairedArmState)))
          (moveArmJointsLoopLogged self arm_data st) =
        moveArmJointsLoop self arm_data
          { id_ := st.counter.id_, arm_traj_r := st.arm_traj_r, arm_traj_l := st.arm_traj_l,
            right := st.right, left := st.left } := by
  intro arm_data
  induction arm_data with
  | nil =>
    intro st
    rfl
  | cons d rest ih =>
    intro st
    unfold moveArmJointsLoopLogged moveArmJointsLoop
    split_ifs
    · rfl
    · simp only
      rw [← appendTrajectoryPointLogged_erase]
      cases self.appendTrajectoryPointLogged st.counter
          { st.arm_traj_r with robot_side := d.side } d.time d.arm_pose with
      | error f => rfl
      | ok a => exact ih _
    · simp only
      rw [← appendTrajectoryPointLogged_erase]
      cases self.appendTrajectoryPointLogged st.counter
          { st.arm_traj_l with robot_side := d.side } d.time d.arm_pose with
      | error f => rfl
      | ok a => exact ih _

theorem moveArmJointsPairedLogged_extends (self : ArmControlInterface)
    (arm_data : List ArmJointData) (proc : LoggedProcess) (r : Bool × LoggedProcess)
    (h : self.moveArmJointsPairedLogged arm_data proc = Except.ok r) :
    proc.counter.Extends r.2.counter := by
  dsimp only [ArmControlInterface.moveArmJointsPairedLogged] at h
  split at h
  · cases h
  · rename_i a ha
    have := Minted.extends_trans _ _ _ (Minted.extends_postIncrement_twice proc.counter)
      (moveArmJointsLoopLogged_extends self _ _ _ ha)
    split_ifs at h <;>
      · cases h
        exact this

theorem moveArmJointsPairedLogged_erase (self : ArmControlInterface)
    (arm_data : List ArmJointData) (proc : LoggedProcess) :
    Except.map (fun r : Bool × LoggedProcess => (r.1, r.2.erase))
        (self.moveArmJointsPairedLogged arm_data proc) =
      self.moveArmJointsPaired arm_data proc.erase := by
  dsimp only [ArmControlInterface.moveArmJointsPairedLogged,
    ArmControlInterface.moveArmJointsPaired]
  have key := moveArmJointsLoopLogged_erase self arm_data
    { counter := proc.counter.postIncrement.2.postIncrement.2,
      arm_traj_r :=
        { joint_trajectory_messages := List.replicate self.NUM_ARM_JOINTS {},
          unique_id := proc.counter.postIncrement.1 },
      arm_traj_l :=
        { joint_trajectory_messages := List.replicate self.NUM_ARM_JOINTS {},
          unique_id := proc.counter.postIncrement.2.postIncrement.1 },
      right := false, left := false }
  simp only [Minted.postIncrement, LoggedProcess.erase] at key ⊢
  rw [show proc.counter.id_ + 2 = proc.counter.id_ + 1 + 1 by ring, ← key]
  cases moveArmJointsLoopLogged self arm_data
      { counter := { id_ := proc.counter.id_ + 1 + 1,
                     ids := proc.counter.ids ++ [proc.counter.id_] ++ [proc.counter.id_ + 1] },
        arm_traj_r :=
          { joint_trajectory_messages := List.replicate self.NUM_ARM_JOINTS {},
            unique_id := proc.counter.id_ },
        arm_traj_l :=
          { joint_trajectory_messages := List.replicate self.NUM_ARM_JOINTS {},
            unique_id := proc.counter.id_ + 1 },
        right := false, left := false } with
  | error f => rfl
  | ok a =>
    simp only [Except.map]
    split_ifs <;> rfl

theorem moveArmTrajectoryLogged_extends (self : ArmControlInterface) (side : RobotSide)
    (traj : JointTrajectory) (proc proc' : LoggedProcess)
    (h : self.moveArmTrajectoryLogged side traj proc = Except.ok proc') :
    proc.counter.Extends proc'.counter := by
  dsimp only [ArmControlInterface.moveArmTrajectoryLogged] at h
  split at h
  · cases h
  · rename_i r hr
    cases h
    refine Minted.extends_trans _ _ _ (Minted.extends_postIncrement _) ?_
    exact foldlM_invariant _ (fun a b : Minted × ArmTrajectoryRosMessage => a.1.Extends b.1)
      (fun _ => Minted.extends_refl _) (fun _ _ _ hab hbc => Minted.extends_trans _ _ _ hab hbc)
      (fun s a s' hs => appendTrajectoryPointExternalLogged_extends _ _ _ _ _ hs) _ _ _ hr

theorem moveArmTrajectoryLogged_erase (self : ArmControlInterface) (side : RobotSide)
    (traj : JointTrajectory) (proc : LoggedProcess) :
    Except.map LoggedProcess.erase (self.moveArmTrajectoryLogged side traj proc) =
      self.moveArmTrajectory side traj proc.erase := by
  dsimp only [ArmControlInterface.moveArmTrajectoryLogged, ArmControlInterface.moveArmTrajectory]
  have key := foldlM_erase
    (fun (st : Int × ArmTrajectoryRosMessage) point =>
      self.appendTrajectoryPointExternal st.1 st.2 point)
    (fun (st : Minted × ArmTrajectoryRosMessage) point =>
      self.appendTrajectoryPointExternalLogged st.1 st.2 point)
    (fun r : Minted × ArmTrajectoryRosMessage => (r.1.id_, r.2))
    (fun t a => appendTrajectoryPointExternalLogged_erase self t.1 t.2 a) traj.points
    (proc.counter.postIncrement.2,
      { joint_trajectory_messages := List.replicate traj.points.length {}, robot_side := side,
        unique_id := proc.counter.postIncrement.1 })
  simp only [Minted.postIncrement, LoggedProcess.erase] at key ⊢
  rw [← key]
  cases traj.points.foldlM
      (fun (st : Minted × ArmTrajectoryRosMessage) point =>
        self.appendTrajectoryPointExternalLogged st.1 st.2 point)
      (({ id_ := proc.counter.id_ + 1, ids := proc.counter.ids ++ [proc.counter.id_] } : Minted),
        ({ joint_trajectory_messages := List.replicate traj.points.length {},
           robot_side := side, unique_id := proc.counter.id_ } : ArmTrajectoryRosMessage)) with
  | error f => rfl
  | ok r => rfl

theorem moveArmInTaskSpaceStepLogged_extends (self : ArmControlInterface)
    (st : PairedHandStateLogged) (i : ArmTaskSpaceData) :
    st.counter.Extends (moveArmInTaskSpaceStepLogged self st i).counter := by
  unfold moveArmInTaskSpaceStepLogged
  split_ifs
  · exact Minted.extends_postIncrement _
  · exact Minted.extends_postIncrement _

theorem moveArmInTaskSpaceLoopLogged_extends (self : ArmControlInterface)
    (arm_data : List ArmTaskSpaceData) (st : PairedHandStateLogged) :
    st.counter.Extends (arm_data.foldl (moveArmInTaskSpaceStepLogged self) st).counter := by
  induction arm_data generalizing st with
  | nil => exact Minted.extends_refl _
  | cons d rest ih =>
    rw [List.foldl_cons]
    exact Minted.extends_trans _ _ _ (moveArmInTaskSpaceStepLogged_extends self st d) (ih _)

theorem moveArmInTaskSpaceLoopLogged_erase (self : ArmControlInterface)
    (arm_data : List ArmTaskSpaceData) (st : PairedHandStateLogged) :
    (({ id_ := (arm_data.foldl (moveArmInTaskSpaceStepLogged self) st).counter.id_,
        msg_l := (arm_data.foldl (moveArmInTaskSpaceStepLogged self) st).msg_l,
        msg_r := (arm_data.foldl (moveArmInTaskSpaceStepLogged self) st).msg_r } :
      PairedHandState)) =
      arm_data.foldl (moveArmInTaskSpaceStep self)
        { id_ := st.counter.id_, msg_l := st.msg_l, msg_r := st.msg_r } := by
  induction arm_data generalizing st with
  | nil => rfl
  | cons d rest ih =>
    rw [List.foldl_cons, List.foldl_cons, ih]
    congr 1
    unfold moveArmInTaskSpaceStepLogged moveArmInTaskSpaceStep
    split_ifs <;> rfl

theorem moveArmInTaskSpaceLogged_erase (self : ArmControlInterface)
    (arm_data : List ArmTaskSpaceData) (baseForControl : Int) (proc : LoggedProcess) :
    (self.moveArmInTaskSpaceLogged arm_data baseForControl proc).erase =
      self.moveArmInTaskSpace arm_data baseForControl proc.erase := by
  have key := moveArmInTaskSpaceLoopLogged_erase self arm_data
    { counter := proc.counter.postIncrement.2.postIncrement.2,
      msg_l := { unique_id := proc.counter.postIncrement.1,
                 execution_mode := ExecutionMode.OVERRIDE },
      msg_r := { unique_id := proc.counter.postIncrement.2.postIncrement.1,
                 execution_mode := ExecutionMode.OVERRIDE } }
  simp only [ArmControlInterface.moveArmInTaskSpaceLogged,
    ArmControlInterface.moveArmInTaskSpace, LoggedProcess.erase, Minted.postIncrement] at key ⊢
  rw [show proc.counter.id_ + 2 = proc.counter.id_ + 1 + 1 by ring, ← key]

theorem appendArmSliceLogged_extends (arm : ArmControlInterface) (start : Option Nat)
    (groupSize : Nat) (point : JointTrajectoryPoint) (time : ℚ) (c : Minted)
    (armMsg : ArmTrajectoryRosMessage) (r : Minted × ArmTrajectoryRosMessage)
    (h : appendArmSliceLogged arm start groupSize point time c armMsg = Except.ok r) :
    c.Extends r.1 := by
  dsimp only [appendArmSliceLogged] at h
  split at h
  · cases h
    exact Minted.extends_refl _
  · split_ifs at h
    exact appendTrajectoryPointLogged_extends _ _ _ _ _ _ h

theorem appendArmSliceLogged_erase (arm : ArmControlInterface) (start : Option Nat)
    (groupSize : Nat) (point : JointTrajectoryPoint) (time : ℚ) (c : Minted)
    (armMsg : ArmTrajectoryRosMessage) :
    Except.map (fun r : Minted × ArmTrajectoryRosMessage => (r.1.id_, r.2))
        (appendArmSliceLogged arm start groupSize point time c armMsg) =
      appendArmSlice arm start groupSize point time c.id_ armMsg := by
  dsimp only [appendArmSliceLogged, appendArmSlice]
  cases start with
  | none => rfl
  | some s =>
    simp only
    split_ifs
    · exact appendTrajectoryPointLogged_erase _ _ _ _ _
    · rfl

theorem parsePointLogged_extends (self : WholebodyControlInterface) (cs ls rs : Option Nat)
    (st st' : Minted × WholeBodyTrajectoryRosMessage) (point : JointTrajectoryPoint)
    (h : self.parsePointLogged cs ls rs st point = Except.ok st') : st.1.Extends st'.1 := by
  dsimp only [WholebodyControlInterface.parsePointLogged] at h
  split at h
  · cases h
  · rename_i l hl
    split at h
    · cases h
    · rename_i r hr
      cases h
      exact Minted.extends_trans _ _ _ (appendArmSliceLogged_extends _ _ _ _ _ _ _ _ hl)
        (appendArmSliceLogged_extends _ _ _ _ _ _ _ _ hr)

theorem parsePointLogged_erase (self : WholebodyControlInterface) (cs ls rs : Option Nat)
    (st : Minted × WholeBodyTrajectoryRosMessage) (point : JointTrajectoryPoint) :
    Except.map (fun r : Minted × WholeBodyTrajectoryRosMessage => (r.1.id_, r.2))
        (self.parsePointLogged cs ls rs st point) =
      self.parsePoint cs ls rs (st.1.id_, st.2) point := by
  dsimp only [WholebodyControlInterface.parsePointLogged, WholebodyControlInterface.parsePoint]
  rw [← appendArmSliceLogged_erase]
  cases appendArmSliceLogged self.armController_ ls self.left_arm_joint_names_.length point
      point.time_from_start st.1 st.2.left_arm_trajectory_message with
  | error f => rfl
  | ok l =>
    simp only [Except.map]
    rw [← appendArmSliceLogged_erase]
    cases appendArmSliceLogged self.armController_ rs self.right_arm_joint_names_.length point
        point.time_from_start l.1 st.2.right_arm_trajectory_message with
    | error f => rfl
    | ok r => rfl

theorem parsePointsLogged_extends (self : WholebodyControlInterface) (cs ls rs : Option Nat)
    (pts : List JointTrajectoryPoint) (st st' : Minted × WholeBodyTrajectoryRosMessage)
    (h : pts.foldlM (self.parsePointLogged cs ls rs) st = Except.ok st') :
    st.1.Extends st'.1 :=
  foldlM_invariant _ (fun a b : Minted × WholeBodyTrajectoryRosMessage => a.1.Extends b.1)
    (fun _ => Minted.extends_refl _) (fun _ _ _ hab hbc => Minted.extends_trans _ _ _ hab hbc)
    (fun s a s' hs => parsePointLogged_extends self cs ls rs s s' a hs) _ _ _ h

theorem parseTrajectoryLogged_extends (self : WholebodyControlInterface)
    (traj : JointTrajectory) (c : Minted) (msg : WholeBodyTrajectoryRosMessage)
    (r : Minted × WholeBodyTrajectoryRosMessage)
    (h : self.parseTrajectoryLogged traj c msg = Except.ok r) : c.Extends r.1 := by
  dsimp only [WholebodyControlInterface.parseTrajectoryLogged] at h
  have hc1 : c.Extends (self.chestController_.setupFrameAndModeLogged c
      msg.chest_trajectory_message self.chestController_.defaultMode).1 :=
    Minted.extends_postIncrement c
  cases hc : locateGroup traj.joint_names self.chest_joint_names_ with
  | error f => simp [hc] at h
  | ok gc =>
    cases hl : locateGroup traj.joint_names self.left_arm_joint_names_ with
    | error f =>
      cases gc <;> simp [hc, hl] at h <;>
        (subst h; first | exact Minted.extends_refl _ | exact hc1)
    | ok gl =>
      cases hr : locateGroup traj.joint_names self.right_arm_joint_names_ with
      | error f =>
        cases gc <;> cases gl <;>
          simp [hc, hl, hr, ArmControlInterface.setupArmMessageLogged] at h <;>
          (subst h; first | exact Minted.extends_refl _ | exact hc1)
      | ok gr =>
        cases gc <;> cases gl <;> cases gr <;>
          simp only [hc, hl, hr, ArmControlInterface.setupArmMessageLogged] at h <;>
          first
          | (cases h <;> first | exact Minted.extends_refl _ | exact hc1)
          | exact parsePointsLogged_extends self _ _ _ _ _ _ h
          | exact Minted.extends_trans _ _ _ hc1 (parsePointsLogged_extends self _ _ _ _ _ _ h)

theorem parseTrajectoryLogged_erase (self : WholebodyControlInterface)
    (traj : JointTrajectory) (c : Minted) (msg : WholeBodyTrajectoryRosMessage) :
    Except.map (fun r : Minted × WholeBodyTrajectoryRosMessage => (r.1.id_, r.2))
        (self.parseTrajectoryLogged traj c msg) =
      self.parseTrajectory traj c.id_ msg := by
  dsimp only [WholebodyControlInterface.parseTrajectoryLogged,
    WholebodyControlInterface.parseTrajectory]
  have hloop : ∀ cs ls rs (st : Minted × WholeBodyTrajectoryRosMessage),
      Except.map (fun r : Minted × WholeBodyTrajectoryRosMessage => (r.1.id_, r.2))
          (traj.points.foldlM (self.parsePointLogged cs ls rs) st) =
        traj.points.foldlM (self.parsePoint cs ls rs) (st.1.id_, st.2) :=
    fun cs ls rs st => foldlM_erase _ _
      (fun r : Minted × WholeBodyTrajectoryRosMessage => (r.1.id_, r.2))
      (fun t a => parsePointLogged_erase self cs ls rs t a) _ _
  cases hc : locateGroup traj.joint_names self.chest_joint_names_ with
  | error f => rfl
  | ok gc =>
    cases hl : locateGroup traj.joint_names self.left_arm_joint_names_ with
    | error f => cases gc <;> rfl
    | ok gl =>
      cases hr : locateGroup traj.joint_names self.right_arm_joint_names_ with
      | error f => cases gc <;> cases gl <;> rfl
      | ok gr =>
        cases gc <;> cases gl <;> cases gr <;>
          first
          | rfl
          | exact hloop _ _ _ _

theorem executeTrajectoryLogged_extends (self : WholebodyControlInterface) (now : Int)
    (traj : JointTrajectory) (proc proc' : LoggedProcess)
    (h : self.executeTrajectoryLogged now traj proc = Except.ok proc') :
    proc.counter.Extends proc'.counter := by
  dsimp only [WholebodyControlInterface.executeTrajectoryLogged] at h
  split at h
  · cases h
  · rename_i r hr
    cases h
    exact parseTrajectoryLogged_extends self _ _ _ _ hr

theorem executeTrajectoryLogged_erase (self : WholebodyControlInterface) (now : Int)
    (traj : JointTrajectory) (proc : LoggedProcess) :
    Except.map LoggedProcess.erase (self.executeTrajectoryLogged now traj proc) =
      self.executeTrajectory now traj proc.erase := by
  dsimp only [WholebodyControlInterface.executeTrajectoryLogged,
    WholebodyControlInterface.executeTrajectory]
  simp only [LoggedProcess.erase]
  rw [← parseTrajectoryLogged_erase]
  cases self.parseTrajectoryLogged traj proc.counter (initializeWholebodyMessage now {}) with
  | error f => rfl
  | ok r => rfl

/-- No operation lowers the recording counter, and the ids it yields are recorded in order. -/
theorem execCommandLogged_extends (self : WholebodyControlInterface) (cmd : Command)
    (proc proc' : LoggedProcess) (h : self.execCommandLogged cmd proc = Except.ok proc') :
    proc.counter.Extends proc'.counter := by
  cases cmd with
  | armConstruct l r n =>
    simp only [WholebodyControlInterface.execCommandLogged] at h
    split at h
    · cases h
    · rename_i a ha
      cases h
      exact constructLogged_extends _ _ _ _ _ ha
  | setupArmMessage side msg =>
    simp [WholebodyControlInterface.execCommandLogged,
      ArmControlInterface.setupArmMessageLogged] at h
  | appendTrajectoryPoint msg time pos =>
    simp only [WholebodyControlInterface.execCommandLogged] at h
    split at h
    · cases h
    · rename_i a ha
      cases h
      exact appendTrajectoryPointLogged_extends _ _ _ _ _ _ ha
  | appendTrajectoryPointExternal msg point =>
    simp only [WholebodyControlInterface.execCommandLogged] at h
    split at h
    · cases h
    · rename_i a ha
      cases h
      exact appendTrajectoryPointExternalLogged_extends _ _ _ _ _ ha
  | generateArmMessage side arm_pose time msg =>
    simp [WholebodyControlInterface.execCommandLogged,
      ArmControlInterface.generateArmMessageLogged,
      ArmControlInterface.setupArmMessageLogged] at h
  | generateArmMessageFromTrajectories side arm_trajectory msg =>
    simp only [WholebodyControlInterface.execCommandLogged, Except.ok.injEq] at h
    subst h
    exact Minted.extends_postIncrement _
  | moveToDefaultPose side time =>
    simp only [WholebodyControlInterface.execCommandLogged, Except.ok.injEq] at h
    subst h
    exact Minted.extends_postIncrement _
  | moveToZeroPose side time =>
    exact moveToZeroPoseLogged_extends _ _ _ _ _ h
  | moveArmJoints side arm_pose time =>
    simp [WholebodyControlInterface.execCommandLogged, ArmControlInterface.moveArmJointsLogged,
      ArmControlInterface.generateArmMessageLogged,
      ArmControlInterface.setupArmMessageLogged] at h
  | moveArmJointsPaired arm_data =>
    simp only [WholebodyControlInterface.execCommandLogged] at h
    split at h
    · cases h
    · rename_i a ha
      cases h
      exact moveArmJointsPairedLogged_extends _ _ _ _ ha
  | moveArmTrajectory side traj =>
    exact moveArmTrajectoryLogged_extends _ _ _ _ _ h
  | poseToSE3TrajectoryPoint pose point =>
    simp only [WholebodyControlInterface.execCommandLogged, Except.ok.injEq] at h
    subst h
    exact Minted.extends_postIncrement _
  | moveArmInTaskSpace arm_data baseForControl =>
    simp only [WholebodyControlInterface.execCommandLogged, Except.ok.injEq] at h
    subst h
    exact Minted.extends_trans _ _ _ (Minted.extends_postIncrement_twice proc.counter)
      (moveArmInTaskSpaceLoopLogged_extends self.armController_ arm_data _)
  | setupFrameAndMode msg mode =>
    simp only [WholebodyControlInterface.execCommandLogged, Except.ok.injEq] at h
    subst h
    exact Minted.extends_postIncrement _
  | controlChest quat time execution_mode =>
    simp only [WholebodyControlInterface.execCommandLogged, Except.ok.injEq] at h
    subst h
    exact Minted.extends_postIncrement _
  | resetPose time =>
    simp only [WholebodyControlInterface.execCommandLogged, Except.ok.injEq] at h
    subst h
    exact Minted.extends_postIncrement _
  | executeTrajectory now traj =>
    exact executeTrajectoryLogged_extends _ _ _ _ _ h

/-- Every operation over the recording counter is the plain operation with the record added. -/
theorem execCommandLogged_erase (self : WholebodyControlInterface) (cmd : Command)
    (proc : LoggedProcess) :
    Except.map LoggedProcess.erase (self.execCommandLogged cmd proc) =
      self.execCommand cmd proc.erase := by
  cases cmd with
  | armConstruct l r n =>
    simp only [WholebodyControlInterface.execCommandLogged,
      WholebodyControlInterface.execCommand, LoggedProcess.erase]
    rw [← constructLogged_erase]
    cases ArmControlInterface.constructLogged proc.counter l r n with
    | error f => rfl
    | ok a => rfl
  | setupArmMessage side msg => rfl
  | appendTrajectoryPoint msg time pos =>
    simp only [WholebodyControlInterface.execCommandLogged,
      WholebodyControlInterface.execCommand, LoggedProcess.erase]
    rw [← appendTrajectoryPointLogged_erase]
    cases self.armController_.appendTrajectoryPointLogged proc.counter msg time pos with
    | error f => rfl
    | ok a => rfl
  | appendTrajectoryPointExternal msg point =>
    simp only [WholebodyControlInterface.execCommandLogged,
      WholebodyControlInterface.execCommand, LoggedProcess.erase]
    rw [← appendTrajectoryPointExternalLogged_erase]
    cases self.armController_.appendTrajectoryPointExternalLogged proc.counter msg point with
    | error f => rfl
    | ok a => rfl
  | generateArmMessage side arm_pose time msg => rfl
  | generateArmMessageFromTrajectories side arm_trajectory msg => rfl
  | moveToDefaultPose side time => rfl
  | moveToZeroPose side time => exact moveToZeroPoseLogged_erase _ _ _ _
  | moveArmJoints side arm_pose time => rfl
  | moveArmJointsPaired arm_data =>
    simp only [WholebodyControlInterface.execCommandLogged,
      WholebodyControlInterface.execCommand]
    rw [← moveArmJointsPairedLogged_erase]
    cases self.armController_.moveArmJointsPairedLogged arm_data proc with
    | error f => rfl
    | ok a => rfl
  | moveArmTrajectory side traj => exact moveArmTrajectoryLogged_erase _ _ _ _
  | poseToSE3TrajectoryPoint pose point => rfl
  | moveArmInTaskSpace arm_data baseForControl =>
    simp only [WholebodyControlInterface.execCommandLogged,
      WholebodyControlInterface.execCommand, Except.map]
    rw [moveArmInTaskSpaceLogged_erase]
  | setupFrameAndMode msg mode => rfl
  | controlChest quat time execution_mode => rfl
  | resetPose time => rfl
  | executeTrajectory now traj => exact executeTrajectoryLogged_erase _ _ _ _

/-- The ids a counter has recorded since it stood at `c`, when there were none before. -/
theorem Minted.extends_ids (c c' : Minted) (h : c.Extends c') (hnil : c.ids = []) :
    c.id_ ≤ c'.id_ ∧
    c'.ids = (List.range (c'.id_ - c.id_).toNat).map (fun (k : Nat) => c.id_ + (k : Int)) ∧
    (∀ id ∈ c'.ids, c.id_ ≤ id ∧ id < c'.id_) ∧
    c'.ids.Pairwise (· < ·) := by
  obtain ⟨n, e, l⟩ := h
  rw [hnil, List.nil_append] at l
  have hn : (c'.id_ - c.id_).toNat = n := by
    rw [e]
    simp
  refine ⟨by omega, by rw [hn, l], ?_, ?_⟩
  · intro id hid
    rw [l] at hid
    simp only [List.mem_map, List.mem_range] at hid
    obtain ⟨k, hk, rfl⟩ := hid
    omega
  · rw [l, List.pairwise_map]
    refine (List.pairwise_lt_range n).imp ?_
    intro a b hab
    omega

/-- A run that returns also returns over the recording counter, with the same counter and
effects. -/
theorem runCommandsLogged_of_plain (self : WholebodyControlInterface) (cmds : List Command)
    (logged : LoggedProcess) (proc' : Process)
    (h : self.runCommands cmds logged.erase = Except.ok proc') :
    ∃ logged', self.runCommandsLogged cmds logged = Except.ok logged' ∧
      logged'.erase = proc' ∧ logged.counter.Extends logged'.counter := by
  have e := foldlM_erase (fun p c => self.execCommand c p)
    (fun p c => self.execCommandLogged c p) LoggedProcess.erase
    (fun t a => execCommandLogged_erase self a t) cmds logged
  have e' : Except.map LoggedProcess.erase (self.runCommandsLogged cmds logged) =
      Except.ok proc' := e.trans h
  obtain ⟨logged', h1, h2⟩ := except_map_ok _ _ _ e'
  refine ⟨logged', h1, h2, ?_⟩
  exact foldlM_invariant (fun p c => self.execCommandLogged c p)
    (fun a b : LoggedProcess => a.counter.Extends b.counter)
    (fun _ => Minted.extends_refl _) (fun _ _ _ hab hbc => Minted.extends_trans _ _ _ hab hbc)
    (fun s a s' hs => execCommandLogged_extends self a s s' hs) cmds logged logged' h1

/-- A run that returns has not lowered the counter. -/
theorem runCommands_counter (self : WholebodyControlInterface) (cmds : List Command)
    (proc proc' : Process) (h : self.runCommands cmds proc = Except.ok proc') :
    proc.id_ ≤ proc'.id_ := by
  obtain ⟨logged', _, h2, n, hn, _⟩ := runCommandsLogged_of_plain self cmds
    { counter := { id_ := proc.id_, ids := [] }, effects := proc.effects } proc' h
  rw [← h2]
  simp only [LoggedProcess.erase] at hn ⊢
  rw [hn]
  omega

/-! ## Claims about the identity counter -/

/-- C11: a sequential run of arm, chest and whole-body operations that starts with the shared
counter at a value `≥ 1` and returns. The same run over the recording counter, started with
nothing recorded, returns with the same counter and the same effects, and the ids it has recorded,
which are the values the post-increments of the run have yielded, in minting order, are the
consecutive integers from the starting value of the counter up to its final value, that one
excluded. So every id is nonzero, the ids are strictly increasing and pairwise distinct, and the
counter is not lower at the end than at the start; and wherever the run is cut in two, the first
part returns with a counter that is not lower than the starting value and not higher than the
final value. -/
theorem shared_counter_ids_increasing (self : WholebodyControlInterface) (cmds : List Command)
    (proc proc' : Process) (hstart : 1 ≤ proc.id_)
    (hrun : self.runCommands cmds proc = Except.ok proc') :
    ∃ ids : List Int,
      self.runCommandsLogged cmds
          { counter := { id_ := proc.id_, ids := [] }, effects := proc.effects } =
        Except.ok { counter := { id_ := proc'.id_, ids := ids }, effects := proc'.effects } ∧
      ids = (List.range (proc'.id_ - proc.id_).toNat).map (fun (k : Nat) => proc.id_ + (k : Int)) ∧
      (∀ id ∈ ids, id ≠ 0) ∧ ids.Pairwise (· < ·) ∧ ids.Nodup ∧
      proc.id_ ≤ proc'.id_ ∧
      ∀ (pre post : List Command), cmds = pre ++ post →
        ∃ mid : Process, self.runCommands pre proc = Except.ok mid ∧
          self.runCommands post mid = Except.ok proc' ∧
          proc.id_ ≤ mid.id_ ∧ mid.id_ ≤ proc'.id_ := by
  obtain ⟨logged', h1, h2, h3⟩ := runCommandsLogged_of_plain self cmds
    { counter := { id_ := proc.id_, ids := [] }, effects := proc.effects } proc' hrun
  obtain ⟨a1, a2, a3, a4⟩ := Minted.extends_ids _ _ h3 rfl
  have hid : logged'.counter.id_ = proc'.id_ := by
    rw [← h2]
    rfl
  have heff : logged'.effects = proc'.effects := by
    rw [← h2]
    rfl
  simp only at a1 a2 a3
  rw [hid] at a1 a2 a3
  refine ⟨logged'.counter.ids, ?_, a2, ?_, a4, a4.imp (fun h => ne_of_lt h), a1, ?_⟩
  · rw [h1, ← hid, ← heff]
  · intro id hmem
    have := (a3 id hmem).1
    omega
  · intro pre post hsplit
    subst hsplit
    have hrun' := hrun
    simp only [WholebodyControlInterface.runCommands, List.foldlM_append, bind,
      Except.bind] at hrun'
    cases hpre : List.foldlM (fun p c => self.execCommand c p) proc pre with
    | error f =>
      rw [hpre] at hrun'
      cases hrun'
    | ok mid =>
      rw [hpre] at hrun'
      exact ⟨mid, hpre, hrun', runCommands_counter self pre proc mid hpre,
        runCommands_counter self post mid proc' hrun'⟩

/-- Witness for C11: on the example robot, from the counter at `1`, construct an arm interface,
send the left arm home, move the right arm through one waypoint with the paired overload, send a
task-space pair with one left entry, turn the chest and execute a chest trajectory; the counter
ends at `12` and the ids recorded are `1` to `11`. -/
theorem shared_counter_ids_increasing_witness :
    ∃ (proc' : Process) (ids : List Int),
      exampleRobot.runCommands
        [Command.armConstruct [(-1, 1)] [(-1, 1)] [], Command.moveToDefaultPose RobotSide.LEFT 1,
         Command.moveArmJointsPaired [{ side := RobotSide.RIGHT, arm_pose := [0, 0], time := 1 }],
         Command.moveArmInTaskSpace [{ side := RobotSide.LEFT, pose := {}, time := 2 }] 0,
         Command.controlChest { w := 1 } 1 ExecutionMode.OVERRIDE,
         Command.executeTrajectory 7 exampleChestTrajectory]
        { id_ := 1, effects := [] } = Except.ok proc' ∧
      exampleRobot.runCommandsLogged
        [Command.armConstruct [(-1, 1)] [(-1, 1)] [], Command.moveToDefaultPose RobotSide.LEFT 1,
         Command.moveArmJointsPaired [{ side := RobotSide.RIGHT, arm_pose := [0, 0], time := 1 }],
         Command.moveArmInTaskSpace [{ side := RobotSide.LEFT, pose := {}, time := 2 }] 0,
         Command.controlChest { w := 1 } 1 ExecutionMode.OVERRIDE,
         Command.executeTrajectory 7 exampleChestTrajectory]
        { counter := { id_ := 1, ids := [] }, effects := [] } =
        Except.ok { counter := { id_ := proc'.id_, ids := ids }, effects := proc'.effects } ∧
      proc'.id_ = 12 ∧ ids = [1, 2, 3, 4, 5, 6, 7, 8, 9, 10, 11] ∧
      (∀ id ∈ ids, id ≠ 0) ∧ ids.Pairwise (· < ·) ∧ ids.Nodup := by
  obtain ⟨proc', hp, hid⟩ := except_map_ok (fun p : Process => p.id_)
    (exampleRobot.runCommands
      [Command.armConstruct [(-1, 1)] [(-1, 1)] [], Command.moveToDefaultPose RobotSide.LEFT 1,
       Command.moveArmJointsPaired [{ side := RobotSide.RIGHT, arm_pose := [0, 0], time := 1 }],
       Command.moveArmInTaskSpace [{ side := RobotSide.LEFT, pose := {}, time := 2 }] 0,
       Command.controlChest { w := 1 } 1 ExecutionMode.OVERRIDE,
       Command.executeTrajectory 7 exampleChestTrajectory]
      { id_ := 1, effects := [] }) 12 (by decide!)
  obtain ⟨ids, h1, h2, h3, h4, h5, _, _⟩ := shared_counter_ids_increasing exampleRobot _
    { id_ := 1, effects := [] } proc' (le_refl _) hp
  refine ⟨proc', ids, hp, h1, hid, ?_, h3, h4, h5⟩
  rw [h2]
  simp only at hid ⊢
  rw [hid]
  decide

/-- C12 as stated fails: the top-level id of a whole-body message is the clock value passed to
`initializeWholebodyMessage`, not a minted id. On the example robot with the counter at `2`, two
executions at clock value `2` publish two messages that both have top-level id `2`, the id also
minted for the chest sub-message of the first; and an execution at clock value `0` publishes a
message with top-level id `0`. -/
theorem executeTrajectory_top_level_id_not_minted :
    Except.map
        (fun proc => (wholebodyPublished proc.effects).map
          (fun m => (m.unique_id, m.chest_trajectory_message.unique_id)))
        (exampleRobot.runCommands
          [Command.executeTrajectory 2 exampleChestTrajectory,
           Command.executeTrajectory 2 exampleChestTrajectory]
          { id_ := 2, effects := [] }) =
      Except.ok [(2, 2), (2, 3)] ∧
    Except.map
        (fun proc => (wholebodyPublished proc.effects).map (fun m => m.unique_id))
        (exampleRobot.executeTrajectory 0 exampleChestTrajectory { id_ := 2, effects := [] }) =
      Except.ok [0] :=
  ⟨rfl, rfl⟩

/-- C12 amended: the top-level id of the whole-body message built by
`initializeWholebodyMessage` and published by `executeTrajectory` is the clock value `now` (the
seconds of `ros::Time::now()`), whatever the shared counter holds. -/
theorem executeTrajectory_top_level_id_is_clock (self : WholebodyControlInterface) (now : Int)
    (traj : JointTrajectory) (proc : Process) :
    (∀ msg, (initializeWholebodyMessage now msg).unique_id = now) ∧
    (∀ proc', self.executeTrajectory now traj proc = Except.ok proc' →
      ∃ m, wholebodyPublished proc'.effects = wholebodyPublished proc.effects ++ [m] ∧
        m.unique_id = now) := by
  refine ⟨fun _ => rfl, ?_⟩
  intro proc' h
  obtain ⟨r, hp, rfl⟩ := executeTrajectory_ok self now traj proc proc' h
  refine ⟨r.2, ?_, ?_⟩
  · simp [wholebodyPublished_append, wholebodyPublished]
  · rw [(parseTrajectory_counter self _ _ _ r hp).2]
    rfl

/-- Witness for C12 amended: the chest trajectory executed on the example robot at clock value
`7` with the counter at `2`. -/
theorem executeTrajectory_top_level_id_is_clock_witness :
    ∃ proc' m,
      exampleRobot.executeTrajectory 7 exampleChestTrajectory { id_ := 2, effects := [] } =
        Except.ok proc' ∧
      wholebodyPublished proc'.effects = wholebodyPublished [] ++ [m] ∧ m.unique_id = 7 := by
  obtain ⟨proc', hp, _⟩ := except_map_ok (fun p : Process => p.id_)
    (exampleRobot.executeTrajectory 7 exampleChestTrajectory { id_ := 2, effects := [] }) 3 rfl
  obtain ⟨m, h1, h2⟩ := (executeTrajectory_top_level_id_is_clock exampleRobot 7
    exampleChestTrajectory { id_ := 2, effects := [] }).2 proc' hp
  exact ⟨proc', m, hp, h1, h2⟩

/-- C13 (failing input, every input): the point that `appendChestTrajectoryPoint` appends has
`unique_id` `0`, the value of a freshly constructed point, because the function never assigns it;
`poseToSE3TrajectoryPoint` stamps its point with the value of the shared counter. -/
theorem appendChestTrajectoryPoint_point_id_zero (self : ChestControlInterface)
    (q_in : Quaternion) (msg : ChestTrajectoryRosMessage) (time : ℚ) (arm : ArmControlInterface)
    (id_ : Int) (pose : Pose) (point : SE3TrajectoryPointRosMessage) :
    (∃ p, (self.appendChestTrajectoryPoint q_in msg time).taskspace_trajectory_points =
        msg.taskspace_trajectory_points ++ [p] ∧ p.unique_id = 0) ∧
    (arm.poseToSE3TrajectoryPoint id_ pose point).2.unique_id = id_ :=
  ⟨⟨_, rfl, rfl⟩, rfl⟩

/-! ## Claims about the chest transform and the published arm messages -/

/-- C19 as stated fails: on a robot whose transform fails on every quaternion,
`appendChestTrajectoryPoint` still appends a point and `executeTrajectory` still publishes a
whole-body message, whose chest sub-message holds that point. -/
theorem executeTrajectory_publishes_despite_failed_transform :
    (∀ q, (exampleRobotFailingTransform.chestController_.transformQuaternion q).1 = false) ∧
    (exampleRobotFailingTransform.chestController_.appendChestTrajectoryPoint
      { w := 1 } {} 1).taskspace_trajectory_points.length = 1 ∧
    Except.map
        (fun proc => (wholebodyPublished proc.effects).map
          (fun m => m.chest_trajectory_message.taskspace_trajectory_points.length))
        (exampleRobotFailingTransform.executeTrajectory 7 exampleChestTrajectory
          { id_ := 2, effects := [] }) =
      Except.ok [1] :=
  ⟨fun _ => rfl, rfl, rfl⟩

/-- C19 amended: `appendChestTrajectoryPoint` does not read the success flag of the transform: it
always appends one point, with the given time and the quaternion the transform left in its output
argument; and for a trajectory naming exactly the chest joints, `executeTrajectory` returns and
publishes exactly one whole-body message with one chest point per trajectory point. -/
theorem appendChestTrajectoryPoint_ignores_transform_flag (self : WholebodyControlInterface)
    (now : Int) (traj : JointTrajectory) (proc : Process)
    (hnames : traj.joint_names = self.chest_joint_names_)
    (hne : self.chest_joint_names_ ≠ [])
    (hl : GroupAbsent traj.joint_names self.left_arm_joint_names_)
    (hr : GroupAbsent traj.joint_names self.right_arm_joint_names_) :
    (∀ q msg time, ∃ p,
      (self.chestController_.appendChestTrajectoryPoint q msg time).taskspace_trajectory_points =
        msg.taskspace_trajectory_points ++ [p] ∧
      p.time = time ∧ p.orientation = (self.chestController_.transformQuaternion q).2) ∧
    ∃ proc' m, self.executeTrajectory now traj proc = Except.ok proc' ∧
      wholebodyPublished proc'.effects = wholebodyPublished proc.effects ++ [m] ∧
      m.chest_trajectory_message.taskspace_trajectory_points.length = traj.points.length := by
  refine ⟨fun q msg time => ⟨_, rfl, rfl, rfl⟩, ?_⟩
  have hv : GroupValidatedAt traj.joint_names self.chest_joint_names_ 0 := by
    rw [hnames]
    cases hcn : self.chest_joint_names_ with
    | nil => exact absurd hcn hne
    | cons first rest =>
      exact ⟨first, by simp, findJoint_head first rest, fun i _ => by simp⟩
  have e := parseTrajectory_eq_loop self traj proc.id_ (initializeWholebodyMessage now {})
    (GroupStart.found 0) (locateGroup_found _ _ 0 hv) (by simp) (locateGroup_absent _ _ hl)
    (locateGroup_absent _ _ hr)
  simp only [GroupStart.start] at e
  rw [parsePoints_no_arms] at e
  obtain ⟨r, hp, hlen⟩ : ∃ r,
      self.parseTrajectory traj proc.id_ (initializeWholebodyMessage now {}) = Except.ok r ∧
      r.2.chest_trajectory_message.taskspace_trajectory_points.length = traj.points.length := by
    refine ⟨_, e, ?_⟩
    simp [chestAfter, afterChest, chestSetup, ChestControlInterface.setupFrameAndMode,
      initializeWholebodyMessage]
  refine ⟨{ id_ := r.1,
            effects := proc.effects ++ [Effect.publishWholeBody r.2, Effect.sleep (1 / 10)] },
    r.2, by simp only [WholebodyControlInterface.executeTrajectory, hp], ?_, hlen⟩
  simp [wholebodyPublished_append, wholebodyPublished]

/-- Witness for C19 amended: the chest trajectory on the robot whose transform always fails. -/
theorem appendChestTrajectoryPoint_ignores_transform_flag_witness :
    ∃ proc' m,
      exampleRobotFailingTransform.executeTrajectory 7 exampleChestTrajectory
        { id_ := 2, effects := [] } = Except.ok proc' ∧
      wholebodyPublished proc'.effects = wholebodyPublished [] ++ [m] ∧
      m.chest_trajectory_message.taskspace_trajectory_points.length = 1 :=
  (appendChestTrajectoryPoint_ignores_transform_flag exampleRobotFailingTransform 7
    exampleChestTrajectory { id_ := 2, effects := [] } rfl (by decide)
    ⟨"leftShoulderPitch", rfl, by decide⟩ ⟨"rightShoulderPitch", rfl, by decide⟩).2

/-- C20 (failing inputs): `moveArmTrajectory` sizes the per-joint lists by the number of
trajectory points. On the two-joint arm of the example robot a trajectory with three points is
published with three per-joint lists, an empty trajectory with none, and a trajectory with one
point indexes the second list out of range. -/
theorem moveArmTrajectory_list_count_is_point_count :
    exampleRobot.armController_.NUM_ARM_JOINTS = 2 ∧
    Except.map
        (fun proc => (armPublished proc.effects).map
          (fun m => m.joint_trajectory_messages.length))
        (exampleRobot.armController_.moveArmTrajectory RobotSide.LEFT
          { joint_names := ["leftShoulderPitch", "leftShoulderRoll"],
            points := [{ positions := [0, 0], velocities := [0, 0], time_from_start := 1 },
                       { positions := [0, 0], velocities := [0, 0], time_from_start := 2 },
                       { positions := [0, 0], velocities := [0, 0], time_from_start := 3 }] }
          { id_ := 2, effects := [] }) =
      Except.ok [3] ∧
    Except.map
        (fun proc => (armPublished proc.effects).map
          (fun m => m.joint_trajectory_messages.length))
        (exampleRobot.armController_.moveArmTrajectory RobotSide.LEFT
          { joint_names := ["leftShoulderPitch", "leftShoulderRoll"], points := [] }
          { id_ := 2, effects := [] }) =
      Except.ok [0] ∧
    Except.map
        (fun proc => (armPublished proc.effects).map
          (fun m => m.joint_trajectory_messages.length))
        (exampleRobot.armController_.moveArmTrajectory RobotSide.LEFT
          { joint_names := ["leftShoulderPitch", "leftShoulderRoll"],
            points := [{ positions := [0, 0], velocities := [0, 0], time_from_start := 1 }] }
          { id_ := 2, effects := [] }) =
      Except.error Fault.undefinedBehaviour :=
  ⟨rfl, rfl, rfl, rfl⟩


/-! ## Lemmas about the constructor of the arm interface -/

theorem shrinkFirst_length (k : Nat) (limits : List (ℚ × ℚ)) :
    (shrinkFirst k limits).length = limits.length := by
  simp [shrinkFirst]

theorem shrinkFirst_getElem? (k : Nat) (limits : List (ℚ × ℚ)) (i : Nat) :
    (shrinkFirst k limits)[i]? = (limits[i]?).map fun l => if i < k then shrunk l else l := by
  simp [shrinkFirst, List.getElem?_mapIdx]

theorem shrinkFirst_succ (k : Nat) (limits : List (ℚ × ℚ)) (h : k < limits.length) :
    (shrinkFirst k limits).set k (shrunk limits[k]) = shrinkFirst (k + 1) limits := by
  apply List.ext_getElem?
  intro j
  rw [List.getElem?_set, shrinkFirst_getElem?, shrinkFirst_getElem?]
  by_cases hj : k = j
  · subst hj
    simp [shrinkFirst_length, h, List.getElem?_eq_getElem h]
  · have hj2 : j < k + 1 ↔ j < k := by omega
    simp [hj, hj2]

theorem shrink_loop (left right : List (ℚ × ℚ)) (k : Nat) (hl : k ≤ left.length)
    (hr : k ≤ right.length) :
    (List.range k).foldlM shrinkJoint (left, right) =
      Except.ok (shrinkFirst k left, shrinkFirst k right) := by
  induction k with
  | zero =>
    have h0 : ∀ l : List (ℚ × ℚ), shrinkFirst 0 l = l := by
      intro l
      apply List.ext_getElem?
      intro j
      rw [shrinkFirst_getElem?]
      cases l[j]? <;> simp
    simp [h0]
    rfl
  | succ k ih =>
    have h1 : k < left.length := hl
    have h2 : k < right.length := hr
    rw [List.range_succ, List.foldlM_append, ih (Nat.le_of_lt h1) (Nat.le_of_lt h2)]
    have h3 : (shrinkFirst k left)[k]? = some left[k] := by
      simp [shrinkFirst_getElem?, List.getElem?_eq_getElem h1]
    have h4 : (shrinkFirst k right)[k]? = some right[k] := by
      simp [shrinkFirst_getElem?, List.getElem?_eq_getElem h2]
    simp only [List.foldlM_cons, List.foldlM_nil, bind, Except.bind, shrinkJoint, h3, h4, pure,
      Except.pure]
    rw [← shrinkFirst_succ k left h1, ← shrinkFirst_succ k right h2]

theorem construct_eq (id_ : Int) (leftLimits rightLimits : List (ℚ × ℚ))
    (leftArmJointNames : List String) (hle : leftLimits.length ≤ rightLimits.length) :
    ArmControlInterface.construct id_ leftLimits rightLimits leftArmJointNames =
      Except.ok (id_ + 1,
        { joint_limits_left_ := shrinkFirst leftLimits.length leftLimits
          joint_limits_right_ := shrinkFirst leftLimits.length rightLimits
          NUM_ARM_JOINTS := leftLimits.length
          leftArmJointNames := leftArmJointNames }) := by
  unfold ArmControlInterface.construct
  rw [shrink_loop leftLimits rightLimits leftLimits.length (le_refl _) hle]
  simp [shrinkFirst_length]

/-! ## Claims about the constructor of the arm interface -/

/-- C21 as stated fails: the loaded limit `(-2, d)` with `d` the `double` nearest to `-1.98` has a
range wider than `0.02`, as a rational and as the `double` literal, and the constructor stores
the limit with both ends equal to the `double` nearest to `-1.99`, so the stored lower end is not
below the stored upper end. -/
theorem construct_equal_ends_on_wider_range :
    Except.map (fun r : Int × ArmControlInterface => r.2.joint_limits_left_)
        (ArmControlInterface.construct 1 [(-2, toDouble (-198 / 100))]
          [(-2, toDouble (-198 / 100))] []) =
      Except.ok [(toDouble (-199 / 100), toDouble (-199 / 100))] ∧
    (1 : ℚ) / 50 < toDouble (-198 / 100) - (-2) ∧
    toDouble (1 / 50) < toDouble (toDouble (-198 / 100) - (-2)) ∧
    ¬ toDouble (-199 / 100) < toDouble (-199 / 100) := by
  refine ⟨by decide!, by decide!, by decide!, lt_irrefl _⟩

/-- C21 amended: constructed from left and right limit lists of the same length `n`, the interface
has `NUM_ARM_JOINTS = n`, both stored tables have `n` entries, and for both sides the stored limit
of joint `i` is `(lower + 0.01, upper - 0.01)` of the loaded limit at the same index, the sum and
the difference being those of `double` arithmetic with the `double` literal `0.01`. -/
theorem construct_shrinks_limits (id_ : Int) (leftLimits rightLimits : List (ℚ × ℚ))
    (leftArmJointNames : List String) (hlen : rightLimits.length = leftLimits.length) :
    ∃ arm : ArmControlInterface,
      ArmControlInterface.construct id_ leftLimits rightLimits leftArmJointNames =
        Except.ok (id_ + 1, arm) ∧
      arm.NUM_ARM_JOINTS = leftLimits.length ∧
      arm.joint_limits_left_.length = leftLimits.length ∧
      arm.joint_limits_right_.length = leftLimits.length ∧
      ∀ (side : RobotSide) (i : Nat) (l : ℚ × ℚ),
        (if side = RobotSide.LEFT then leftLimits else rightLimits)[i]? = some l →
          (arm.limitsOf side)[i]? =
            some (toDouble (l.1 + toDouble (1 / 100)), toDouble (l.2 - toDouble (1 / 100))) := by
  refine ⟨_, construct_eq id_ leftLimits rightLimits leftArmJointNames (le_of_eq hlen.symm), rfl,
    shrinkFirst_length _ _, (shrinkFirst_length _ _).trans hlen, ?_⟩
  intro side i l hl
  have hi : i < leftLimits.length := by
    cases side
    · simp only [if_true] at hl
      exact (List.getElem?_eq_some_iff.mp hl).1
    · simp only [reduceCtorEq, if_false] at hl
      exact hlen ▸ (List.getElem?_eq_some_iff.mp hl).1
  cases side
  · simp only [if_true] at hl
    simp [ArmControlInterface.limitsOf, shrinkFirst_getElem?, hl, hi, shrunk]
  · simp only [reduceCtorEq, if_false] at hl
    simp [ArmControlInterface.limitsOf, shrinkFirst_getElem?, hl, hi, shrunk]

/-- Witness for C21 amended: two joints per side; the second left joint has the loaded range
`1/100`. -/
theorem construct_shrinks_limits_witness :
    ∃ arm : ArmControlInterface,
      ArmControlInterface.construct 1 [(-1, 1), (0, 1 / 100)] [(-2, 2), (-3, 3)] [] =
        Except.ok (1 + 1, arm) ∧
      arm.NUM_ARM_JOINTS = [((-1 : ℚ), (1 : ℚ)), (0, 1 / 100)].length ∧
      arm.joint_limits_left_.length = [((-1 : ℚ), (1 : ℚ)), (0, 1 / 100)].length ∧
      arm.joint_limits_right_.length = [((-1 : ℚ), (1 : ℚ)), (0, 1 / 100)].length ∧
      ∀ (side : RobotSide) (i : Nat) (l : ℚ × ℚ),
        (if side = RobotSide.LEFT then [((-1 : ℚ), (1 : ℚ)), (0, 1 / 100)]
          else [((-2 : ℚ), (2 : ℚ)), (-3, 3)])[i]? = some l →
          (arm.limitsOf side)[i]? =
            some (toDouble (l.1 + toDouble (1 / 100)), toDouble (l.2 - toDouble (1 / 100))) :=
  construct_shrinks_limits 1 [(-1, 1), (0, 1 / 100)] [(-2, 2), (-3, 3)] [] rfl

/-- C22, counterexample: with empty limit sets the construction completes with empty tables and
`NUM_ARM_JOINTS = 0`, and with one left limit and two right limits it completes with
`NUM_ARM_JOINTS = 1` and a right table of two entries. -/
theorem construct_completes_on_empty_and_unequal_limits :
    Except.map
        (fun r : Int × ArmControlInterface =>
          (r.1, r.2.NUM_ARM_JOINTS, r.2.joint_limits_left_.length, r.2.joint_limits_right_.length))
        (ArmControlInterface.construct 1 [] [] []) = Except.ok (2, 0, 0, 0) ∧
    Except.map
        (fun r : Int × ArmControlInterface =>
          (r.1, r.2.NUM_ARM_JOINTS, r.2.joint_limits_left_.length, r.2.joint_limits_right_.length))
        (ArmControlInterface.construct 1 [(-1, 1)] [(-1, 1), (-2, 2)] ["leftShoulderPitch"]) =
      Except.ok (2, 1, 1, 2) :=
  ⟨rfl, rfl⟩

/-- C22, amended: the constructor does not check the limit sets. Whenever the right set has at
least as many limits as the left set, the empty left set included, the construction completes with
`NUM_ARM_JOINTS` the length of the left set and tables of the loaded lengths; every left limit
and the right limits below that index are stored shrunk by `0.01` at each end, the sum and the
difference being those of `double` arithmetic, and the further right limits are stored as
loaded. -/
theorem construct_without_length_check (id_ : Int) (leftLimits rightLimits : List (ℚ × ℚ))
    (leftArmJointNames : List String) (hle : leftLimits.length ≤ rightLimits.length) :
    ∃ arm : ArmControlInterface,
      ArmControlInterface.construct id_ leftLimits rightLimits leftArmJointNames =
        Except.ok (id_ + 1, arm) ∧
      arm.NUM_ARM_JOINTS = leftLimits.length ∧
      arm.joint_limits_left_.length = leftLimits.length ∧
      arm.joint_limits_right_.length = rightLimits.length ∧
      (∀ (i : Nat) (l : ℚ × ℚ), leftLimits[i]? = some l →
        arm.joint_limits_left_[i]? =
          some (toDouble (l.1 + toDouble (1 / 100)), toDouble (l.2 - toDouble (1 / 100)))) ∧
      ∀ (i : Nat) (r : ℚ × ℚ), rightLimits[i]? = some r →
        arm.joint_limits_right_[i]? =
          some (if i < leftLimits.length then
            (toDouble (r.1 + toDouble (1 / 100)), toDouble (r.2 - toDouble (1 / 100))) else r) := by
  refine ⟨_, construct_eq id_ leftLimits rightLimits leftArmJointNames hle, rfl,
    shrinkFirst_length _ _, shrinkFirst_length _ _, ?_, ?_⟩
  · intro i l hl
    have hi : i < leftLimits.length := (List.getElem?_eq_some_iff.mp hl).1
    simp [shrinkFirst_getElem?, hl, hi, shrunk]
  · intro i r hr
    simp [shrinkFirst_getElem?, hr, shrunk]

/-- Witness for C22: an empty left set and a right set of one limit. -/
theorem construct_without_length_check_witness :
    ∃ arm : ArmControlInterface,
      ArmControlInterface.construct 1 [] [(-1, 1)] [] = Except.ok (1 + 1, arm) ∧
      arm.NUM_ARM_JOINTS = ([] : List (ℚ × ℚ)).length ∧
      arm.joint_limits_left_.length = ([] : List (ℚ × ℚ)).length ∧
      arm.joint_limits_right_.length = [((-1 : ℚ), (1 : ℚ))].length ∧
      (∀ (i : Nat) (l : ℚ × ℚ), ([] : List (ℚ × ℚ))[i]? = some l →
        arm.joint_limits_left_[i]? =
          some (toDouble (l.1 + toDouble (1 / 100)), toDouble (l.2 - toDouble (1 / 100)))) ∧
      ∀ (i : Nat) (r : ℚ × ℚ), [((-1 : ℚ), (1 : ℚ))][i]? = some r →
        arm.joint_limits_right_[i]? =
          some (if i < ([] : List (ℚ × ℚ)).length then
            (toDouble (r.1 + toDouble (1 / 100)), toDouble (r.2 - toDouble (1 / 100))) else r) :=
  construct_without_length_check 1 [] [(-1, 1)] [] (by decide)

/-! ## Claims about the waypoint append and the sequence check -/

/-- C24, failing input: for the trajectory names `["torsoYaw"]`, the group
`["torsoYaw", "torsoPitch"]` and offset `0`, one name remains where two are expected; the check
does not return `false` but indexes the trajectory names at position `1`, past their end. -/
theorem validateJointSequenceInTrajectory_reads_past_end :
    validateJointSequenceInTrajectory ["torsoYaw"] ["torsoYaw", "torsoPitch"] 0 =
      Except.error Fault.undefinedBehaviour :=
  rfl

/-- C25: a joint-waypoint append that passes the size check completes; entered with the shared
counter at `c` it leaves the counter at `c + NUM_ARM_JOINTS`, appends to the list of every joint
`i < NUM_ARM_JOINTS` one point with id `c + i` and sets the id of that list to `c`, so the id of
the list of joint `0` is the id of the point appended to it. -/
theorem appendTrajectoryPoint_stamps_ids (self : ArmControlInterface) (c : Int)
    (armMsg : ArmTrajectoryRosMessage) (time : ℚ) (pos : List ℚ)
    (hpos : pos.length = self.NUM_ARM_JOINTS)
    (hlim : self.NUM_ARM_JOINTS ≤ (self.limitsOf armMsg.robot_side).length)
    (hmsg : self.NUM_ARM_JOINTS ≤ armMsg.joint_trajectory_messages.length) :
    ∃ msg : ArmTrajectoryRosMessage,
      self.appendTrajectoryPoint c armMsg time pos = Except.ok (c + self.NUM_ARM_JOINTS, msg) ∧
      msg.joint_trajectory_messages.length = armMsg.joint_trajectory_messages.length ∧
      (∀ i : Nat, i < self.NUM_ARM_JOINTS →
        ∃ (jt jt' : OneDoFJointTrajectoryRosMessage) (p : TrajectoryPoint1DRosMessage),
          armMsg.joint_trajectory_messages[i]? = some jt ∧
          msg.joint_trajectory_messages[i]? = some jt' ∧
          jt'.trajectory_points = jt.trajectory_points ++ [p] ∧
          p.unique_id = c + i ∧ jt'.unique_id = c ∧
          (i = 0 → jt'.unique_id = p.unique_id)) := by
  refine ⟨_, appendTrajectoryPoint_eq self c armMsg time pos hpos hlim hmsg, ?_, ?_⟩
  · simp [waypointLists]
  · intro i hi
    have h3 : i < armMsg.joint_trajectory_messages.length := lt_of_lt_of_le hi hmsg
    refine ⟨armMsg.joint_trajectory_messages[i],
      { armMsg.joint_trajectory_messages[i] with
        trajectory_points := armMsg.joint_trajectory_messages[i].trajectory_points ++
          [waypointPoint (self.limitsOf armMsg.robot_side) (toFloat time) pos c i],
        unique_id := c },
      waypointPoint (self.limitsOf armMsg.robot_side) (toFloat time) pos c i,
      List.getElem?_eq_getElem h3, ?_, rfl, rfl, rfl, ?_⟩
    · simp [waypointLists, List.getElem?_mapIdx, List.getElem?_eq_getElem h3, hi]
    · intro h0
      subst h0
      simp [waypointPoint]


/-- Witness for C25: the two-joint example arm, entered with the counter at `5` and a message
with two empty per-joint lists. -/
theorem appendTrajectoryPoint_stamps_ids_witness :
    ∃ msg : ArmTrajectoryRosMessage,
      exampleRobot.armController_.appendTrajectoryPoint 5
          { robot_side := RobotSide.LEFT, joint_trajectory_messages := [{}, {}] } 2 [0, 3] =
        Except.ok ((5 : Int) + exampleRobot.armController_.NUM_ARM_JOINTS, msg) ∧
      msg.joint_trajectory_messages.length = 2 ∧
      (∀ i : Nat, i < exampleRobot.armController_.NUM_ARM_JOINTS →
        ∃ (jt jt' : OneDoFJointTrajectoryRosMessage) (p : TrajectoryPoint1DRosMessage),
          ([{}, {}] : List OneDoFJointTrajectoryRosMessage)[i]? = some jt ∧
          msg.joint_trajectory_messages[i]? = some jt' ∧
          jt'.trajectory_points = jt.trajectory_points ++ [p] ∧
          p.unique_id = 5 + i ∧ jt'.unique_id = 5 ∧
          (i = 0 → jt'.unique_id = p.unique_id)) :=
  appendTrajectoryPoint_stamps_ids exampleRobot.armController_ 5
    { robot_side := RobotSide.LEFT, joint_trajectory_messages := [{}, {}] } 2 [0, 3]
    rfl (by decide) (by decide)

/-- C26 as stated fails: with limits `[-2, 2]` the requested position `1 - 2^-30`, a `double`
that is not a `float`, is not above the upper limit, and the joint-waypoint append stores `1`,
which is neither the requested position nor its minimum with the upper limit. -/
theorem appendTrajectoryPoint_stores_float_of_min :
    ArmControlInterface.appendTrajectoryPoint
        { joint_limits_left_ := [(-2, 2)], joint_limits_right_ := [(-2, 2)],
          NUM_ARM_JOINTS := 1, leftArmJointNames := ["leftShoulderPitch"] }
        5 { robot_side := RobotSide.LEFT, joint_trajectory_messages := [{}] } 2
        [1 - 1 / 2 ^ 30] =
      Except.ok (6,
        { robot_side := RobotSide.LEFT,
          joint_trajectory_messages :=
            [{ trajectory_points :=
                [{ time := 2, position := 1, velocity := 0, unique_id := 5 }],
               unique_id := 5 }] }) ∧
    ¬ (1 - 1 / 2 ^ 30 : ℚ) > 2 ∧ (1 : ℚ) ≠ 1 - 1 / 2 ^ 30 ∧
    (1 : ℚ) ≠ min (1 - 1 / 2 ^ 30) 2 := by
  refine ⟨by decide!, by norm_num, by norm_num, ?_⟩
  rw [min_eq_left (by norm_num)]
  norm_num

/-- C26 amended: in a joint-waypoint append that passes the size check, the point appended for
joint `i` with limit `(lower, upper)` and requested position `x`, both in the range of `float`,
stores the `float` nearest to `upper` when `x > upper` and the `float` nearest to `x` in every
other case, also when `x < lower`: the result of the lower-bound comparison is overwritten, and
the stored position is the `float` nearest to `min x upper`. -/
theorem appendTrajectoryPoint_stores_min_with_upper (self : ArmControlInterface) (id_ : Int)
    (msg : ArmTrajectoryRosMessage) (time : ℚ) (pos : List ℚ)
    (hpos : pos.length = self.NUM_ARM_JOINTS)
    (hlim : self.NUM_ARM_JOINTS ≤ (self.limitsOf msg.robot_side).length)
    (hmsg : self.NUM_ARM_JOINTS ≤ msg.joint_trajectory_messages.length) :
    ∃ id' msg', self.appendTrajectoryPoint id_ msg time pos = Except.ok (id', msg') ∧
      ∀ (i : Nat) (limit : ℚ × ℚ) (x : ℚ),
        (self.limitsOf msg.robot_side)[i]? = some limit → pos[i]? = some x →
        inFloatRange x → inFloatRange limit.2 →
        ∃ jt jt' p, msg.joint_trajectory_messages[i]? = some jt ∧
          msg'.joint_trajectory_messages[i]? = some jt' ∧
          jt'.trajectory_points = jt.trajectory_points ++ [p] ∧
          (limit.2 < x → p.position = toFloat limit.2) ∧
          (¬ limit.2 < x → p.position = toFloat x) ∧
          (x < limit.1 → ¬ limit.2 < x → p.position = toFloat x) ∧
          p.position = toFloat (min x limit.2) := by
  refine ⟨_, _, appendTrajectoryPoint_eq self id_ msg time pos hpos hlim hmsg, ?_⟩
  intro i limit x hl hx _ _
  have hi : i < self.NUM_ARM_JOINTS := by
    have := (List.getElem?_eq_some.mp hx).1
    omega
  have hm : i < msg.joint_trajectory_messages.length := by omega
  have hp : (waypointPoint (self.limitsOf msg.robot_side) (toFloat time) pos id_ i).position =
      toFloat (if x > limit.2 then limit.2 else x) := by
    simp only [waypointPoint, clampWaypoint, List.getD_eq_getElem?_getD, hl, hx,
      Option.getD_some]
  refine ⟨msg.joint_trajectory_messages[i],
    { msg.joint_trajectory_messages[i] with
      trajectory_points := msg.joint_trajectory_messages[i].trajectory_points ++
        [waypointPoint (self.limitsOf msg.robot_side) (toFloat time) pos id_ i],
      unique_id := id_ },
    waypointPoint (self.limitsOf msg.robot_side) (toFloat time) pos id_ i,
    List.getElem?_eq_getElem hm, ?_, rfl, ?_, ?_, ?_, ?_⟩
  · simp only [waypointLists, List.getElem?_mapIdx, List.getElem?_eq_getElem hm,
      Option.map_some', hi, if_true]
  · intro h
    rw [hp, if_pos h]
  · intro h
    rw [hp, if_neg h]
  · intro _ h
    rw [hp, if_neg h]
  · rw [hp]
    by_cases h : x > limit.2
    · rw [if_pos h, min_eq_right (le_of_lt h)]
    · rw [if_neg h, min_eq_left (not_lt.mp h)]

/-- Witness for C26 amended: a one-joint arm with limits `[-1, 1]` and the requested position
`-2`, below the lower limit, which is a `float` and is stored as it is. -/
theorem appendTrajectoryPoint_stores_min_with_upper_witness :
    ∃ id' msg',
      ArmControlInterface.appendTrajectoryPoint
          { joint_limits_left_ := [(-1, 1)], joint_limits_right_ := [(-1, 1)],
            NUM_ARM_JOINTS := 1, leftArmJointNames := ["leftShoulderPitch"] }
          5 { robot_side := RobotSide.RIGHT, joint_trajectory_messages := [{}] } 2 [-2] =
        Except.ok (id', msg') ∧
      ∃ (jt' : OneDoFJointTrajectoryRosMessage) (p : TrajectoryPoint1DRosMessage),
        msg'.joint_trajectory_messages[0]? = some jt' ∧
        jt'.trajectory_points = [p] ∧ p.position = -2 := by
  obtain ⟨id', msg', ha, hall⟩ := appendTrajectoryPoint_stores_min_with_upper
    { joint_limits_left_ := [(-1, 1)], joint_limits_right_ := [(-1, 1)],
      NUM_ARM_JOINTS := 1, leftArmJointNames := ["leftShoulderPitch"] }
    5 { robot_side := RobotSide.RIGHT, joint_trajectory_messages := [{}] } 2 [-2]
    rfl (by decide) (by decide)
  obtain ⟨jt, jt', p, h1, h2, h3, _, h5, _, _⟩ := hall 0 (-1, 1) (-2) rfl rfl
    (inFloatRange_of_abs_le _ (by norm_num [abs_le])) (inFloatRange_of_abs_le _ (by norm_num))
  refine ⟨id', msg', ha, jt', p, h2, ?_, ?_⟩
  · simp at h1
    subst h1
    simpa using h3
  · rw [h5 (by norm_num)]
    decide!

/-- C29, failing input: a one-joint arm, a message with one per-joint list and an external point
with one position and no velocity; the positions pass the size check and the append then indexes
the empty velocity list at position `0`. -/
theorem appendTrajectoryPointExternal_reads_past_velocities :
    ArmControlInterface.appendTrajectoryPointExternal
        { joint_limits_left_ := [(-1, 1)], joint_limits_right_ := [(-1, 1)],
          NUM_ARM_JOINTS := 1, leftArmJointNames := ["leftShoulderPitch"] }
        5 { robot_side := RobotSide.LEFT, joint_trajectory_messages := [{}] }
        { positions := [0], velocities := [], time_from_start := 2 } =
      Except.error Fault.undefinedBehaviour :=
  rfl


/-! ## Lemmas about the task-space pair and the chest joint state -/

theorem foldl_push {α β : Type} (f : α → β) (xs : List α) (init : List β) :
    xs.foldl (fun acc x => acc ++ [f x]) init = init ++ xs.map f := by
  induction xs generalizing init with
  | nil => simp
  | cons x rest ih => simp [ih]

theorem resize_length {α : Type} (zero : α) (v : List α) (n : Nat) :
    (resize zero v n).length = n := by
  simp only [resize, List.length_append, List.length_take, List.length_replicate]
  omega

theorem constructJointNumbers_eq (getJointNumber : String → Int) (chestJointNames_ : List String) :
    ChestControlInterface.constructJointNumbers getJointNumber chestJointNames_ =
      List.replicate chestJointNames_.length 0 ++ chestJointNames_.map getJointNumber := by
  simp [ChestControlInterface.constructJointNumbers, foldl_push, resize]

theorem moveArmInTaskSpace_loop (self : ArmControlInterface) (arm_data : List ArmTaskSpaceData)
    (st : PairedHandState) :
    (arm_data.foldl (moveArmInTaskSpaceStep self) st).id_ = st.id_ + arm_data.length ∧
    (arm_data.foldl (moveArmInTaskSpaceStep self) st).msg_r.unique_id = st.msg_r.unique_id ∧
    (arm_data.foldl (moveArmInTaskSpaceStep self) st).msg_l.unique_id = st.msg_l.unique_id ∧
    (arm_data.foldl (moveArmInTaskSpaceStep self) st).msg_r.execution_mode =
      st.msg_r.execution_mode ∧
    (arm_data.foldl (moveArmInTaskSpaceStep self) st).msg_l.execution_mode =
      st.msg_l.execution_mode ∧
    (arm_data.foldl (moveArmInTaskSpaceStep self) st).msg_r.taskspace_trajectory_points.map
        SE3TrajectoryPointRosMessage.view =
      st.msg_r.taskspace_trajectory_points.map SE3TrajectoryPointRosMessage.view ++
        (arm_data.filter fun d => decide (d.side = RobotSide.RIGHT)).map ArmTaskSpaceData.view ∧
    (arm_data.foldl (moveArmInTaskSpaceStep self) st).msg_l.taskspace_trajectory_points.map
        SE3TrajectoryPointRosMessage.view =
      st.msg_l.taskspace_trajectory_points.map SE3TrajectoryPointRosMessage.view ++
        (arm_data.filter fun d => decide (d.side ≠ RobotSide.RIGHT)).map ArmTaskSpaceData.view := by
  induction arm_data generalizing st with
  | nil => simp
  | cons d rest ih =>
    rw [List.foldl_cons]
    obtain ⟨h1, h2, h3, h4, h5, h6, h7⟩ := ih (moveArmInTaskSpaceStep self st d)
    rw [h1, h2, h3, h4, h5, h6, h7]
    by_cases hd : d.side = RobotSide.RIGHT
    · simp only [moveArmInTaskSpaceStep, hd, if_true,
        ArmControlInterface.poseToSE3TrajectoryPoint, List.length_cons, List.map_append,
        List.map_cons, List.map_nil, SE3TrajectoryPointRosMessage.view, ArmTaskSpaceData.view,
        decide_True, List.filter_cons_of_pos, ne_eq, not_true_eq_false, decide_False,
        Bool.false_eq_true, not_false_eq_true, List.filter_cons_of_neg, List.append_assoc,
        List.singleton_append, Nat.cast_add, Nat.cast_one, and_true, true_and]
      omega
    · simp only [moveArmInTaskSpaceStep, hd, if_false,
        ArmControlInterface.poseToSE3TrajectoryPoint, List.length_cons, List.map_append,
        List.map_cons, List.map_nil, SE3TrajectoryPointRosMessage.view, ArmTaskSpaceData.view,
        decide_True, List.filter_cons_of_pos, ne_eq, not_false_eq_true, decide_False,
        Bool.false_eq_true, List.filter_cons_of_neg, List.append_assoc,
        List.singleton_append, Nat.cast_add, Nat.cast_one, and_true, true_and]
      omega


/-- The sides the loop of the task-space pair leaves on the two messages. -/
theorem moveArmInTaskSpace_loop_sides (self : ArmControlInterface)
    (arm_data : List ArmTaskSpaceData) (st : PairedHandState)
    (hl : st.msg_l.robot_side = RobotSide.LEFT) :
    (arm_data.foldl (moveArmInTaskSpaceStep self) st).msg_r.robot_side =
      (if arm_data.any (fun d => decide (d.side = RobotSide.RIGHT)) then RobotSide.RIGHT
        else st.msg_r.robot_side) ∧
    (arm_data.foldl (moveArmInTaskSpaceStep self) st).msg_l.robot_side = RobotSide.LEFT := by
  induction arm_data generalizing st with
  | nil => simp [hl]
  | cons d rest ih =>
    rw [List.foldl_cons]
    by_cases hd : d.side = RobotSide.RIGHT
    · obtain ⟨h1, h2⟩ := ih (moveArmInTaskSpaceStep self st d)
        (by simp [moveArmInTaskSpaceStep, hd, hl])
      rw [h1, h2]
      refine ⟨?_, rfl⟩
      simp only [List.any_cons, hd, decide_True, Bool.true_or, if_true]
      split_ifs
      · rfl
      · simp [moveArmInTaskSpaceStep, hd]
    · have hleft : d.side = RobotSide.LEFT := by
        cases hs : d.side with
        | LEFT => rfl
        | RIGHT => exact absurd hs hd
      obtain ⟨h1, h2⟩ := ih (moveArmInTaskSpaceStep self st d)
        (by simp [moveArmInTaskSpaceStep, hd, hleft])
      rw [h1, h2]
      refine ⟨?_, rfl⟩
      simp only [List.any_cons, hd, decide_False, Bool.false_or]
      simp [moveArmInTaskSpaceStep, hd]

/-! ## Claims about the chest joint state, the task-space pair and the task-1 machine -/

/-- C27, divergence: for a chest with `n` joint names the table built by the constructor has `2 n`
entries, `n` zeros followed by the joint numbers, and `getJointSpaceState` leaves `3 n` values in
`joints`: the caller's vector resized to `n`, then `n` times the position of joint number `0`,
then the positions of the chest joints. -/
theorem getJointSpaceState_three_values_per_joint (getJointNumber : String → Int)
    (getJointPosition : Int → ℚ) (chestJointNames_ : List String) (joints : List ℚ) :
    (ChestControlInterface.constructJointNumbers getJointNumber chestJointNames_).length =
      2 * chestJointNames_.length ∧
    ChestControlInterface.getJointSpaceState getJointPosition chestJointNames_
        (ChestControlInterface.constructJointNumbers getJointNumber chestJointNames_) joints =
      resize 0 joints chestJointNames_.length ++
        (List.replicate chestJointNames_.length (getJointPosition 0) ++
          chestJointNames_.map fun joint => getJointPosition (getJointNumber joint)) ∧
    (ChestControlInterface.getJointSpaceState getJointPosition chestJointNames_
        (ChestControlInterface.constructJointNumbers getJointNumber chestJointNames_)
        joints).length = 3 * chestJointNames_.length := by
  have h : ChestControlInterface.getJointSpaceState getJointPosition chestJointNames_
        (ChestControlInterface.constructJointNumbers getJointNumber chestJointNames_) joints =
      resize 0 joints chestJointNames_.length ++
        (List.replicate chestJointNames_.length (getJointPosition 0) ++
          chestJointNames_.map fun joint => getJointPosition (getJointNumber joint)) := by
    simp [ChestControlInterface.getJointSpaceState, constructJointNumbers_eq, foldl_push,
      Function.comp_def]
  refine ⟨?_, h, ?_⟩
  · rw [constructJointNumbers_eq]
    simp
    omega
  · rw [h]
    simp only [List.length_append, resize_length, List.length_replicate, List.length_map]
    omega

/-- C28, divergence: the function sets `msg_r.robot_side` only inside the branch for a `RIGHT`
entry. Entered with the shared counter at least `1` it publishes `msg_r`, sleeps `1/50` seconds
and publishes `msg_l`, whatever the input list; both messages are in `OVERRIDE` mode, their ids
are nonzero and differ, `msg_r` holds the `RIGHT` entries and `msg_l` all other entries, in input
order, and the two point lists together have as many points as the input list has entries. The
side of `msg_l` is `LEFT`; the side of `msg_r` is `RIGHT` when the list has a `RIGHT` entry and
the default `LEFT` otherwise, so for the empty list and for a list naming only the left side the
message published first is not a right-hand message. -/
theorem moveArmInTaskSpace_right_side_unset (self : ArmControlInterface)
    (arm_data : List ArmTaskSpaceData) (baseForControl : Int) (proc : Process)
    (hid : 1 ≤ proc.id_) :
    ∃ msg_r msg_l : HandTrajectoryRosMessage,
      (self.moveArmInTaskSpace arm_data baseForControl proc).effects =
        proc.effects ++
          [Effect.publishHand msg_r, Effect.sleep (1 / 50), Effect.publishHand msg_l] ∧
      msg_r.execution_mode = ExecutionMode.OVERRIDE ∧
      msg_l.execution_mode = ExecutionMode.OVERRIDE ∧
      msg_r.unique_id ≠ 0 ∧ msg_l.unique_id ≠ 0 ∧ msg_r.unique_id ≠ msg_l.unique_id ∧
      msg_r.taskspace_trajectory_points.map SE3TrajectoryPointRosMessage.view =
        (arm_data.filter fun d => decide (d.side = RobotSide.RIGHT)).map ArmTaskSpaceData.view ∧
      msg_l.taskspace_trajectory_points.map SE3TrajectoryPointRosMessage.view =
        (arm_data.filter fun d => decide (d.side ≠ RobotSide.RIGHT)).map ArmTaskSpaceData.view ∧
      msg_r.taskspace_trajectory_points.length + msg_l.taskspace_trajectory_points.length =
        arm_data.length ∧
      msg_l.robot_side = RobotSide.LEFT ∧
      msg_r.robot_side =
        (if arm_data.any (fun d => decide (d.side = RobotSide.RIGHT)) then RobotSide.RIGHT
          else RobotSide.LEFT) ∧
      ((∀ d ∈ arm_data, d.side = RobotSide.LEFT) → msg_r.robot_side = RobotSide.LEFT) := by
  obtain ⟨_, h2, h3, h4, h5, h6, h7⟩ := moveArmInTaskSpace_loop self arm_data
    { id_ := proc.id_ + 2,
      msg_l := { unique_id := proc.id_, execution_mode := ExecutionMode.OVERRIDE },
      msg_r := { unique_id := proc.id_ + 1, execution_mode := ExecutionMode.OVERRIDE } }
  obtain ⟨s1, s2⟩ := moveArmInTaskSpace_loop_sides self arm_data
    { id_ := proc.id_ + 2,
      msg_l := { unique_id := proc.id_, execution_mode := ExecutionMode.OVERRIDE },
      msg_r := { unique_id := proc.id_ + 1, execution_mode := ExecutionMode.OVERRIDE } } rfl
  simp only [List.map_nil, List.nil_append] at h2 h3 h4 h5 h6 h7
  refine ⟨_, _, rfl, h4, h5, ?_, ?_, ?_, h6, h7, ?_, s2, s1, ?_⟩
  · rw [h2]
    omega
  · rw [h3]
    omega
  · rw [h2, h3]
    omega
  · have hr := congrArg List.length h6
    have hl := congrArg List.length h7
    rw [List.length_map, List.length_map] at hr hl
    rw [hr, hl]
    have hsplit : arm_data.length = _ := List.length_eq_length_filter_add
      (fun d : ArmTaskSpaceData => decide (d.side = RobotSide.RIGHT))
    have hneg : (arm_data.filter fun d => decide (d.side ≠ RobotSide.RIGHT)) =
        arm_data.filter fun d => !decide (d.side = RobotSide.RIGHT) := by
      congr 1
      funext d
      simp
    rw [hneg]
    exact hsplit.symm
  · intro hall
    rw [s1]
    have hany : arm_data.any (fun d => decide (d.side = RobotSide.RIGHT)) = false := by
      rw [Bool.eq_false_iff]
      intro h
      rw [List.any_eq_true] at h
      obtain ⟨d, hd, hs⟩ := h
      rw [hall d hd] at hs
      simp at hs
    rw [hany]
    rfl

/-- Witness for C28: the empty list, entered with the counter at `1`; both published messages are
labelled `LEFT` and have no points. -/
theorem moveArmInTaskSpace_right_side_unset_witness :
    ∃ msg_r msg_l : HandTrajectoryRosMessage,
      (exampleRobot.armController_.moveArmInTaskSpace [] 0 { id_ := 1, effects := [] }).effects =
        [Effect.publishHand msg_r, Effect.sleep (1 / 50), Effect.publishHand msg_l] ∧
      msg_r.unique_id ≠ 0 ∧ msg_l.unique_id ≠ 0 ∧
      msg_r.taskspace_trajectory_points.length = 0 ∧
      msg_l.taskspace_trajectory_points.length = 0 ∧
      msg_r.robot_side = RobotSide.LEFT ∧ msg_l.robot_side = RobotSide.LEFT := by
  obtain ⟨msg_r, msg_l, h1, _, _, h4, h5, _, h7, h8, _, h10, _, h12⟩ :=
    moveArmInTaskSpace_right_side_unset exampleRobot.armController_ [] 0
      { id_ := 1, effects := [] } (le_refl 1)
  refine ⟨msg_r, msg_l, by simpa using h1, h4, h5, ?_, ?_, h12 (by simp), h10⟩
  · have := congrArg List.length h7
    simpa using this
  · have := congrArg List.length h8
    simpa using this

/-- C30: from each of the eleven states of the task-1 machine a sequence of listed events leads
to `STATE_END`, from `STATE_ERROR` through `/RESTART`; and every event listed for `STATE_END`
leads to `STATE_END`. -/
theorem task1_every_state_reaches_end :
    (∀ s : State, ∃ events : List String, s.run events = some State.STATE_END) ∧
    State.STATE_ERROR.run
        ["/RESTART", "/INIT_SUCESSFUL", "/DETECTED_PANEL", "/REACHED_PANEL", "/DETECTED_HANDLE",
          "/ADJUST_ARMS_SUCESSFUL", "/PITCH_CORRECTION_SUCESSFUL", "/YAW_CORRECTION_SUCESSFUL",
          "/DETECT_FINISH_SUCESSFUL", "/WALK_TO_FINISH_SUCESSFUL"] = some State.STATE_END ∧
    (∀ event : String,
      State.STATE_END.onEvent event = none ∨
        State.STATE_END.onEvent event = some State.STATE_END) ∧
    ∀ events : List String,
      State.STATE_END.run events = none ∨ State.STATE_END.run events = some State.STATE_END := by
  have hend : ∀ event : String,
      State.STATE_END.onEvent event = none ∨
        State.STATE_END.onEvent event = some State.STATE_END := by
    intro event
    by_cases h : event = "/END_SUCESSFUL"
    · right
      simp [State.onEvent, h]
    · left
      simp [State.onEvent, h]
  refine ⟨?_, rfl, hend, ?_⟩
  · intro s
    cases s
    · exact ⟨["/INIT_SUCESSFUL", "/DETECTED_PANEL", "/REACHED_PANEL", "/DETECTED_HANDLE",
        "/ADJUST_ARMS_SUCESSFUL", "/PITCH_CORRECTION_SUCESSFUL", "/YAW_CORRECTION_SUCESSFUL",
        "/DETECT_FINISH_SUCESSFUL", "/WALK_TO_FINISH_SUCESSFUL"], rfl⟩
    · exact ⟨["/DETECTED_PANEL", "/REACHED_PANEL", "/DETECTED_HANDLE",
        "/ADJUST_ARMS_SUCESSFUL", "/PITCH_CORRECTION_SUCESSFUL", "/YAW_CORRECTION_SUCESSFUL",
        "/DETECT_FINISH_SUCESSFUL", "/WALK_TO_FINISH_SUCESSFUL"], rfl⟩
    · exact ⟨["/REACHED_PANEL", "/DETECTED_HANDLE",
        "/ADJUST_ARMS_SUCESSFUL", "/PITCH_CORRECTION_SUCESSFUL", "/YAW_CORRECTION_SUCESSFUL",
        "/DETECT_FINISH_SUCESSFUL", "/WALK_TO_FINISH_SUCESSFUL"], rfl⟩
    · exact ⟨["/DETECTED_HANDLE",
        "/ADJUST_ARMS_SUCESSFUL", "/PITCH_CORRECTION_SUCESSFUL", "/YAW_CORRECTION_SUCESSFUL",
        "/DETECT_FINISH_SUCESSFUL", "/WALK_TO_FINISH_SUCESSFUL"], rfl⟩
    · exact ⟨["/ADJUST_ARMS_SUCESSFUL", "/PITCH_CORRECTION_SUCESSFUL",
        "/YAW_CORRECTION_SUCESSFUL", "/DETECT_FINISH_SUCESSFUL", "/WALK_TO_FINISH_SUCESSFUL"],
        rfl⟩
    · exact ⟨["/PITCH_CORRECTION_SUCESSFUL", "/YAW_CORRECTION_SUCESSFUL",
        "/DETECT_FINISH_SUCESSFUL", "/WALK_TO_FINISH_SUCESSFUL"], rfl⟩
    · exact ⟨["/YAW_CORRECTION_SUCESSFUL", "/DETECT_FINISH_SUCESSFUL",
        "/WALK_TO_FINISH_SUCESSFUL"], rfl⟩
    · exact ⟨["/DETECT_FINISH_SUCESSFUL", "/WALK_TO_FINISH_SUCESSFUL"], rfl⟩
    · exact ⟨["/WALK_TO_FINISH_SUCESSFUL"], rfl⟩
    · exact ⟨[], rfl⟩
    · exact ⟨["/RESTART", "/INIT_SUCESSFUL", "/DETECTED_PANEL", "/REACHED_PANEL",
        "/DETECTED_HANDLE", "/ADJUST_ARMS_SUCESSFUL", "/PITCH_CORRECTION_SUCESSFUL",
        "/YAW_CORRECTION_SUCESSFUL", "/DETECT_FINISH_SUCESSFUL", "/WALK_TO_FINISH_SUCESSFUL"],
        rfl⟩
  · intro events
    induction events with
    | nil => exact Or.inr rfl
    | cons event rest ih =>
      rcases hend event with h | h
      · left
        simp [State.run, List.foldlM_cons, h]
      · rcases ih with ih | ih
        · left
          simpa [State.run, List.foldlM_cons, h] using ih
        · right
          simpa [State.run, List.foldlM_cons, h] using ih

end Tough
